import Mathlib

/-!
# AI proctoring: session aggregator, event ingestion, session lifecycle, detection loop

A shallow embedding of

* `server/routes/events.js`   (`router.post('/')`, `updateSessionCounters`),
* `server/routes/proctoring.js` (`router.post('/start')`, `router.post('/stop')`,
  `router.get('/sessions/:id')`, `router.put('/sessions/:id/focus-score')`),
* `server/routes/reports.js` (`generateReport`, `generateRecommendations`),
* `server/index.js` (the socket handlers),
* `client/src/components/VideoProctoring.js` (`runDetection` and the effect that starts
  it, `detectFace`),
* `client/src/contexts/ProctoringContext.js` (`logEvent`, the `'proctoring-alert'` handler),
* `client/src/components/AlertPanel.js` (`recentAlerts`).

Timestamps are milliseconds since the epoch (`Date` values, `Date.now()`), kept as `Int`.
Counters are JavaScript numbers holding integers, kept as `Int`.  Where the source divides
or multiplies by a fraction, the result is a double, kept as the rational it is (`toDouble`).
The Sequelize models (`server/models`) are not part of the sources; the store is a pair of
row lists, `findByPk` is a lookup by `id`, `create` appends a row, and `instance.update`
overwrites the listed columns of the rows with the instance's `id`.
-/

namespace Proctoring

/-! ## Data model -/

/-- One row of `proctoring_sessions`. -/
structure Session where
  id : String
  candidateName : String
  interviewerName : Option String
  startTime : Int
  endTime : Option Int
  duration : Option Int
  status : String
  totalEvents : Int
  suspiciousEvents : Int
  focusLostCount : Int
  faceAbsentCount : Int
  multipleFacesCount : Int
  phoneDetectedCount : Int
  bookDetectedCount : Int
  deviceDetectedCount : Int
  drowsinessCount : Int
  integrityScore : Int
  focusScore : Option Int
  deriving DecidableEq, Repr

/-- One row of `proctoring_events`.  `severity = none` means that the route passed no
severity to `create` (the column then holds the model's default, which the sources do not
show).  The columns `coordinates`, `imagePath` and `metadata` are stored as received and
read by no route; they are left out. -/
structure Event where
  id : String
  sessionId : String
  eventType : String
  severity : Option String
  timestamp : Int
  duration : Option Int
  confidence : Option Rat
  description : Option String
  isResolved : Bool
  deriving DecidableEq, Repr

/-- The store: the two tables, rows in creation order. -/
structure Db where
  sessions : List Session
  events : List Event
  deriving DecidableEq, Repr

/-- The object handed to `session.update(...)`: a column is written iff it is present. -/
structure UpdateData where
  totalEvents : Option Int := none
  suspiciousEvents : Option Int := none
  focusLostCount : Option Int := none
  faceAbsentCount : Option Int := none
  multipleFacesCount : Option Int := none
  phoneDetectedCount : Option Int := none
  bookDetectedCount : Option Int := none
  deviceDetectedCount : Option Int := none
  drowsinessCount : Option Int := none
  integrityScore : Option Int := none
  endTime : Option Int := none
  duration : Option Int := none
  status : Option String := none
  focusScore : Option (Option Int) := none
  deriving DecidableEq, Repr

/-- JavaScript `a || b` for a possibly absent number `a`: `a` when it is present and not
zero, else `b`. -/
def jsOr (a : Option Int) (b : Int) : Int :=
  match a with
  | some v => if v ≠ 0 then v else b
  | none => b

/-- Effect of `instance.update(u)` on the instance's columns. -/
def Session.applyUpdate (s : Session) (u : UpdateData) : Session :=
  { s with
    totalEvents := u.totalEvents.getD s.totalEvents
    suspiciousEvents := u.suspiciousEvents.getD s.suspiciousEvents
    focusLostCount := u.focusLostCount.getD s.focusLostCount
    faceAbsentCount := u.faceAbsentCount.getD s.faceAbsentCount
    multipleFacesCount := u.multipleFacesCount.getD s.multipleFacesCount
    phoneDetectedCount := u.phoneDetectedCount.getD s.phoneDetectedCount
    bookDetectedCount := u.bookDetectedCount.getD s.bookDetectedCount
    deviceDetectedCount := u.deviceDetectedCount.getD s.deviceDetectedCount
    drowsinessCount := u.drowsinessCount.getD s.drowsinessCount
    integrityScore := u.integrityScore.getD s.integrityScore
    endTime := match u.endTime with
      | some t => some t
      | none => s.endTime
    duration := match u.duration with
      | some d => some d
      | none => s.duration
    status := u.status.getD s.status
    focusScore := u.focusScore.getD s.focusScore }

/-- `ProctoringSession.findByPk(id)`. -/
def findByPk (db : Db) (id : String) : Option Session :=
  db.sessions.find? (fun s => s.id == id)

/-- `session.update(u)` seen from the store: the rows with the instance's id get the
listed columns. -/
def Db.updateSession (db : Db) (id : String) (u : UpdateData) : Db :=
  { db with sessions := db.sessions.map (fun r => if r.id = id then r.applyUpdate u else r) }

/-- `ProctoringEvent.create(e)`. -/
def Db.createEvent (db : Db) (e : Event) : Db :=
  { db with events := db.events ++ [e] }

/-- `ProctoringSession.create(s)`. -/
def Db.createSession (db : Db) (s : Session) : Db :=
  { db with sessions := db.sessions ++ [s] }

/-! ## `events.js`: the session aggregator -/

/-- The `updateData` object built by `updateSessionCounters(session, eventType)`
(events.js 173-208). -/
def counterUpdate (session : Session) (eventType : String) : UpdateData :=
  let updateData : UpdateData := { totalEvents := some (session.totalEvents + 1) }
  let updateData : UpdateData :=
    if eventType = "focus_lost" then
      { updateData with
        focusLostCount := some (session.focusLostCount + 1)
        suspiciousEvents := some (session.suspiciousEvents + 1) }
    else if eventType = "face_absent" then
      { updateData with
        faceAbsentCount := some (session.faceAbsentCount + 1)
        suspiciousEvents := some (session.suspiciousEvents + 1) }
    else if eventType = "multiple_faces" then
      { updateData with
        multipleFacesCount := some (session.multipleFacesCount + 1)
        suspiciousEvents := some (session.suspiciousEvents + 1) }
    else if eventType = "phone_detected" then
      { updateData with
        phoneDetectedCount := some (session.phoneDetectedCount + 1)
        suspiciousEvents := some (session.suspiciousEvents + 1) }
    else if eventType = "book_detected" then
      { updateData with
        bookDetectedCount := some (session.bookDetectedCount + 1)
        suspiciousEvents := some (session.suspiciousEvents + 1) }
    else if eventType = "device_detected" then
      { updateData with
        deviceDetectedCount := some (session.deviceDetectedCount + 1)
        suspiciousEvents := some (session.suspiciousEvents + 1) }
    else if eventType = "drowsiness_detected" then
      { updateData with
        drowsinessCount := some (session.drowsinessCount + 1)
        suspiciousEvents := some (session.suspiciousEvents + 1) }
    else updateData
  let totalDeductions := jsOr updateData.suspiciousEvents session.suspiciousEvents * 2
  { updateData with integrityScore := some (max 0 (100 - totalDeductions)) }

/-- The session after `updateSessionCounters(session, eventType)` (events.js 172-211):
`session.update(updateData)` with the object above. -/
def updateSessionCounters (session : Session) (eventType : String) : Session :=
  session.applyUpdate (counterUpdate session eventType)

/-! ## Requests, responses and the environment of one request -/

/-- The awaited external call of a request that throws, if any: `findByPk`, a `create`,
`session.update`, or the socket `emit`.  A thrown error lands in the handler's `catch`. -/
inductive Fault where
  | none
  | find
  | createSession
  | createEvent
  | update
  | emit
  deriving DecidableEq, Repr

/-- What the surroundings supply to one request: the clock (`new Date()`; `start` reads it
twice), the identities the store assigns to created rows, whether `req.app.get('io')` is
set, and the call that throws. -/
structure Env where
  now : Int
  now2 : Int
  newSessionId : String
  newEventId : String
  hasSocket : Bool
  fault : Fault
  deriving DecidableEq, Repr

/-- The payload of a `'proctoring-alert'` sent by `io.to(room).emit(...)`. -/
structure Alert where
  room : String
  eventId : String
  eventType : String
  severity : Option String
  timestamp : Int
  description : Option String
  confidence : Option Rat
  deriving DecidableEq, Repr

/-- The HTTP response of a handler. -/
inductive Response where
  | error (status : Nat) (msg : String)
  | eventLogged (status : Nat) (event : Event)
  | sessionStarted (status : Nat) (session : Session)
  | sessionStopped (status : Nat) (id : String) (duration : Int) (endTime : Int)
      (sessionStatus : String)
  | scoresUpdated (status : Nat) (id : String) (focusScore : Option Int)
      (integrityScore : Int)
  deriving DecidableEq, Repr

/-- The HTTP status code of a response. -/
def Response.status : Response → Nat
  | .error st _ => st
  | .eventLogged st _ => st
  | .sessionStarted st _ => st
  | .sessionStopped st _ _ _ _ => st
  | .scoresUpdated st _ _ _ => st

/-- Result of handling one request: the response, the store afterwards, and the alerts
handed to the socket server. -/
structure Outcome where
  res : Response
  db : Db
  emitted : List Alert
  deriving DecidableEq, Repr

/-- Body of `POST /api/events` (events.js 8-18); a field is `none` when it is missing. -/
structure EventReq where
  sessionId : Option String
  eventType : Option String
  severity : Option String
  duration : Option Int
  confidence : Option Rat
  description : Option String
  deriving DecidableEq, Repr

/-- Body of `POST /api/proctoring/start` (proctoring.js 8). -/
structure StartReq where
  candidateName : Option String
  interviewerName : Option String
  deriving DecidableEq, Repr

/-! ## `events.js`: event ingestion -/

/-- The row `ProctoringEvent.create({...})` stores for a request (events.js 30-41):
`severity` defaults to 'medium', `timestamp` is the server's `new Date()`, the identity is
the store's. -/
def ingestedEvent (req : EventReq) (env : Env) (sessionId eventType : String) : Event :=
  { id := env.newEventId
    sessionId := sessionId
    eventType := eventType
    severity := some (req.severity.getD "medium")
    timestamp := env.now
    duration := req.duration
    confidence := req.confidence
    description := req.description
    isResolved := false }

/-- The payload of `io.to(sessionId).emit('proctoring-alert', {...})` (events.js 49-56). -/
def alertFor (sessionId : String) (event : Event) : Alert :=
  { room := sessionId
    eventId := event.id
    eventType := event.eventType
    severity := event.severity
    timestamp := event.timestamp
    description := event.description
    confidence := event.confidence }

/-- Handler `router.post('/')` of events.js (lines 6-73), `logEvent` of the interface.
`!sessionId || !eventType` holds for a missing and for an empty string. -/
def logEvent (db : Db) (req : EventReq) (env : Env) : Outcome :=
  match req.sessionId, req.eventType with
  | some sessionId, some eventType =>
    if sessionId = "" ∨ eventType = "" then
      ⟨.error 400 "Session ID and event type are required", db, []⟩
    else if env.fault = .find then
      ⟨.error 500 "Failed to log event", db, []⟩
    else
      match findByPk db sessionId with
      | none => ⟨.error 404 "Session not found", db, []⟩
      | some session =>
        if env.fault = .createEvent then
          ⟨.error 500 "Failed to log event", db, []⟩
        else
          let event := ingestedEvent req env sessionId eventType
          let db1 := db.createEvent event
          if env.fault = .update then
            ⟨.error 500 "Failed to log event", db1, []⟩
          else
            let db2 := db1.updateSession session.id (counterUpdate session eventType)
            if env.hasSocket then
              if env.fault = .emit then
                ⟨.error 500 "Failed to log event", db2, []⟩
              else
                ⟨.eventLogged 201 event, db2, [alertFor sessionId event]⟩
            else
              ⟨.eventLogged 201 event, db2, []⟩
  | _, _ => ⟨.error 400 "Session ID and event type are required", db, []⟩

/-! ## `proctoring.js`: session lifecycle -/

/-- Modelled from the spec: the column defaults of the `ProctoringSession` model
(`server/models`, not in the sources).  A started session is `active`, all its counters
are 0, its integrity score is the formula's value at 0 suspicious events, and the
optional focus score is not set. -/
def newSession (id candidateName : String) (interviewerName : Option String)
    (startTime : Int) : Session :=
  { id := id
    candidateName := candidateName
    interviewerName := interviewerName
    startTime := startTime
    endTime := none
    duration := none
    status := "active"
    totalEvents := 0
    suspiciousEvents := 0
    focusLostCount := 0
    faceAbsentCount := 0
    multipleFacesCount := 0
    phoneDetectedCount := 0
    bookDetectedCount := 0
    deviceDetectedCount := 0
    drowsinessCount := 0
    integrityScore := 100
    focusScore := none }

/-- The `session_start` row of proctoring.js 22-27. -/
def sessionStartEvent (env : Env) (sessionId candidateName : String) : Event :=
  { id := env.newEventId
    sessionId := sessionId
    eventType := "session_start"
    severity := none
    timestamp := env.now2
    duration := none
    confidence := none
    description := some ("Proctoring session started for " ++ candidateName)
    isResolved := false }

/-- The `session_end` row of proctoring.js 73-78. -/
def sessionEndEvent (env : Env) (sessionId candidateName : String) (endTime : Int) : Event :=
  { id := env.newEventId
    sessionId := sessionId
    eventType := "session_end"
    severity := none
    timestamp := endTime
    duration := none
    confidence := none
    description := some ("Proctoring session completed for " ++ candidateName)
    isResolved := false }

/-- Handler `router.post('/start')` of proctoring.js (lines 6-43), `startSession` of the
interface. -/
def startSession (db : Db) (req : StartReq) (env : Env) : Outcome :=
  match req.candidateName with
  | none => ⟨.error 400 "Candidate name is required", db, []⟩
  | some candidateName =>
    if candidateName = "" then
      ⟨.error 400 "Candidate name is required", db, []⟩
    else if env.fault = .createSession then
      ⟨.error 500 "Failed to start proctoring session", db, []⟩
    else
      let session := newSession env.newSessionId candidateName req.interviewerName env.now
      let db1 := db.createSession session
      if env.fault = .createEvent then
        ⟨.error 500 "Failed to start proctoring session", db1, []⟩
      else
        let db2 := db1.createEvent (sessionStartEvent env session.id candidateName)
        ⟨.sessionStarted 201 session, db2, []⟩

/-- The value of `Math.floor((endTime - startTime) / 1000)` (proctoring.js 64). -/
def elapsedSeconds (endTime startTime : Int) : Int :=
  Int.fdiv (endTime - startTime) 1000

/-- Handler `router.post('/stop')` of proctoring.js (lines 46-93), `stopSession` of the
interface. -/
def stopSession (db : Db) (sessionId : Option String) (env : Env) : Outcome :=
  match sessionId with
  | none => ⟨.error 400 "Session ID is required", db, []⟩
  | some sid =>
    if sid = "" then
      ⟨.error 400 "Session ID is required", db, []⟩
    else if env.fault = .find then
      ⟨.error 500 "Failed to stop proctoring session", db, []⟩
    else
      match findByPk db sid with
      | none => ⟨.error 404 "Session not found", db, []⟩
      | some session =>
        if session.status ≠ "active" then
          ⟨.error 400 "Session is not active", db, []⟩
        else
          let endTime := env.now
          let duration := elapsedSeconds endTime session.startTime
          if env.fault = .update then
            ⟨.error 500 "Failed to stop proctoring session", db, []⟩
          else
            let db1 := db.updateSession session.id
              { endTime := some endTime, duration := some duration, status := some "completed" }
            if env.fault = .createEvent then
              ⟨.error 500 "Failed to stop proctoring session", db1, []⟩
            else
              let db2 := db1.createEvent
                (sessionEndEvent env session.id session.candidateName endTime)
              ⟨.sessionStopped 200 session.id duration endTime "completed", db2, []⟩

/-- The session's rows of `proctoring_events`. -/
def eventsOf (db : Db) (sessionId : String) : List Event :=
  db.events.filter (fun e => e.sessionId == sessionId)

/-! ## `proctoring.js`: reading a session, overriding its scores -/

/-- Handler `router.get('/sessions/:id')` of proctoring.js (lines 135-159): the session
with its events, rows in creation order; `none` is the 404 answer. -/
def getSession (db : Db) (id : String) : Option (Session × List Event) :=
  match findByPk db id with
  | none => none
  | some session => some (session, eventsOf db id)

/-- Handler `router.put('/sessions/:id/focus-score')` of proctoring.js (lines 162-189).
The body's `focusScore` and `integrityScore` are numbers or missing; the update writes
`focusScore || session.focusScore` and `integrityScore || session.integrityScore`. -/
def putFocusScore (db : Db) (id : String) (focusScore integrityScore : Option Int)
    (env : Env) : Outcome :=
  if env.fault = .find then
    ⟨.error 500 "Failed to update focus score", db, []⟩
  else
    match findByPk db id with
    | none => ⟨.error 404 "Session not found", db, []⟩
    | some session =>
      if env.fault = .update then
        ⟨.error 500 "Failed to update focus score", db, []⟩
      else
        let updateData : UpdateData :=
          { focusScore := some
              (match focusScore with
                | some v => if v ≠ 0 then some v else session.focusScore
                | none => session.focusScore)
            integrityScore := some (jsOr integrityScore session.integrityScore) }
        let db1 := db.updateSession session.id updateData
        ⟨.scoresUpdated 200 session.id (session.applyUpdate updateData).focusScore
          (session.applyUpdate updateData).integrityScore, db1, []⟩

/-! ## `reports.js`: the report synthesizer -/

/-- One entry of the report's `events` array (reports.js 196-204). -/
structure ReportEvent where
  id : String
  type : String
  severity : Option String
  timestamp : Int
  duration : Option Int
  confidence : Option Rat
  description : Option String
  deriving DecidableEq, Repr

/-- A value held by a property of a breakdown object: a count, or the string that `+ 1`
made of a value that was not a number. -/
inductive Tally where
  | count (n : Nat)
  | text (s : String)
  deriving DecidableEq, Repr

/-- The object returned by `generateReport` (reports.js 168-209), its nested objects
`session`, `scores`, `statistics` and `summary` flattened.  The two breakdown objects are
lists of key and value in the order the keys were first written (JavaScript lists a key
that is a whole number before the others). -/
structure Report where
  id : String
  candidateName : String
  interviewerName : Option String
  startTime : Int
  endTime : Option Int
  duration : Int
  status : String
  focusScore : Option Int
  integrityScore : Int
  focusPercentage : Rat
  totalEvents : Int
  suspiciousEvents : Int
  focusLostCount : Int
  faceAbsentCount : Int
  multipleFacesCount : Int
  phoneDetectedCount : Int
  bookDetectedCount : Int
  deviceDetectedCount : Int
  drowsinessCount : Int
  eventBreakdown : List (String × Tally)
  severityBreakdown : List (Option String × Tally)
  events : List ReportEvent
  overallIntegrity : String
  recommendations : List String
  deriving DecidableEq, Repr

/-- The names of the members of `Object.prototype`, which the accumulator `{}` of the two
reducers inherits. -/
def objectPrototypeNames : List String :=
  ["constructor", "__defineGetter__", "__defineSetter__", "hasOwnProperty",
    "__lookupGetter__", "__lookupSetter__", "isPrototypeOf", "propertyIsEnumerable",
    "toString", "valueOf", "__proto__", "toLocaleString"]

/-- The string `+ 1` makes of the inherited member with the given name, before the `1`:
the source text Node gives a built-in function, and `[object Object]` for the prototype
object that `__proto__` reads. -/
def inheritedText (name : String) : String :=
  if name = "__proto__" then "[object Object]"
  else if name = "constructor" then "function Object() \x7b [native code] \x7d"
  else "function " ++ name ++ "() \x7b [native code] \x7d"

/-- The value `(v || 0) + 1` for the value `v` of an own property: a count goes up by
one, a string gets `1` appended (the empty string is falsy and gives 1). -/
def Tally.succ : Tally → Tally
  | .count n => .count (n + 1)
  | .text s => if s = "" then .count 1 else .text (s ++ "1")

/-- The reducer step `acc[key] = (acc[key] || 0) + 1` (reports.js 152 and 157) on an
accumulator that started as `{}`; `name key` is the property name of the key, when it is
known.  A key without own property reads `undefined` and is set to 1, unless it names a
member of `Object.prototype`: then `acc[key]` reads that member, `+ 1` makes a string of
it, and the assignment stores the string (for `__proto__` the assignment calls the
inherited setter, which ignores a string). -/
def bump {α : Type} [DecidableEq α] (name : α → Option String) (acc : List (α × Tally))
    (key : α) : List (α × Tally) :=
  match acc with
  | [] =>
    match name key with
    | some n =>
      if n ∈ objectPrototypeNames then
        if n = "__proto__" then [] else [(key, .text (inheritedText n ++ "1"))]
      else [(key, .count 1)]
    | none => [(key, .count 1)]
  | (k, v) :: rest =>
    if k = key then (k, v.succ) :: rest else (k, v) :: bump name rest key

/-- The integer nearest to `z`, a tie going to the even one. -/
def roundHalfEven (z : Rat) : Int :=
  if z - ⌊z⌋ < 1 / 2 then ⌊z⌋
  else if 1 / 2 < z - ⌊z⌋ then ⌊z⌋ + 1
  else if ⌊z⌋ % 2 = 0 then ⌊z⌋ else ⌊z⌋ + 1

/-- The double nearest to a positive `a`: with `2^e ≤ a < 2^(e+1)`, the multiple of
`2^(e-52)` nearest to `a`, a tie going to the even multiple. -/
def nearestDouble (a : Rat) : Rat :=
  (roundHalfEven (a / 2 ^ (Int.log 2 a - 52)) : Rat) * 2 ^ (Int.log 2 a - 52)

/-- The JavaScript number an arithmetic operation returns whose exact result is `x`: the
nearest IEEE 754 double, a tie going to the even significand.  The exponent is not
bounded: overflow to `Infinity` and the subnormal numbers are left out; the operations
modelled here do not reach them on integers below `2^53` in size. -/
def toDouble (x : Rat) : Rat :=
  if x = 0 then 0 else if 0 < x then nearestDouble x else -nearestDouble (-x)

/-- The value of `Math.round(x)`: the nearest integer, a tie going up. -/
def mathRound (x : Rat) : Int := Int.floor (x + 1 / 2)

/-- The `focusLostDuration` of reports.js 162-164: the `focus_lost` events are filtered
out and their `duration || 0` is summed, starting from 0, each sum a JavaScript number. -/
def focusLostDuration (events : List Event) : Rat :=
  (events.filter (fun e => e.eventType == "focus_lost")).foldl
    (fun acc e => toDouble (acc + ((jsOr e.duration 0 : Int) : Rat))) 0

/-- The `focusPercentage` of reports.js 166, before rounding: the division, the
multiplication and the subtraction each return a JavaScript number. -/
def focusPercentage (events : List Event) (duration : Int) : Rat :=
  if duration > 0 then
    max 0 (toDouble (100 - toDouble (toDouble (focusLostDuration events / (duration : Rat))
      * 100)))
  else 100

/-- The function `generateRecommendations(session, eventStats)` of reports.js 213-241; it
does not read `eventStats`. -/
def generateRecommendations {σ : Type} (session : Session) (_eventStats : σ) :
    List String :=
  let recommendations : List String := []
  let recommendations :=
    if session.focusLostCount > 5 then
      recommendations ++ ["Consider improving focus during interviews - multiple instances of looking away detected"]
    else recommendations
  let recommendations :=
    if session.phoneDetectedCount > 0 then
      recommendations ++ ["Mobile phone usage detected - ensure no unauthorized devices are present"]
    else recommendations
  let recommendations :=
    if session.bookDetectedCount > 0 then
      recommendations ++ ["Books or notes detected - verify no unauthorized materials are being used"]
    else recommendations
  let recommendations :=
    if session.multipleFacesCount > 0 then
      recommendations ++ ["Multiple faces detected - ensure only the candidate is present during the interview"]
    else recommendations
  let recommendations :=
    if session.drowsinessCount > 3 then
      recommendations ++ ["Drowsiness detected multiple times - consider scheduling interviews at optimal times"]
    else recommendations
  if recommendations.length = 0 then
    recommendations ++ ["No significant issues detected - good interview conduct"]
  else recommendations

/-- The function `generateReport(session)` of reports.js 146-210; `events` is
`session.events || []`, the rows loaded with the session.  Line 181 multiplies, rounds
with `Math.round` and divides in JavaScript numbers. -/
def generateReport (session : Session) (events : List Event) : Report :=
  let duration := jsOr session.duration 0
  let eventStats := events.foldl (fun acc event => bump some acc event.eventType) []
  let severityStats := events.foldl (fun acc event => bump id acc event.severity) []
  let focusPercentage := focusPercentage events duration
  { id := session.id
    candidateName := session.candidateName
    interviewerName := session.interviewerName
    startTime := session.startTime
    endTime := session.endTime
    duration := duration
    status := session.status
    focusScore := session.focusScore
    integrityScore := session.integrityScore
    focusPercentage := toDouble ((mathRound (toDouble (focusPercentage * 100)) : Rat) / 100)
    totalEvents := session.totalEvents
    suspiciousEvents := session.suspiciousEvents
    focusLostCount := session.focusLostCount
    faceAbsentCount := session.faceAbsentCount
    multipleFacesCount := session.multipleFacesCount
    phoneDetectedCount := session.phoneDetectedCount
    bookDetectedCount := session.bookDetectedCount
    deviceDetectedCount := session.deviceDetectedCount
    drowsinessCount := session.drowsinessCount
    eventBreakdown := eventStats
    severityBreakdown := severityStats
    events := events.map (fun event =>
      { id := event.id
        type := event.eventType
        severity := event.severity
        timestamp := event.timestamp
        duration := event.duration
        confidence := event.confidence
        description := event.description })
    overallIntegrity :=
      if session.integrityScore ≥ 80 then "Good"
      else if session.integrityScore ≥ 60 then "Fair"
      else "Poor"
    recommendations := generateRecommendations session eventStats }

/-- Handler `router.get('/:sessionId')` of reports.js (lines 10-47) for the JSON format:
the report of the session loaded with its events; `none` is the 404 answer. -/
def getReport (db : Db) (sessionId : String) : Option Report :=
  match findByPk db sessionId with
  | none => none
  | some session => some (generateReport session (eventsOf db sessionId))

/-- What serving a report request leaves behind: the report sent (`none` is the 404
answer) and the store.  `generateReport` and `generateRecommendations` assign to their own
accumulators only, so the store returned is the one received. -/
structure ReportOutcome where
  report : Option Report
  db : Db
  deriving DecidableEq, Repr

/-- Serving `GET /api/reports/:sessionId` (reports.js 10-47, JSON format) against a
store. -/
def serveReport (db : Db) (sessionId : String) : ReportOutcome :=
  { report := getReport db sessionId, db := db }

/-! ## `index.js`: the socket server and the system as a whole -/

/-- A `'proctoring-alert'` message as a socket receives it: the alert of an ingested
event (events.js 49-56), or the data of a client's `'proctoring-event'` passed on as it
came (index.js 70-72). -/
inductive Payload where
  | alert (a : Alert)
  | relayed (room : String) (data : String)
  deriving DecidableEq, Repr

/-- The message is the alert of the event with the given identity. -/
def Payload.isAlertOf (eventId : String) : Payload → Bool
  | .alert a => a.eventId == eventId
  | .relayed _ _ => false

/-- Modelled from the spec: the socket.io server, a library that is not part of the
sources, as far as section 4.5 describes it.  `rooms` holds the pairs of socket and
session channel it has joined; `sent` holds every `'proctoring-alert'` handed to a socket,
in order.  A message for a channel goes to the sockets that are in the channel when it is
sent; a channel without socket receives nothing; a disconnected socket is in no
channel. -/
structure Hub where
  rooms : List (String × String)
  sent : List (String × Payload)
  deriving DecidableEq, Repr

/-- The sockets in a channel. -/
def Hub.members (hub : Hub) (room : String) : List String :=
  (hub.rooms.filter (fun m => m.2 == room)).map (fun m => m.1)

/-- The effect of `socket.join(room)`. -/
def Hub.join (hub : Hub) (socket room : String) : Hub :=
  if (socket, room) ∈ hub.rooms then hub
  else { hub with rooms := hub.rooms ++ [(socket, room)] }

/-- The effect of a socket's disconnection: it leaves all its channels. -/
def Hub.disconnect (hub : Hub) (socket : String) : Hub :=
  { hub with rooms := hub.rooms.filter (fun m => m.1 != socket) }

/-- The effect of `io.to(room).emit('proctoring-alert', payload)`. -/
def Hub.emitTo (hub : Hub) (room : String) (payload : Payload) : Hub :=
  { hub with sent := hub.sent ++ (hub.members room).map (fun socket => (socket, payload)) }

/-- The effect of `socket.to(room).emit('proctoring-alert', payload)`: to the channel's
sockets other than the sender. -/
def Hub.emitFrom (hub : Hub) (socket room : String) (payload : Payload) : Hub :=
  { hub with
    sent := hub.sent ++
      ((hub.members room).filter (fun m => m != socket)).map (fun m => (m, payload)) }

/-- The alerts of one event that a socket has been sent. -/
def Hub.alertsTo (hub : Hub) (socket eventId : String) : List (String × Payload) :=
  hub.sent.filter (fun m => m.1 == socket && m.2.isAlertOf eventId)

/-- The server: the store and the socket server. -/
structure System where
  db : Db
  hub : Hub
  deriving DecidableEq, Repr

/-- What can happen to the server: a request to one of the four mutating routes, or one of
the socket events of index.js 62-77. -/
inductive Op where
  | start (req : StartReq) (env : Env)
  | log (req : EventReq) (env : Env)
  | stop (sessionId : Option String) (env : Env)
  | override (id : String) (focusScore integrityScore : Option Int) (env : Env)
  | join (socket room : String)
  | relay (socket room data : String)
  | disconnect (socket : String)
  deriving DecidableEq, Repr

/-- The server after one request or socket event.  The alerts a `logEvent` hands to the
socket server go to the channel of the session id (events.js 49); `'join-session'` only
joins (index.js 65-68); `'proctoring-event'` passes the data on to the others in the
channel `data.sessionId` (index.js 70-72). -/
def step (sys : System) (op : Op) : System :=
  match op with
  | .start req env => { sys with db := (startSession sys.db req env).db }
  | .log req env =>
    { db := (logEvent sys.db req env).db
      hub := (logEvent sys.db req env).emitted.foldl
        (fun hub a => hub.emitTo a.room (.alert a)) sys.hub }
  | .stop sessionId env => { sys with db := (stopSession sys.db sessionId env).db }
  | .override id focusScore integrityScore env =>
    { sys with db := (putFocusScore sys.db id focusScore integrityScore env).db }
  | .join socket room => { sys with hub := sys.hub.join socket room }
  | .relay socket room data =>
    { sys with hub := sys.hub.emitFrom socket room (.relayed room data) }
  | .disconnect socket => { sys with hub := sys.hub.disconnect socket }

/-- The server after a sequence of requests and socket events. -/
def run (sys : System) (ops : List Op) : System :=
  ops.foldl step sys

/-- The server before anything happened. -/
def emptySystem : System :=
  { db := { sessions := [], events := [] }, hub := { rooms := [], sent := [] } }

/-- The operation is a score override. -/
def Op.isOverride : Op → Bool
  | .override _ _ _ _ => true
  | _ => false

/-- The identity the store assigns to the event an ingestion creates. -/
def Op.loggedEventId : Op → Option String
  | .log _ env => some env.newEventId
  | _ => none

/-- The report's entry for an event row (reports.js 196-204). -/
def reportEntry (event : Event) : ReportEvent :=
  { id := event.id
    type := event.eventType
    severity := event.severity
    timestamp := event.timestamp
    duration := event.duration
    confidence := event.confidence
    description := event.description }

/-- The channel a message was sent to. -/
def Payload.room : Payload → String
  | .alert a => a.room
  | .relayed room _ => room

/-- No awaited call of the request throws. -/
def Op.calm : Op → Bool
  | .start _ env => decide (env.fault = .none)
  | .log _ env => decide (env.fault = .none)
  | .stop _ env => decide (env.fault = .none)
  | .override _ _ _ env => decide (env.fault = .none)
  | _ => true

/-- The number of `logEvent` calls for a session that are answered 201 while the
operations run from the given state. -/
def successfulLogs (sessionId : String) (sys : System) : List Op → Nat
  | [] => 0
  | op :: rest =>
    (match op with
      | .log req env =>
        if req.sessionId = some sessionId ∧ (logEvent sys.db req env).res.status = 201
        then 1 else 0
      | _ => 0) + successfulLogs sessionId (step sys op) rest

/-- The number of `start` calls answered 201 that created the session, and of `stop`
calls answered 200 for it, while the operations run from the given state: the calls that
store a `session_start` or `session_end` row for the session. -/
def lifecycleRows (sessionId : String) (sys : System) : List Op → Nat
  | [] => 0
  | op :: rest =>
    (match op with
      | .start req env =>
        if env.newSessionId = sessionId ∧ (startSession sys.db req env).res.status = 201
        then 1 else 0
      | .stop sid env =>
        if sid = some sessionId ∧ (stopSession sys.db sid env).res.status = 200
        then 1 else 0
      | _ => 0) + lifecycleRows sessionId (step sys op) rest

/-- The stored `totalEvents` of a session, 0 when no session has the id. -/
def totalOf (db : Db) (sessionId : String) : Int :=
  ((findByPk db sessionId).map (fun s => s.totalEvents)).getD 0

/-- The store after a sequence of `logEvent` calls. -/
def logAll (db : Db) : List (EventReq × Env) → Db
  | [] => db
  | call :: rest => logAll (logEvent db call.1 call.2).db rest

/-- Every call of the sequence is answered 201. -/
def allAnswered201 (db : Db) : List (EventReq × Env) → Bool
  | [] => true
  | call :: rest =>
    decide ((logEvent db call.1 call.2).res.status = 201) &&
      allAnswered201 (logEvent db call.1 call.2).db rest

/-- The number of the session's stored events of a kind. -/
def kindCount (db : Db) (sessionId kind : String) : Int :=
  (((eventsOf db sessionId).filter (fun e => decide (e.eventType = kind))).length : Int)

/-- The counters of a session's row agree with the session's stored events. -/
def CountersMatch (db : Db) (sessionId : String) (s : Session) : Prop :=
  s.focusLostCount = kindCount db sessionId "focus_lost" ∧
  s.faceAbsentCount = kindCount db sessionId "face_absent" ∧
  s.multipleFacesCount = kindCount db sessionId "multiple_faces" ∧
  s.phoneDetectedCount = kindCount db sessionId "phone_detected" ∧
  s.bookDetectedCount = kindCount db sessionId "book_detected" ∧
  s.deviceDetectedCount = kindCount db sessionId "device_detected" ∧
  s.drowsinessCount = kindCount db sessionId "drowsiness_detected" ∧
  s.suspiciousEvents = s.focusLostCount + s.faceAbsentCount + s.multipleFacesCount
    + s.phoneDetectedCount + s.bookDetectedCount + s.deviceDetectedCount
    + s.drowsinessCount ∧
  s.suspiciousEvents ≤ s.totalEvents

/-! ## `AlertPanel.js` and the context's alert list -/

/-- An entry of the context's `alerts`: the received data with `id: Date.now()`
(ProctoringContext.js 27). -/
structure PanelAlert where
  id : Int
  data : Payload
  deriving DecidableEq, Repr

/-- The `'proctoring-alert'` handler's update of `alerts` (ProctoringContext.js 26-29):
`[...prev, { ...data, id: Date.now() }]`. -/
def receiveAlert (alerts : List PanelAlert) (data : Payload) (now : Int) : List PanelAlert :=
  alerts ++ [{ id := now, data := data }]

/-- The panel's `recentAlerts = alerts.slice(0, 10)` (AlertPanel.js 90). -/
def recentAlerts (alerts : List PanelAlert) : List PanelAlert :=
  alerts.take 10

/-- The panel's caption 'Showing last 10 of N alerts' is shown (AlertPanel.js 179). -/
def showsLastTenCaption (alerts : List PanelAlert) : Bool :=
  decide (alerts.length > 10)

/-! ## `VideoProctoring.js`: the detection loop -/

/-- The argument of the client's `logEvent(...)` calls in `runDetection`. -/
structure EventData where
  eventType : String
  severity : String
  description : String
  confidence : Rat
  deriving DecidableEq, Repr

/-- The React state read and written by `runDetection` (VideoProctoring.js 24-29);
`none` is `null`. -/
structure DetectionState where
  lastFaceTime : Int
  lastFocusTime : Int
  faceAbsentStart : Option Int
  focusLostStart : Option Int
  isDrowsy : Bool
  deriving DecidableEq, Repr

/-- What one call of `runDetection` sees: whether the loop is enabled
(`webcamRef.current && isDetecting && currentSession`), the video element and its
`readyState`, the results of `detectFace` and `detectObjects` on the frame, and the value
of `Date.now()` in the face-absence block and in the focus block. -/
structure Tick where
  enabled : Bool
  hasVideo : Bool
  readyState : Nat
  hasFace : Bool
  isLookingAway : Bool
  isDrowsy : Bool
  phoneDetected : Bool
  bookDetected : Bool
  deviceDetected : Bool
  nowFace : Int
  nowFocus : Int
  deriving DecidableEq, Repr

/-- JavaScript `!x` for a state variable holding `null` or a number. -/
def jsNot (x : Option Int) : Bool :=
  match x with
  | none => true
  | some v => v == 0

/-- The tick is processed; it is not left at the guards of lines 152-158. -/
def Tick.ready (t : Tick) : Bool :=
  t.enabled && t.hasVideo && t.readyState == 4

/-- Lines 167-184, "Handle face absence": the state after the block and the event it
logs.  The block reads and writes `faceAbsentStart` and `lastFaceTime` only. -/
def handleFaceAbsence (st : DetectionState) (t : Tick) : DetectionState × List EventData :=
  if !t.hasFace then
    if jsNot st.faceAbsentStart then
      ({ st with faceAbsentStart := some t.nowFace }, [])
    else if t.nowFace - st.faceAbsentStart.getD 0 > 10000 then
      ({ st with faceAbsentStart := none },
        [{ eventType := "face_absent", severity := "high",
           description := "Face not detected for more than 10 seconds",
           confidence := 0.8 }])
    else (st, [])
  else
    ({ st with faceAbsentStart := none, lastFaceTime := t.nowFace }, [])

/-- Lines 186-203, "Handle focus loss (looking away)".  The block reads and writes
`focusLostStart` and `lastFocusTime` only. -/
def handleFocusLoss (st : DetectionState) (t : Tick) : DetectionState × List EventData :=
  if t.isLookingAway then
    if jsNot st.focusLostStart then
      ({ st with focusLostStart := some t.nowFocus }, [])
    else if t.nowFocus - st.focusLostStart.getD 0 > 5000 then
      ({ st with focusLostStart := none },
        [{ eventType := "focus_lost", severity := "medium",
           description := "Looking away from screen for more than 5 seconds",
           confidence := 0.7 }])
    else (st, [])
  else
    ({ st with focusLostStart := none, lastFocusTime := t.nowFocus }, [])

/-- Lines 205-217, "Handle drowsiness".  The block reads and writes `isDrowsy` only. -/
def handleDrowsiness (st : DetectionState) (t : Tick) : DetectionState × List EventData :=
  if t.isDrowsy && !st.isDrowsy then
    ({ st with isDrowsy := true },
      [{ eventType := "drowsiness_detected", severity := "medium",
         description := "Drowsiness detected - head position indicates sleepiness",
         confidence := 0.6 }])
  else if !t.isDrowsy && st.isDrowsy then
    ({ st with isDrowsy := false }, [])
  else (st, [])

/-- Lines 219-248, "Handle object detection": the events logged for the frame. -/
def handleObjects (t : Tick) : List EventData :=
  (if t.phoneDetected then
    [{ eventType := "phone_detected", severity := "high",
       description := "Mobile phone detected in frame", confidence := 0.5 }]
  else []) ++
  (if t.bookDetected then
    [{ eventType := "book_detected", severity := "high",
       description := "Book or notes detected in frame", confidence := 0.5 }]
  else []) ++
  (if t.deviceDetected then
    [{ eventType := "device_detected", severity := "high",
       description := "Electronic device detected in frame", confidence := 0.5 }]
  else [])

/-- One call of `runDetection` (VideoProctoring.js 151-259): the next state and the
events handed to `logEvent`, in call order.  The four blocks touch disjoint state
variables, so running each on the state left by the one before reads the same values as
the source, where every block reads the render's values. -/
def runDetection (st : DetectionState) (t : Tick) : DetectionState × List EventData :=
  if !t.enabled then (st, [])
  else if !t.hasVideo || t.readyState != 4 then (st, [])
  else
    let r1 := handleFaceAbsence st t
    let r2 := handleFocusLoss r1.1 t
    let r3 := handleDrowsiness r2.1 t
    (r3.1, r1.2 ++ r2.2 ++ r3.2 ++ handleObjects t)

/-- A chain of calls of `runDetection` over a sequence of frames, each call given the
state the call before left: the final state and all events handed to `logEvent`.  This is
what one callback logs as long as the state it captured is the current one; a queued
callback of the component keeps the state of its render (see `frame`). -/
def runLoop (st : DetectionState) (ticks : List Tick) : DetectionState × List EventData :=
  match ticks with
  | [] => (st, [])
  | t :: rest =>
    let r := runDetection st t
    let r2 := runLoop r.1 rest
    (r2.1, r.2 ++ r2.2)

/-- The two debounced signals of the loop. -/
inductive Signal where
  | faceAbsent
  | focusLost
  deriving DecidableEq, Repr

/-- The raw signal of a frame: no face, or looking away. -/
def Signal.raw : Signal → Tick → Bool
  | .faceAbsent, t => !t.hasFace
  | .focusLost, t => t.isLookingAway

/-- The clock reading the signal's block uses on a frame. -/
def Signal.clock : Signal → Tick → Int
  | .faceAbsent, t => t.nowFace
  | .focusLost, t => t.nowFocus

/-- The signal's pending start time in the state. -/
def Signal.pending : Signal → DetectionState → Option Int
  | .faceAbsent, st => st.faceAbsentStart
  | .focusLost, st => st.focusLostStart

/-- The signal's hold threshold in milliseconds (10 s and 5 s). -/
def Signal.holdThreshold : Signal → Int
  | .faceAbsent => 10000
  | .focusLost => 5000

/-- The kind of event the signal's block logs. -/
def Signal.kind : Signal → String
  | .faceAbsent => "face_absent"
  | .focusLost => "focus_lost"

/-- The events of one kind among those logged. -/
def eventsOfKind (kind : String) (evs : List EventData) : List EventData :=
  evs.filter (fun e => e.eventType == kind)

/-- The common shape of the two debounce blocks (lines 168-184 and 187-203): from the
pending start, the raw signal and the clock, the next pending start and whether an event
is logged. -/
def debounceStep (threshold : Int) (pending : Option Int) (raw : Bool) (now : Int) :
    Option Int × Bool :=
  if raw then
    if jsNot pending then (some now, false)
    else if now - pending.getD 0 > threshold then (none, true)
    else (pending, false)
  else (none, false)

/-- The three object classes of lines 219-248. -/
inductive ObjectClass where
  | phone
  | book
  | device
  deriving DecidableEq, Repr

/-- Whether `detectObjects` reports the class on a frame. -/
def ObjectClass.detected : ObjectClass → Tick → Bool
  | .phone, t => t.phoneDetected
  | .book, t => t.bookDetected
  | .device, t => t.deviceDetected

/-- The kind of event logged for the class. -/
def ObjectClass.kind : ObjectClass → String
  | .phone => "phone_detected"
  | .book => "book_detected"
  | .device => "device_detected"

/-- The number of false-to-true transitions of a signal, `prev` being its value before
the first observation. -/
def risingEdges (prev : Bool) (signal : List Bool) : Nat :=
  match signal with
  | [] => 0
  | b :: rest => (if b && !prev then 1 else 0) + risingEdges b rest

/-- The body the client's `logEvent(eventData)` posts to `/api/events`
(ProctoringContext.js 119-132): `{ sessionId: currentSession.id, ...eventData }`. -/
def clientRequest (sessionId : String) (eventData : EventData) : EventReq :=
  { sessionId := some sessionId
    eventType := some eventData.eventType
    severity := some eventData.severity
    duration := none
    confidence := some eventData.confidence
    description := some eventData.description }

/-! ## `VideoProctoring.js`: the callbacks of the component and their loops

`runDetection` is built with `useCallback` (lines 151-259): a render builds a new callback,
which reads the state of that render, when one of `faceAbsentStart`, `focusLostStart` and
`isDrowsy` differs from the render before (the other dependencies, `isDetecting`,
`currentSession`, `detectFace`, `detectObjects` and the context's `logEvent`, are taken not
to change over the frames looked at).  The effect of lines 292-296 calls every new callback
once and returns no cleanup; each callback ends with `requestAnimationFrame(runDetection)`
on itself (line 258), so it is called again on every later frame with the state it was
built with.  The setters write the component's state, which is rendered again once the
callbacks queued for the frame have run; a call is taken to run to its end, its
`await logEvent(...)` included, before the next callback is called, and every call made on
a frame reads the clock values of the frame. -/

/-- The state variables in the dependency list of `runDetection` (line 259). -/
def DetectionState.deps (st : DetectionState) : Option Int × Option Int × Bool :=
  (st.faceAbsentStart, st.focusLostStart, st.isDrowsy)

/-- The setter calls of lines 167-184 made by a callback built with the state `c`, applied
to the component's state `s`: the tests read `c`, the setters write `s`. -/
def writeFaceAbsence (c : DetectionState) (t : Tick) (s : DetectionState) : DetectionState :=
  if !t.hasFace then
    if jsNot c.faceAbsentStart then { s with faceAbsentStart := some t.nowFace }
    else if t.nowFace - c.faceAbsentStart.getD 0 > 10000 then
      { s with faceAbsentStart := none }
    else s
  else { s with faceAbsentStart := none, lastFaceTime := t.nowFace }

/-- The setter calls of lines 186-203 made by a callback built with the state `c`. -/
def writeFocusLoss (c : DetectionState) (t : Tick) (s : DetectionState) : DetectionState :=
  if t.isLookingAway then
    if jsNot c.focusLostStart then { s with focusLostStart := some t.nowFocus }
    else if t.nowFocus - c.focusLostStart.getD 0 > 5000 then
      { s with focusLostStart := none }
    else s
  else { s with focusLostStart := none, lastFocusTime := t.nowFocus }

/-- The setter calls of lines 205-217 made by a callback built with the state `c`. -/
def writeDrowsiness (c : DetectionState) (t : Tick) (s : DetectionState) : DetectionState :=
  if t.isDrowsy && !c.isDrowsy then { s with isDrowsy := true }
  else if !t.isDrowsy && c.isDrowsy then { s with isDrowsy := false }
  else s

/-- The component's state after one call of the callback built with the state `c`; the
events of the call are `(runDetection c t).2`. -/
def callWrites (c : DetectionState) (t : Tick) (s : DetectionState) : DetectionState :=
  if !t.enabled then s
  else if !t.hasVideo || t.readyState != 4 then s
  else writeDrowsiness c t (writeFocusLoss c t (writeFaceAbsence c t s))

/-- The mounted component between two frames: its state, the state of its last render
with a new callback, and the callbacks queued with `requestAnimationFrame`, oldest first,
each given by the state it was built with. -/
structure Component where
  state : DetectionState
  rendered : DetectionState
  loops : List DetectionState
  deriving DecidableEq, Repr

/-- The queued callbacks called on a frame, in queue order: the component's state after
their setter calls and the events they hand to `logEvent`. -/
def runQueued (t : Tick) : List DetectionState → DetectionState →
    DetectionState × List EventData
  | [], s => (s, [])
  | c :: rest, s =>
    let r := runQueued t rest (callWrites c t s)
    (r.1, (runDetection c t).2 ++ r.2)

/-- The renders after a frame, at most `fuel` of them with a new callback: while the state
differs from the last render in a dependency, a callback is built with the state, the
effect of lines 292-296 calls it on the frame, and it queues itself unless it stopped at
line 152. -/
def settle : Nat → Component → Tick → Component × List EventData
  | 0, comp, _ => (comp, [])
  | fuel + 1, comp, t =>
    if comp.state.deps = comp.rendered.deps then (comp, [])
    else
      let c := comp.state
      let r := settle fuel
        { state := callWrites c t comp.state, rendered := c,
          loops := if t.enabled then comp.loops ++ [c] else comp.loops } t
      (r.1, (runDetection c t).2 ++ r.2)

/-- One animation frame of the component: every queued callback is called (one that finds
`webcamRef.current` unset at line 152 returns without queueing itself again), then the
component renders; three renders with a new callback are enough (`settle_stable`). -/
def frame (comp : Component) (t : Tick) : Component × List EventData :=
  let r := runQueued t comp.loops comp.state
  let r2 := settle 3
    { state := r.1, rendered := comp.rendered,
      loops := if t.enabled then comp.loops else [] } t
  (r2.1, r.2 ++ r2.2)

/-- The component over a sequence of frames: its final form and all events handed to
`logEvent`. -/
def runFrames (comp : Component) : List Tick → Component × List EventData
  | [] => (comp, [])
  | t :: rest =>
    let r := frame comp t
    let r2 := runFrames r.1 rest
    (r2.1, r.2 ++ r2.2)

/-- The component once detection has started: the initial state of lines 24-29 (`now` is
the `Date.now()` of the first render) and the one callback the effect has called. -/
def mounted (now : Int) : Component :=
  let st : DetectionState :=
    { lastFaceTime := now, lastFocusTime := now, faceAbsentStart := none,
      focusLostStart := none, isDrowsy := false }
  { state := st, rendered := st, loops := [st] }

/-- The newest callback is among the queued ones. -/
def Component.RenderedQueued (comp : Component) : Prop :=
  ∃ c ∈ comp.loops, c.deps = comp.rendered.deps

/-! ## `VideoProctoring.js`: the reference classifier -/

/-- A video frame as `detectFace` reads it: the video's dimensions, which become the
canvas's, and the bytes of `getImageData(...).data` (red, green, blue, alpha for each
pixel, row after row) for a canvas that has pixels.  `getImageData` returns
`4 * width * height` bytes; on a buffer of another length the pixel coordinates are not
those of the source. -/
structure Frame where
  width : Nat
  height : Nat
  data : List Nat
  deriving DecidableEq, Repr

/-- The object `detectFace` returns; the early return of line 59 has no centre. -/
structure FaceResult where
  hasFace : Bool
  isLookingAway : Bool
  isDrowsy : Bool
  faceCenterX : Option Rat
  faceCenterY : Option Rat
  deriving DecidableEq, Repr

/-- The counters of the pixel loop (lines 73-78). -/
structure PixelTally where
  facePixels : Nat
  totalPixels : Nat
  facePixelsX : Nat
  facePixelsY : Nat
  deriving DecidableEq, Repr

/-- The skin-tone test of lines 86-89. -/
def isSkinTone (r g b : Nat) : Bool :=
  decide (r > 95) && decide (g > 40) && decide (b > 20) &&
    decide (r > g) && decide (r > b) &&
    decide (|(r : Int) - (g : Int)| > 15) && decide ((r : Int) - (g : Int) > 15)

/-- One pass of the loop body (lines 81-97) for the pixel with index `pixelIndex`. -/
def tallyPixel (width : Nat) (acc : PixelTally) (pixelIndex r g b : Nat) : PixelTally :=
  if isSkinTone r g b then
    { facePixels := acc.facePixels + 1
      totalPixels := acc.totalPixels + 1
      facePixelsX := acc.facePixelsX + pixelIndex % width
      facePixelsY := acc.facePixelsY + pixelIndex / width }
  else { acc with totalPixels := acc.totalPixels + 1 }

/-- The loop `for (let i = 0; i < data.length; i += 4)` of lines 80-98, from the pixel
with index `pixelIndex` on.  A last pixel with fewer than three bytes has an undefined
component, fails the test and is counted in `totalPixels`. -/
def scanPixels (width : Nat) : List Nat → Nat → PixelTally → PixelTally
  | [], _, acc => acc
  | [_], _, acc => { acc with totalPixels := acc.totalPixels + 1 }
  | [_, _], _, acc => { acc with totalPixels := acc.totalPixels + 1 }
  | [r, g, b], pixelIndex, acc => tallyPixel width acc pixelIndex r g b
  | r :: g :: b :: _ :: rest, pixelIndex, acc =>
    scanPixels width rest (pixelIndex + 1) (tallyPixel width acc pixelIndex r g b)

/-- The function `detectFace(video)` of lines 55-113.  `none` is an exception: the
`TypeError` of `canvas.getContext` on a missing canvas (line 57 runs before the check of
line 59), or the `IndexSizeError` that `getImageData` throws for a width or height of 0
(line 69).  Without a 2D context the early result of line 59 is returned.  The counters
hold whole numbers; the products with `0.05`, `0.3` and `0.4`, the divisions and the
differences are JavaScript numbers. -/
def detectFace (hasCanvas hasContext : Bool) (frame : Frame) : Option FaceResult :=
  if !hasCanvas then none
  else if !hasContext then
    some { hasFace := false, isLookingAway := false, isDrowsy := false,
           faceCenterX := none, faceCenterY := none }
  else if frame.width = 0 ∨ frame.height = 0 then none
  else
    let t := scanPixels frame.width frame.data 0
      { facePixels := 0, totalPixels := 0, facePixelsX := 0, facePixelsY := 0 }
    let hasFace := decide ((t.facePixels : Rat)
      > toDouble ((t.totalPixels : Rat) * toDouble (5 / 100)))
    let faceCenterX : Rat :=
      if t.facePixels > 0 then toDouble ((t.facePixelsX : Rat) / (t.facePixels : Rat))
      else toDouble ((frame.width : Rat) / 2)
    let faceCenterY : Rat :=
      if t.facePixels > 0 then toDouble ((t.facePixelsY : Rat) / (t.facePixels : Rat))
      else toDouble ((frame.height : Rat) / 2)
    let centerThreshold : Rat := toDouble ((frame.width : Rat) * toDouble (3 / 10))
    let isLookingAway :=
      decide (|toDouble (faceCenterX - toDouble ((frame.width : Rat) / 2))| > centerThreshold)
    let drowsinessThreshold : Rat := toDouble ((frame.height : Rat) * toDouble (4 / 10))
    let isDrowsy :=
      decide (|toDouble (faceCenterY - toDouble ((frame.height : Rat) / 2))|
        > drowsinessThreshold)
    some { hasFace := hasFace, isLookingAway := isLookingAway, isDrowsy := isDrowsy,
           faceCenterX := some faceCenterX, faceCenterY := some faceCenterY }

/-! ## Words of the specification, to compare the code with -/

/-- The pixels of a buffer: the first three bytes of each group of four. -/
def pixelsOf : List Nat → List (Nat × Nat × Nat)
  | r :: g :: b :: _ :: rest => (r, g, b) :: pixelsOf rest
  | [r, g, b] => [(r, g, b)]
  | _ => []

/-- The number of pixels the loop visits: one for each started group of four bytes. -/
def pixelCount (data : List Nat) : Nat := (data.length + 3) / 4

/-- The number of skin-toned pixels of a buffer. -/
def skinCount (data : List Nat) : Nat :=
  ((pixelsOf data).filter (fun p => isSkinTone p.1 p.2.1 p.2.2)).length


/-- Counting in the specification's words: the entry of the key goes up by one, a key
without entry gets the entry 1. -/
def countKey {α : Type} [DecidableEq α] (acc : List (α × Nat)) (key : α) : List (α × Nat) :=
  match acc with
  | [] => [(key, 1)]
  | (k, n) :: rest => if k = key then (k, n + 1) :: rest else (k, n) :: countKey rest key

/-- A breakdown of counts as the values of a breakdown object. -/
def asTallies {α : Type} (counts : List (α × Nat)) : List (α × Tally) :=
  counts.map (fun p => (p.1, Tally.count p.2))

/-- The cumulative `focus_lost` duration in the specification's words: the sum over the
events, an event of another kind or without a duration counting as 0. -/
def focusLostSeconds (events : List Event) : Int :=
  (events.map (fun e => if e.eventType = "focus_lost" then e.duration.getD 0 else 0)).sum

/-- The message for a session without a triggered rule. -/
def positiveConduct : String := "No significant issues detected - good interview conduct"

/-- The fixed rule set of the report, in order: the condition on the session's counters
and the message. -/
def recommendationRules : List ((Session → Bool) × String) :=
  [(fun s => decide (s.focusLostCount > 5),
      "Consider improving focus during interviews - multiple instances of looking away detected"),
    (fun s => decide (s.phoneDetectedCount > 0),
      "Mobile phone usage detected - ensure no unauthorized devices are present"),
    (fun s => decide (s.bookDetectedCount > 0),
      "Books or notes detected - verify no unauthorized materials are being used"),
    (fun s => decide (s.multipleFacesCount > 0),
      "Multiple faces detected - ensure only the candidate is present during the interview"),
    (fun s => decide (s.drowsinessCount > 3),
      "Drowsiness detected multiple times - consider scheduling interviews at optimal times")]

/-- The messages of the rules a session triggers, in rule order. -/
def triggeredMessages (s : Session) : List String :=
  (recommendationRules.filter (fun r => r.1 s)).map (fun r => r.2)

/-- The session's suspicious-event counter is not negative and its integrity score is in
the range 0 to 100. -/
def ScoreInRange (s : Session) : Prop :=
  0 ≤ s.suspiciousEvents ∧ 0 ≤ s.integrityScore ∧ s.integrityScore ≤ 100

/-- The ten most recently received alerts, or all of them when there are at most ten. -/
def lastTen (alerts : List PanelAlert) : List PanelAlert :=
  alerts.drop (alerts.length - 10)

/-! ## Sample values -/

/-- The kinds that `updateSessionCounters` counts as suspicious. -/
def suspiciousKinds : List String :=
  ["focus_lost", "face_absent", "multiple_faces", "phone_detected", "book_detected",
    "device_detected", "drowsiness_detected"]

/-- A freshly started session. -/
def aliceSession : Session := newSession "s1" "Alice" none 1000

/-- A store holding the freshly started session and its `session_start` row. -/
def aliceDb : Db :=
  { sessions := [aliceSession]
    events :=
      [{ id := "e0", sessionId := "s1", eventType := "session_start", severity := none,
         timestamp := 1000, duration := none, confidence := none,
         description := some "Proctoring session started for Alice", isResolved := false }] }

/-- A request environment without failing call, socket server present. -/
def calmEnv (now : Int) (eventId : String) : Env :=
  { now := now, now2 := now, newSessionId := "s2", newEventId := eventId,
    hasSocket := true, fault := .none }

/-- A request logging one event of the given kind for session `s1`. -/
def aliceEvent (kind : String) : EventReq :=
  { sessionId := some "s1", eventType := some kind, severity := some "high",
    duration := none, confidence := none, description := none }

/-- The sample store after `stop` for session `s1` at time 61000. -/
def stoppedDb : Db := (stopSession aliceDb (some "s1") (calmEnv 61000 "e1")).db

/-- A request environment in which the given call throws, socket server present. -/
def faultyEnv (now : Int) (eventId : String) (fault : Fault) : Env :=
  { now := now, now2 := now, newSessionId := "s2", newEventId := eventId,
    hasSocket := true, fault := fault }

/-- The loop's state before any frame: no pending timer, not drowsy. -/
def idleState : DetectionState :=
  { lastFaceTime := 0, lastFocusTime := 0, faceAbsentStart := none, focusLostStart := none,
    isDrowsy := false }

/-- A processed frame with a face in view and no object, looking away or not, read at the
given clock value. -/
def gazeTick (away : Bool) (now : Int) : Tick :=
  { enabled := true, hasVideo := true, readyState := 4, hasFace := true,
    isLookingAway := away, isDrowsy := false, phoneDetected := false,
    bookDetected := false, deviceDetected := false, nowFace := now, nowFocus := now }

/-- A processed frame with or without a face in view, nothing else detected, read at the
given clock value. -/
def faceTick (present : Bool) (now : Int) : Tick :=
  { enabled := true, hasVideo := true, readyState := 4, hasFace := present,
    isLookingAway := false, isDrowsy := false, phoneDetected := false,
    bookDetected := false, deviceDetected := false, nowFace := now, nowFocus := now }

/-- A processed frame with a face in view on which a phone is or is not detected. -/
def phoneTick (phone : Bool) (now : Int) : Tick :=
  { enabled := true, hasVideo := true, readyState := 4, hasFace := true,
    isLookingAway := false, isDrowsy := false, phoneDetected := phone,
    bookDetected := false, deviceDetected := false, nowFace := now, nowFocus := now }

/-- A processed frame with a face in view, drowsy or not. -/
def drowsyTick (drowsy : Bool) (now : Int) : Tick :=
  { enabled := true, hasVideo := true, readyState := 4, hasFace := true,
    isLookingAway := false, isDrowsy := drowsy, phoneDetected := false,
    bookDetected := false, deviceDetected := false, nowFace := now, nowFocus := now }

/-- A frame whose video is not ready (`readyState` 2), with no face and a drowsy pose. -/
def unreadyTick (now : Int) : Tick :=
  { enabled := true, hasVideo := true, readyState := 2, hasFace := false,
    isLookingAway := true, isDrowsy := true, phoneDetected := true,
    bookDetected := true, deviceDetected := true, nowFace := now, nowFocus := now }

/-- A loop state with both timers pending and the drowsy flag set. -/
def busyState : DetectionState :=
  { lastFaceTime := 900000, lastFocusTime := 900000, faceAbsentStart := some 1000000,
    focusLostStart := some 1000500, isDrowsy := true }

/-- The frames of a gaze held off-center from 2 s to 8 s, observed every 2 s. -/
def gazeAwayTicks : List Tick :=
  [gazeTick true 2000, gazeTick true 4000, gazeTick true 6000, gazeTick true 8000]

/-- The sample store after the loop's events for `gazeAwayTicks` were posted for session
`s1` at 8 s and the session was stopped at 61 s. -/
def gazeAwayDb : Db :=
  (stopSession
    ((runLoop idleState gazeAwayTicks).2.foldl
      (fun db e => (logEvent db (clientRequest "s1" e) (calmEnv 8000 "e1")).db) aliceDb)
    (some "s1") (calmEnv 61000 "e2")).db

/-- A stopped session of 600 s. -/
def tenMinuteSession : Session :=
  { aliceSession with endTime := some 601000, duration := some 600, status := "completed" }

/-- An event row of session `s1` with the given kind and duration. -/
def timedEvent (id kind : String) (duration : Option Int) : Event :=
  { id := id, sessionId := "s1", eventType := kind, severity := some "medium",
    timestamp := 5000, duration := duration, confidence := none, description := none,
    isResolved := false }

/-- Events with 60 s of `focus_lost` duration in all, one `focus_lost` event without a
duration and a `phone_detected` event with one. -/
def sixtySecondsLost : List Event :=
  [timedEvent "e1" "focus_lost" (some 25), timedEvent "e2" "phone_detected" (some 100),
    timedEvent "e3" "focus_lost" none, timedEvent "e4" "focus_lost" (some 35)]

/-- The scenario of the specification: a session started for Alice, one `phone_detected`
and two `focus_lost` events logged, the session stopped. -/
def scenarioDb : Db :=
  let env (now : Int) (eventId : String) : Env :=
    { now := now, now2 := now, newSessionId := "s1", newEventId := eventId,
      hasSocket := true, fault := .none }
  let db0 : Db := { sessions := [], events := [] }
  let db1 := (startSession db0 { candidateName := some "Alice", interviewerName := none }
    (env 1000 "e0")).db
  let db2 := (logEvent db1
    { sessionId := some "s1", eventType := some "phone_detected", severity := some "high",
      duration := none, confidence := none, description := none } (env 2000 "e1")).db
  let db3 := (logEvent db2
    { sessionId := some "s1", eventType := some "focus_lost", severity := some "medium",
      duration := none, confidence := none, description := none } (env 3000 "e2")).db
  let db4 := (logEvent db3
    { sessionId := some "s1", eventType := some "focus_lost", severity := some "medium",
      duration := none, confidence := none, description := none } (env 4000 "e3")).db
  (stopSession db4 (some "s1") (env 65000 "e4")).db

/-- A request environment for the scenario: the store assigns the session id `s1`. -/
def aliceEnv (now : Int) (eventId : String) : Env :=
  { now := now, now2 := now, newSessionId := "s1", newEventId := eventId,
    hasSocket := true, fault := .none }

/-- The request that starts a session for Alice. -/
def aliceStart : StartReq := { candidateName := some "Alice", interviewerName := none }

/-- A session started, one event logged, the session stopped. -/
def lifecycleOps : List Op :=
  [.start aliceStart (aliceEnv 1000 "e0"), .log (aliceEvent "phone_detected") (aliceEnv 2000 "e1"),
    .stop (some "s1") (aliceEnv 9000 "e2")]

/-- A server with session `s1` started and the observer socket `o1` in its channel. -/
def watchedSystem : System :=
  { db := aliceDb, hub := { rooms := [("o1", "s1")], sent := [] } }

/-- A processed frame without a face and with the gaze off-center, the face block reading
the clock exactly 10 s and the focus block exactly 5 s after the pending starts of
`busyState`. -/
def boundaryTick : Tick :=
  { enabled := true, hasVideo := true, readyState := 4, hasFace := false,
    isLookingAway := true, isDrowsy := true, phoneDetected := false,
    bookDetected := false, deviceDetected := false, nowFace := 1010000,
    nowFocus := 1005500 }

/-- The same frame one millisecond later. -/
def pastBoundaryTick : Tick :=
  { boundaryTick with nowFace := 1010001, nowFocus := 1005501 }

/-- Eleven alerts received one after the other, at clock values 1000 to 1010. -/
def elevenAlerts : List PanelAlert :=
  (List.range 11).foldl
    (fun alerts i => receiveAlert alerts (.relayed "s1" "alert") (1000 + (i : Int))) []

/-- The scenario's store after its scores were overridden with 70 and 50. -/
def scoredDb : Db :=
  (putFocusScore scenarioDb "s1" (some 70) (some 50) (calmEnv 70000 "e9")).db

/-- A store with the scenario's session and events, and a second session with an event of
its own. -/
def twoSessionDb : Db :=
  { sessions := scenarioDb.sessions ++ [newSession "s7" "Bob" none 500]
    events := timedEvent "x1" "focus_lost" (some 30) :: scenarioDb.events
      ++ [{ timedEvent "x2" "phone_detected" none with sessionId := "s7" }] }

/-- Two observers join the channel of `s1`, and one of them sends a `'proctoring-event'`
for it. -/
def relayOps : List Op :=
  [.join "o1" "s1", .join "o2" "s1", .relay "o2" "s1" "phone_detected"]

/-- A session started with an observer in its channel, an event logged, a second observer
joining, a relayed message, and the first observer leaving. -/
def observedOps : List Op :=
  [.start aliceStart (aliceEnv 1000 "e0"), .join "o1" "s1",
    .log (aliceEvent "phone_detected") (aliceEnv 2000 "e1"), .join "o2" "s1",
    .relay "o2" "s1" "note", .disconnect "o1"]

/-- A frame of two pixels, neither skin-toned. -/
def greyFrame : Frame :=
  { width := 2, height := 1, data := [10, 10, 10, 255, 120, 130, 140, 255] }

/-- A frame without pixels. -/
def emptyFrame : Frame := { width := 0, height := 0, data := [] }

/-- A frame of height 480 and width 0, without pixels. -/
def flatFrame : Frame := { width := 0, height := 480, data := [] }

/-- A frame of 20 pixels, one row, the first one skin-toned: 5 % of the pixels. -/
def fivePercentFrame : Frame :=
  { width := 20, height := 1
    data := [200, 100, 50, 255] ++ (List.replicate 19 [10, 10, 10, 255]).flatten }

/-- Four `logEvent` calls for session `s1`, one of them of the kind `session_end`. -/
def aliceCalls : List (EventReq × Env) :=
  [(aliceEvent "phone_detected", calmEnv 2000 "e1"),
    (aliceEvent "focus_lost", calmEnv 3000 "e2"),
    (aliceEvent "session_end", calmEnv 3500 "e3"),
    (aliceEvent "focus_lost", calmEnv 4000 "e4")]

/-- The scenario as operations: start, three events logged, stop. -/
def scenarioOps : List Op :=
  [.start aliceStart (aliceEnv 1000 "e0"),
    .log (aliceEvent "phone_detected") (aliceEnv 2000 "e1"),
    .log (aliceEvent "focus_lost") (aliceEnv 3000 "e2"),
    .log (aliceEvent "focus_lost") (aliceEnv 4000 "e3"),
    .stop (some "s1") (aliceEnv 65000 "e4")]

/-- A session started, then a `logEvent` whose `session.update` throws. -/
def updateFaultOps : List Op :=
  [.start aliceStart (aliceEnv 1000 "e0"),
    .log (aliceEvent "phone_detected") (faultyEnv 2000 "e1" .update)]

/-- A session started, then a `logEvent` whose `emit` throws. -/
def emitFaultOps : List Op :=
  [.start aliceStart (aliceEnv 1000 "e0"),
    .log (aliceEvent "phone_detected") (faultyEnv 2000 "e1" .emit)]

/-- Six frames a second apart, drowsy on the second to fourth and on the sixth. -/
def drowsyFrames : List Tick :=
  [drowsyTick false 1000000, drowsyTick true 1001000, drowsyTick true 1002000,
    drowsyTick true 1003000, drowsyTick false 1004000, drowsyTick true 1005000]

/-- Eleven frames a second apart: the gaze off-center on the first two, on-center on the
next six, off-center on two more, on-center on the last. -/
def gazeTwice : List Tick :=
  [gazeTick true 1000000, gazeTick true 1001000, gazeTick false 1002000,
    gazeTick false 1003000, gazeTick false 1004000, gazeTick false 1005000,
    gazeTick false 1006000, gazeTick false 1007000, gazeTick true 1008000,
    gazeTick true 1009000, gazeTick false 1010000]

/-- The given number of frames without a face, the first at `start`, `step` apart. -/
def absentFrames (start step : Int) (n : Nat) : List Tick :=
  (List.range n).map (fun i => faceTick false (start + step * (i : Int)))

/-- A stopped session of 160 s. -/
def shortSession : Session :=
  { aliceSession with endTime := some 161000, duration := some 160, status := "completed" }

/-- One `focus_lost` event of 83 s. -/
def eightyThreeLost : List Event := [timedEvent "e1" "focus_lost" (some 83)]

/-- Two events of the kind `constructor` and a `focus_lost` event between them. -/
def constructorEvents : List Event :=
  [timedEvent "e1" "constructor" none, timedEvent "e2" "focus_lost" (some 5),
    timedEvent "e3" "constructor" none]

/-- A stopped session of `10^12 + 19` seconds. -/
def ageLongSession : Session :=
  { aliceSession with
    endTime := some 1000000000019001, duration := some 1000000000019, status := "completed" }

/-- One `focus_lost` event of 421050000008 s. -/
def partOfAnAge : List Event := [timedEvent "e1" "focus_lost" (some 421050000008)]

/-! ## Shared lemmas -/

theorem updateSessionCounters_suspicious (s : Session) (kind : String) :
    (updateSessionCounters s kind).suspiciousEvents
      = s.suspiciousEvents
        + (if kind ∈ suspiciousKinds then 1 else 0) := by
  simp only [updateSessionCounters, counterUpdate, Session.applyUpdate, suspiciousKinds]
  split_ifs <;> simp_all

theorem updateSessionCounters_score (s : Session) (kind : String)
    (h : 0 ≤ s.suspiciousEvents) :
    (updateSessionCounters s kind).integrityScore
      = max 0 (100 - 2 * (updateSessionCounters s kind).suspiciousEvents) := by
  have h1 : s.suspiciousEvents + 1 ≠ 0 := by omega
  simp only [updateSessionCounters, counterUpdate, Session.applyUpdate]
  split_ifs <;> simp [jsOr, h1, mul_comm]

theorem updateSessionCounters_nonneg (s : Session) (kind : String)
    (h : 0 ≤ s.suspiciousEvents) : 0 ≤ (updateSessionCounters s kind).suspiciousEvents := by
  rw [updateSessionCounters_suspicious]
  split_ifs <;> omega

theorem updateSessionCounters_status (s : Session) (kind : String) :
    (updateSessionCounters s kind).status = s.status := by
  simp only [updateSessionCounters, counterUpdate, Session.applyUpdate]
  split_ifs <;> rfl

/-- The floor division of `elapsedSeconds` is the floor of the real quotient. -/
theorem elapsedSeconds_eq_floor (endTime startTime : Int) :
    elapsedSeconds endTime startTime = ⌊((endTime - startTime : Int) : Rat) / 1000⌋ := by
  unfold elapsedSeconds
  rw [Int.fdiv_eq_ediv _ (by norm_num : (0 : Int) ≤ 1000)]
  exact (Rat.floor_intCast_div_natCast (endTime - startTime) 1000).symm

theorem foldl_updateSessionCounters_nonneg (kinds : List String) (s : Session)
    (h : 0 ≤ s.suspiciousEvents) :
    0 ≤ (kinds.foldl updateSessionCounters s).suspiciousEvents := by
  induction kinds generalizing s with
  | nil => simpa using h
  | cons k ks ih => exact ih _ (updateSessionCounters_nonneg s k h)

theorem applyUpdate_id (s : Session) (u : UpdateData) : (s.applyUpdate u).id = s.id := rfl

theorem findByPk_id {db : Db} {id : String} {s : Session} (h : findByPk db id = some s) :
    s.id = id := by
  have := List.find?_some h
  simpa using this

theorem findByPk_createEvent (db : Db) (e : Event) (id : String) :
    findByPk (db.createEvent e) id = findByPk db id := rfl

theorem findByPk_updateSession_ne (db : Db) (sid id : String) (u : UpdateData)
    (h : id ≠ sid) : findByPk (db.updateSession sid u) id = findByPk db id := by
  obtain ⟨sessions, events⟩ := db
  simp only [findByPk, Db.updateSession]
  induction sessions with
  | nil => rfl
  | cons r rs ih =>
    rw [List.map_cons, List.find?_cons, List.find?_cons, ih]
    by_cases hr : r.id = sid
    · have hne : (r.id == id) = false := by
        rw [beq_eq_false_iff_ne]
        exact fun h2 => h (h2 ▸ hr)
      rw [if_pos hr, applyUpdate_id, hne]
    · rw [if_neg hr]

theorem findByPk_updateSession_same (db : Db) (sid : String) (u : UpdateData) :
    findByPk (db.updateSession sid u) sid
      = (findByPk db sid).map (fun s => s.applyUpdate u) := by
  obtain ⟨sessions, events⟩ := db
  simp only [findByPk, Db.updateSession]
  induction sessions with
  | nil => rfl
  | cons r rs ih =>
    rw [List.map_cons, List.find?_cons, List.find?_cons, ih]
    by_cases hr : r.id = sid
    · have he : (r.id == sid) = true := by rw [beq_iff_eq]; exact hr
      rw [if_pos hr, applyUpdate_id, he]
      rfl
    · have he : (r.id == sid) = false := by rw [beq_eq_false_iff_ne]; exact hr
      rw [if_neg hr, he]

/-- The handler's path once the request has passed the guards and found its session. -/
theorem logEvent_found (db : Db) (req : EventReq) (env : Env) (sid kind : String)
    (session : Session) (hsid : req.sessionId = some sid) (hkind : req.eventType = some kind)
    (hs : sid ≠ "") (hk : kind ≠ "") (hf : findByPk db sid = some session) :
    logEvent db req env =
      if env.fault = .find ∨ env.fault = .createEvent then
        ⟨.error 500 "Failed to log event", db, []⟩
      else if env.fault = .update then
        ⟨.error 500 "Failed to log event",
          db.createEvent (ingestedEvent req env sid kind), []⟩
      else if env.hasSocket = true ∧ env.fault = .emit then
        ⟨.error 500 "Failed to log event",
          (db.createEvent (ingestedEvent req env sid kind)).updateSession sid
            (counterUpdate session kind), []⟩
      else
        ⟨.eventLogged 201 (ingestedEvent req env sid kind),
          (db.createEvent (ingestedEvent req env sid kind)).updateSession sid
            (counterUpdate session kind),
          if env.hasSocket then [alertFor sid (ingestedEvent req env sid kind)] else []⟩ := by
  have hid := findByPk_id hf
  by_cases h1 : env.fault = .find
  · simp [logEvent, hsid, hkind, hs, hk, h1]
  by_cases h2 : env.fault = .createEvent
  · simp [logEvent, hsid, hkind, hs, hk, h1, h2, hf]
  by_cases h3 : env.fault = .update
  · simp [logEvent, hsid, hkind, hs, hk, h1, h2, h3, hf]
  by_cases h4 : env.hasSocket = true
  · by_cases h5 : env.fault = .emit
    · simp [logEvent, hsid, hkind, hs, hk, h1, h2, h3, h4, h5, hf, hid]
    · simp [logEvent, hsid, hkind, hs, hk, h1, h2, h3, h4, h5, hf, hid]
  · simp [logEvent, hsid, hkind, hs, hk, h1, h2, h3, h4, hf, hid]

/-- The handler's path when a guard rejects the request: a required field is missing (or
empty), or no session has the id. -/
theorem logEvent_rejected (db : Db) (req : EventReq) (env : Env)
    (h : (∀ sid kind, req.sessionId = some sid → req.eventType = some kind →
        sid ≠ "" → kind ≠ "" → findByPk db sid = none)) :
    (logEvent db req env).db = db ∧ (logEvent db req env).emitted = [] := by
  rcases hsid : req.sessionId with _ | sid
  · simp [logEvent, hsid]
  rcases hkind : req.eventType with _ | kind
  · simp [logEvent, hsid, hkind]
  by_cases hs : sid = ""
  · simp [logEvent, hsid, hkind, hs]
  by_cases hk : kind = ""
  · simp [logEvent, hsid, hkind, hs, hk]
  have hf := h sid kind hsid hkind hs hk
  by_cases h1 : env.fault = .find
  · simp [logEvent, hsid, hkind, hs, hk, h1]
  · simp [logEvent, hsid, hkind, hs, hk, h1, hf]

/-- An ingestion leaves the row of every session other than the request's as it was. -/
theorem logEvent_other (db : Db) (req : EventReq) (env : Env) (id : String)
    (h : req.sessionId ≠ some id) :
    findByPk (logEvent db req env).db id = findByPk db id := by
  by_cases hg : ∀ sid kind, req.sessionId = some sid → req.eventType = some kind →
        sid ≠ "" → kind ≠ "" → findByPk db sid = none
  · rw [(logEvent_rejected db req env hg).1]
  · push_neg at hg
    obtain ⟨sid, kind, hsid, hkind, hs, hk, hf⟩ := hg
    obtain ⟨session, hf⟩ := Option.ne_none_iff_exists'.mp hf
    have hne : id ≠ sid := fun e => h (by rw [hsid, e])
    rw [logEvent_found db req env sid kind session hsid hkind hs hk hf]
    split_ifs
    all_goals first
      | rfl
      | (simp only []; rw [findByPk_updateSession_ne _ _ _ _ hne]; rfl)

/-- The handler's path once `stop` has found an active session. -/
theorem stopSession_active (db : Db) (sid : String) (env : Env) (session : Session)
    (hs : sid ≠ "") (hf : findByPk db sid = some session)
    (hact : session.status = "active") :
    stopSession db (some sid) env =
      if env.fault = .find ∨ env.fault = .update then
        ⟨.error 500 "Failed to stop proctoring session", db, []⟩
      else if env.fault = .createEvent then
        ⟨.error 500 "Failed to stop proctoring session",
          db.updateSession sid
            { endTime := some env.now
              duration := some (elapsedSeconds env.now session.startTime)
              status := some "completed" }, []⟩
      else
        ⟨.sessionStopped 200 sid (elapsedSeconds env.now session.startTime) env.now
            "completed",
          (db.updateSession sid
            { endTime := some env.now
              duration := some (elapsedSeconds env.now session.startTime)
              status := some "completed" }).createEvent
            (sessionEndEvent env sid session.candidateName env.now), []⟩ := by
  have hid := findByPk_id hf
  by_cases h1 : env.fault = .find
  · simp [stopSession, hs, h1]
  by_cases h2 : env.fault = .update
  · simp [stopSession, hs, h1, h2, hf, hact]
  by_cases h3 : env.fault = .createEvent
  · simp [stopSession, hs, h1, h2, h3, hf, hact, hid]
  · simp [stopSession, hs, h1, h2, h3, hf, hact, hid]

/-- A `stop` answered 200 found an active session and none of its calls threw. -/
theorem stopSession_ok (db : Db) (sid : String) (env : Env)
    (h : (stopSession db (some sid) env).res.status = 200) :
    sid ≠ "" ∧ ∃ session, findByPk db sid = some session ∧ session.status = "active" ∧
      env.fault ≠ .find ∧ env.fault ≠ .update ∧ env.fault ≠ .createEvent := by
  by_cases hs : sid = ""
  · simp [stopSession, hs, Response.status] at h
  refine ⟨hs, ?_⟩
  by_cases h1 : env.fault = .find
  · simp [stopSession, hs, h1, Response.status] at h
  cases hf : findByPk db sid with
  | none => simp [stopSession, hs, h1, hf, Response.status] at h
  | some session =>
    by_cases hact : session.status = "active"
    · rw [stopSession_active db sid env session hs hf hact] at h
      refine ⟨session, rfl, hact, h1, ?_, ?_⟩
      · intro h2
        simp [h2, Response.status] at h
      · intro h3
        simp [h1, h3, Response.status] at h
    · simp [stopSession, hs, h1, hf, hact, Response.status] at h

/-! ## C1: the integrity score formula -/

/-- C1: for a session with `suspiciousEvents >= 0`, after `updateSessionCounters` with any
kind the stored `integrityScore` is `max(0, 100 - 2 * suspiciousEvents)` of the updated
session; the same holds after the last of any sequence of such updates (so after every
call of a sequence), and for the row a successful `logEvent` leaves in the store; a
`logEvent` for one session leaves the row of every other session as it was. -/
theorem integrityScore_formula (s : Session) (h : 0 ≤ s.suspiciousEvents) :
    (∀ kind : String,
      (updateSessionCounters s kind).integrityScore
        = max 0 (100 - 2 * (updateSessionCounters s kind).suspiciousEvents)) ∧
    (∀ (kinds : List String) (kind : String),
      ((kinds ++ [kind]).foldl updateSessionCounters s).integrityScore
        = max 0 (100 - 2 * ((kinds ++ [kind]).foldl updateSessionCounters s).suspiciousEvents)) ∧
    (∀ (db : Db) (req : EventReq) (env : Env) (id : String),
      findByPk db id = some s → req.sessionId = some id →
      (logEvent db req env).res.status = 201 →
      ∃ s2, findByPk (logEvent db req env).db id = some s2 ∧
        s2.integrityScore = max 0 (100 - 2 * s2.suspiciousEvents)) ∧
    (∀ (db : Db) (req : EventReq) (env : Env) (other : String),
      req.sessionId ≠ some other →
      findByPk (logEvent db req env).db other = findByPk db other) := by
  refine ⟨fun kind => updateSessionCounters_score s kind h, ?_, ?_, ?_⟩
  · intro kinds kind
    rw [List.foldl_append]
    exact updateSessionCounters_score _ kind (foldl_updateSessionCounters_nonneg kinds s h)
  · intro db req env id hf hsid hok
    rcases hkind : req.eventType with _ | kind
    · simp [logEvent, hsid, hkind, Response.status] at hok
    by_cases hs : id = ""
    · simp [logEvent, hsid, hkind, hs, Response.status] at hok
    by_cases hk : kind = ""
    · simp [logEvent, hsid, hkind, hs, hk, Response.status] at hok
    rw [logEvent_found db req env id kind s hsid hkind hs hk hf] at hok ⊢
    split_ifs at hok ⊢
    all_goals first
      | (exfalso; simp [Response.status] at hok; done)
      | (refine ⟨updateSessionCounters s kind, ?_, updateSessionCounters_score s kind h⟩
         simp only []
         rw [findByPk_updateSession_same, findByPk_createEvent, hf]
         rfl)
  · intro db req env other hne
    exact logEvent_other db req env other hne

/-- C1, instance: a fresh session after one `phone_detected`. -/
theorem integrityScore_formula_witness :
    0 ≤ aliceSession.suspiciousEvents ∧
    (updateSessionCounters aliceSession "phone_detected").integrityScore
      = max 0 (100 - 2 * (updateSessionCounters aliceSession "phone_detected").suspiciousEvents) :=
  ⟨by decide, (integrityScore_formula aliceSession (by decide)).1 "phone_detected"⟩

/-! ## C2: the counters -/

/-- C2: `updateSessionCounters(session, kind)` adds 1 to `totalEvents` for every kind; each
of the seven dedicated counters grows by 1 exactly when `kind` is its kind and is unchanged
otherwise; `suspiciousEvents` grows by 1 exactly when `kind` is one of the seven suspicious
kinds and is unchanged otherwise (so for `session_start`, `session_end` and any other kind
only `totalEvents` moves). -/
theorem updateSessionCounters_counters (s : Session) (kind : String) :
    (updateSessionCounters s kind).totalEvents = s.totalEvents + 1 ∧
    (updateSessionCounters s kind).focusLostCount
      = s.focusLostCount + (if kind = "focus_lost" then 1 else 0) ∧
    (updateSessionCounters s kind).faceAbsentCount
      = s.faceAbsentCount + (if kind = "face_absent" then 1 else 0) ∧
    (updateSessionCounters s kind).multipleFacesCount
      = s.multipleFacesCount + (if kind = "multiple_faces" then 1 else 0) ∧
    (updateSessionCounters s kind).phoneDetectedCount
      = s.phoneDetectedCount + (if kind = "phone_detected" then 1 else 0) ∧
    (updateSessionCounters s kind).bookDetectedCount
      = s.bookDetectedCount + (if kind = "book_detected" then 1 else 0) ∧
    (updateSessionCounters s kind).deviceDetectedCount
      = s.deviceDetectedCount + (if kind = "device_detected" then 1 else 0) ∧
    (updateSessionCounters s kind).drowsinessCount
      = s.drowsinessCount + (if kind = "drowsiness_detected" then 1 else 0) ∧
    (updateSessionCounters s kind).suspiciousEvents
      = s.suspiciousEvents + (if kind ∈ suspiciousKinds then 1 else 0) := by
  refine ⟨?_, ?_, ?_, ?_, ?_, ?_, ?_, ?_, updateSessionCounters_suspicious s kind⟩
  all_goals
    simp only [updateSessionCounters, counterUpdate, Session.applyUpdate]
    by_cases h1 : kind = "focus_lost"
    · subst h1; simp
    by_cases h2 : kind = "face_absent"
    · subst h2; simp
    by_cases h3 : kind = "multiple_faces"
    · subst h3; simp
    by_cases h4 : kind = "phone_detected"
    · subst h4; simp
    by_cases h5 : kind = "book_detected"
    · subst h5; simp
    by_cases h6 : kind = "device_detected"
    · subst h6; simp
    by_cases h7 : kind = "drowsiness_detected"
    · subst h7; simp
    simp [h1, h2, h3, h4, h5, h6, h7]


/-! ## C3: ingestion and the session status -/

/-- C3, counterexample: session `s1` has been stopped (status `completed`); a later
`logEvent` for it is not rejected: it returns 201, stores the event and moves the counters
and the score. -/
theorem logEvent_after_stop_accepted :
    (findByPk stoppedDb "s1").map (fun s => s.status) = some "completed" ∧
    (logEvent stoppedDb (aliceEvent "phone_detected") (calmEnv 62000 "e2")).res.status = 201 ∧
    (eventsOf (logEvent stoppedDb (aliceEvent "phone_detected") (calmEnv 62000 "e2")).db
        "s1").length = (eventsOf stoppedDb "s1").length + 1 ∧
    (findByPk stoppedDb "s1").map (fun s => (s.suspiciousEvents, s.integrityScore))
      = some (0, 100) ∧
    (findByPk (logEvent stoppedDb (aliceEvent "phone_detected") (calmEnv 62000 "e2")).db
        "s1").map (fun s => (s.suspiciousEvents, s.integrityScore)) = some (1, 98) := by
  decide

/-- C3, amended: `logEvent` does not read the session's status.  For an existing session
of any status, a request with both required fields whose storage and socket calls do not
throw returns 201 with the stored event, appends the event row, and replaces the session's
row by `updateSessionCounters` of it (status unchanged). -/
theorem logEvent_any_status (db : Db) (req : EventReq) (env : Env) (sid kind : String)
    (session : Session) (hsid : req.sessionId = some sid) (hkind : req.eventType = some kind)
    (hs : sid ≠ "") (hk : kind ≠ "") (hf : findByPk db sid = some session)
    (hfault : env.fault = .none) :
    (logEvent db req env).res = .eventLogged 201 (ingestedEvent req env sid kind) ∧
    (logEvent db req env).db.events = db.events ++ [ingestedEvent req env sid kind] ∧
    findByPk (logEvent db req env).db sid = some (updateSessionCounters session kind) ∧
    (updateSessionCounters session kind).status = session.status := by
  rw [logEvent_found db req env sid kind session hsid hkind hs hk hf]
  simp only [hfault]
  refine ⟨by simp, by simp [Db.updateSession, Db.createEvent], ?_,
    updateSessionCounters_status session kind⟩
  simp only [reduceCtorEq, or_self, and_false, if_false]
  rw [findByPk_updateSession_same, findByPk_createEvent, hf]
  rfl

/-- C3 amended, instance: a `focus_lost` logged for the stopped session `s1`. -/
theorem logEvent_any_status_witness :
    (findByPk stoppedDb "s1").map (fun s => s.status) = some "completed" ∧
    (logEvent stoppedDb (aliceEvent "focus_lost") (calmEnv 63000 "e3")).res
      = .eventLogged 201 (ingestedEvent (aliceEvent "focus_lost") (calmEnv 63000 "e3")
          "s1" "focus_lost") :=
  ⟨by decide,
    (logEvent_any_status stoppedDb (aliceEvent "focus_lost") (calmEnv 63000 "e3") "s1"
      "focus_lost" ((findByPk stoppedDb "s1").get (by decide)) rfl rfl (by decide)
      (by decide) (by decide) rfl).1⟩

/-! ## C4: missing fields and unknown sessions -/

/-- C4: a `logEvent` request whose `sessionId` or `eventType` is missing (or the empty
string, which `!x` treats alike) is answered 400; a request with both fields whose session
lookup returns no row is answered 404; in both cases the store is the one before the call
(no event row, no counter change) and nothing is handed to the socket server. -/
theorem logEvent_missing_or_unknown (db : Db) (req : EventReq) (env : Env) :
    ((req.sessionId = none ∨ req.sessionId = some "" ∨
        req.eventType = none ∨ req.eventType = some "") →
      logEvent db req env
        = ⟨.error 400 "Session ID and event type are required", db, []⟩) ∧
    (∀ sid kind, req.sessionId = some sid → req.eventType = some kind →
      sid ≠ "" → kind ≠ "" → env.fault ≠ .find → findByPk db sid = none →
      logEvent db req env = ⟨.error 404 "Session not found", db, []⟩) := by
  constructor
  · intro h
    rcases hsid : req.sessionId with _ | sid
    · simp [logEvent, hsid]
    rcases hkind : req.eventType with _ | kind
    · simp [logEvent, hsid, hkind]
    have h2 : sid = "" ∨ kind = "" := by
      rcases h with h | h | h | h
      · rw [hsid] at h; cases h
      · rw [hsid] at h; exact Or.inl (Option.some.inj h)
      · rw [hkind] at h; cases h
      · rw [hkind] at h; exact Or.inr (Option.some.inj h)
    simp [logEvent, hsid, hkind, h2]
  · intro sid kind hsid hkind hs hk hfault hf
    simp [logEvent, hsid, hkind, hs, hk, hfault, hf]

/-- C4, instance: a request without `sessionId`, and one for the unknown id `s9`. -/
theorem logEvent_missing_or_unknown_witness :
    logEvent aliceDb
        { sessionId := none, eventType := some "focus_lost", severity := none,
          duration := none, confidence := none, description := none } (calmEnv 2000 "e1")
      = ⟨.error 400 "Session ID and event type are required", aliceDb, []⟩ ∧
    logEvent aliceDb
        { sessionId := some "s9", eventType := some "focus_lost", severity := none,
          duration := none, confidence := none, description := none } (calmEnv 2000 "e1")
      = ⟨.error 404 "Session not found", aliceDb, []⟩ :=
  ⟨(logEvent_missing_or_unknown aliceDb _ _).1 (Or.inl rfl),
    (logEvent_missing_or_unknown aliceDb _ _).2 "s9" "focus_lost" rfl rfl (by decide)
      (by decide) (by decide) (by decide)⟩

/-! ## C5: what a failed ingestion leaves behind -/

/-- C5, counterexample: when `session.update` throws, the call answers 500 and the event
row it created is still stored; when the `emit` throws, the call answers 500 and the
session row carries the updated counters and score. -/
theorem logEvent_not_all_or_nothing :
    (logEvent aliceDb (aliceEvent "phone_detected") (faultyEnv 5000 "e1" .update)).res.status
      = 500 ∧
    (eventsOf (logEvent aliceDb (aliceEvent "phone_detected")
        (faultyEnv 5000 "e1" .update)).db "s1").length = (eventsOf aliceDb "s1").length + 1 ∧
    (logEvent aliceDb (aliceEvent "phone_detected") (faultyEnv 5000 "e1" .emit)).res.status
      = 500 ∧
    (findByPk aliceDb "s1").map (fun s => (s.phoneDetectedCount, s.integrityScore))
      = some (0, 100) ∧
    (findByPk (logEvent aliceDb (aliceEvent "phone_detected")
        (faultyEnv 5000 "e1" .emit)).db "s1").map
          (fun s => (s.phoneDetectedCount, s.integrityScore)) = some (1, 98) := by
  decide

/-- C5, amended: a `logEvent` call that does not answer 201 and fails neither in
`session.update` nor in the `emit` (a guard rejects it, or the lookup or the event `create`
throws) leaves the store as it was.  For a request that found its session: when
`session.update` throws, the answer is 500, the new event row is stored and the session
rows are unchanged; when the `emit` throws, the answer is 500, the event row is stored and
the session row is the one `updateSessionCounters` gives. -/
theorem logEvent_failure_effects (db : Db) (req : EventReq) (env : Env) :
    ((logEvent db req env).res.status ≠ 201 → env.fault ≠ .update → env.fault ≠ .emit →
      (logEvent db req env).db = db) ∧
    (∀ sid kind session, req.sessionId = some sid → req.eventType = some kind →
      sid ≠ "" → kind ≠ "" → findByPk db sid = some session →
      (env.fault = .update →
        (logEvent db req env).res.status = 500 ∧
        (logEvent db req env).db.events = db.events ++ [ingestedEvent req env sid kind] ∧
        (logEvent db req env).db.sessions = db.sessions) ∧
      (env.fault = .emit → env.hasSocket = true →
        (logEvent db req env).res.status = 500 ∧
        (logEvent db req env).db.events = db.events ++ [ingestedEvent req env sid kind] ∧
        findByPk (logEvent db req env).db sid
          = some (updateSessionCounters session kind))) := by
  constructor
  · intro hres hu he
    by_cases hg : ∀ sid kind, req.sessionId = some sid → req.eventType = some kind →
        sid ≠ "" → kind ≠ "" → findByPk db sid = none
    · exact (logEvent_rejected db req env hg).1
    · push_neg at hg
      obtain ⟨sid, kind, hsid, hkind, hs, hk, hf⟩ := hg
      obtain ⟨session, hf⟩ := Option.ne_none_iff_exists'.mp hf
      rw [logEvent_found db req env sid kind session hsid hkind hs hk hf] at hres ⊢
      by_cases h1 : env.fault = .find ∨ env.fault = .createEvent
      · simp [h1]
      · simp [h1, hu, he, Response.status] at hres
  · intro sid kind session hsid hkind hs hk hf
    rw [logEvent_found db req env sid kind session hsid hkind hs hk hf]
    constructor
    · intro hu
      simp [hu, Response.status, Db.createEvent]
    · intro he hsock
      simp only [he, hsock]
      refine ⟨by simp [Response.status], by simp [Db.updateSession, Db.createEvent], ?_⟩
      simp only [reduceCtorEq, or_self, and_self, if_false, if_true]
      rw [findByPk_updateSession_same, findByPk_createEvent, hf]
      rfl

/-- C5 amended, instance: the event `create` throwing, and `session.update` throwing. -/
theorem logEvent_failure_effects_witness :
    (logEvent aliceDb (aliceEvent "book_detected") (faultyEnv 7000 "e1" .createEvent)).db
      = aliceDb ∧
    (logEvent aliceDb (aliceEvent "book_detected") (faultyEnv 7000 "e1" .update)).db.sessions
      = aliceDb.sessions :=
  ⟨(logEvent_failure_effects aliceDb (aliceEvent "book_detected")
      (faultyEnv 7000 "e1" .createEvent)).1 (by decide) (by decide) (by decide),
    (((logEvent_failure_effects aliceDb (aliceEvent "book_detected")
      (faultyEnv 7000 "e1" .update)).2 "s1" "book_detected" aliceSession rfl rfl (by decide)
      (by decide) (by decide)).1 rfl).2.2⟩

/-! ## C6: a throwing broadcast -/

/-- C6, counterexample: the event is stored and the counters are updated, the `emit`
throws, and the caller receives the 500 answer of the handler's `catch`, not the 201. -/
theorem emit_throw_answers_500 :
    (logEvent aliceDb (aliceEvent "device_detected") (faultyEnv 9000 "e1" .emit)).res
      = .error 500 "Failed to log event" ∧
    (eventsOf (logEvent aliceDb (aliceEvent "device_detected")
        (faultyEnv 9000 "e1" .emit)).db "s1").length = 2 ∧
    (findByPk (logEvent aliceDb (aliceEvent "device_detected")
        (faultyEnv 9000 "e1" .emit)).db "s1").map (fun s => s.deviceDetectedCount)
      = some 1 := by
  decide

/-- C6, amended: the `emit` runs inside the handler's `try`.  For a request that found its
session and whose storage calls returned: if a socket server is set and its `emit` throws,
the caller receives 500 'Failed to log event' (the event row and the updated counters
stay); the caller receives the 201 answer with the stored event exactly when the `emit`
does not throw or no socket server is set. -/
theorem logEvent_emit_failure (db : Db) (req : EventReq) (env : Env) (sid kind : String)
    (session : Session) (hsid : req.sessionId = some sid) (hkind : req.eventType = some kind)
    (hs : sid ≠ "") (hk : kind ≠ "") (hf : findByPk db sid = some session)
    (h1 : env.fault ≠ .find) (h2 : env.fault ≠ .createEvent) (h3 : env.fault ≠ .update) :
    (env.hasSocket = true ∧ env.fault = .emit →
      logEvent db req env = ⟨.error 500 "Failed to log event",
        (db.createEvent (ingestedEvent req env sid kind)).updateSession sid
          (counterUpdate session kind), []⟩) ∧
    ((logEvent db req env).res = .eventLogged 201 (ingestedEvent req env sid kind)
      ↔ ¬ (env.hasSocket = true ∧ env.fault = .emit)) := by
  rw [logEvent_found db req env sid kind session hsid hkind hs hk hf]
  by_cases he : env.hasSocket = true ∧ env.fault = .emit
  · simp [h1, h2, h3, he]
  · simp [h1, h2, h3, he]

/-- C6 amended, instance: the `emit` throwing while a `face_absent` is logged. -/
theorem logEvent_emit_failure_witness :
    logEvent aliceDb (aliceEvent "face_absent") (faultyEnv 9500 "e1" .emit)
      = ⟨.error 500 "Failed to log event",
        (aliceDb.createEvent (ingestedEvent (aliceEvent "face_absent")
          (faultyEnv 9500 "e1" .emit) "s1" "face_absent")).updateSession "s1"
          (counterUpdate aliceSession "face_absent"), []⟩ :=
  (logEvent_emit_failure aliceDb (aliceEvent "face_absent") (faultyEnv 9500 "e1" .emit) "s1"
    "face_absent" aliceSession rfl rfl (by decide) (by decide) (by decide) (by decide)
    (by decide) (by decide)).1 ⟨rfl, rfl⟩

/-! ## C7: stopping an active session -/

/-- C7: for an active session with `startTime <= now` whose lookup and update return,
`stopSession` leaves in the store the session's row with `endTime = now`,
`duration = floor((now - startTime) / 1000)` and `status = completed`, every other column
(all counters and the integrity score among them) as before; the duration is a whole
number of seconds, at least 0, with `1000 * duration <= now - startTime <
1000 * (duration + 1)`; and when the `session_end` row is created too the answer is 200
with that duration and end time. -/
theorem stopSession_effect (db : Db) (sid : String) (env : Env) (session : Session)
    (hs : sid ≠ "") (hf : findByPk db sid = some session)
    (hact : session.status = "active") (htime : session.startTime ≤ env.now)
    (h1 : env.fault ≠ .find) (h2 : env.fault ≠ .update) :
    findByPk (stopSession db (some sid) env).db sid
      = some { session with
          endTime := some env.now
          duration := some (elapsedSeconds env.now session.startTime)
          status := "completed" } ∧
    elapsedSeconds env.now session.startTime
      = ⌊((env.now - session.startTime : Int) : Rat) / 1000⌋ ∧
    0 ≤ elapsedSeconds env.now session.startTime ∧
    1000 * elapsedSeconds env.now session.startTime ≤ env.now - session.startTime ∧
    env.now - session.startTime < 1000 * (elapsedSeconds env.now session.startTime + 1) ∧
    (env.fault ≠ .createEvent →
      (stopSession db (some sid) env).res
        = .sessionStopped 200 sid (elapsedSeconds env.now session.startTime) env.now
            "completed") := by
  have hdiv : elapsedSeconds env.now session.startTime
      = (env.now - session.startTime) / 1000 := by
    unfold elapsedSeconds
    exact Int.fdiv_eq_ediv _ (by norm_num)
  refine ⟨?_, elapsedSeconds_eq_floor _ _, ?_, ?_, ?_, ?_⟩
  · rw [stopSession_active db sid env session hs hf hact]
    have h12 : ¬ (env.fault = .find ∨ env.fault = .update) := by
      rintro (h | h)
      · exact h1 h
      · exact h2 h
    rw [if_neg h12]
    split_ifs
    all_goals
      simp only []
      first
        | rw [findByPk_createEvent, findByPk_updateSession_same, hf]
        | rw [findByPk_updateSession_same, hf]
      rfl
  · rw [hdiv]; omega
  · rw [hdiv]; omega
  · rw [hdiv]; omega
  · intro h3
    rw [stopSession_active db sid env session hs hf hact]
    simp [h1, h2, h3]

/-- C7, instance: session `s1`, started at 1000 ms, stopped at 61999 ms: 60 seconds. -/
theorem stopSession_effect_witness :
    findByPk (stopSession aliceDb (some "s1") (calmEnv 61999 "e1")).db "s1"
      = some { aliceSession with
          endTime := some 61999
          duration := some (elapsedSeconds 61999 1000)
          status := "completed" } ∧
    elapsedSeconds 61999 1000 = 60 :=
  ⟨(stopSession_effect aliceDb "s1" (calmEnv 61999 "e1") aliceSession (by decide)
      (by decide) (by decide) (by decide) (by decide) (by decide)).1, by decide⟩

/-! ## C8: stopping twice, stopping an unknown session -/

/-- C8: after a `stopSession` answered 200, a second `stopSession` for the same id (whose
lookup returns) is answered 400 'Session is not active' and leaves the store as the first
call left it, so `endTime`, `duration` and `status` are those of the first call and no
second `session_end` row exists; a `stopSession` for an id without session is answered
404 and changes nothing. -/
theorem stopSession_twice (db : Db) (sid : String) (env1 env2 : Env)
    (h2 : env2.fault ≠ .find) :
    ((stopSession db (some sid) env1).res.status = 200 →
      stopSession (stopSession db (some sid) env1).db (some sid) env2
        = ⟨.error 400 "Session is not active", (stopSession db (some sid) env1).db, []⟩) ∧
    (sid ≠ "" → findByPk db sid = none →
      stopSession db (some sid) env2 = ⟨.error 404 "Session not found", db, []⟩) := by
  constructor
  · intro hok
    obtain ⟨hs, session, hf, hact, f1, f2, f3⟩ := stopSession_ok db sid env1 hok
    have hrow : findByPk (stopSession db (some sid) env1).db sid
        = some { session with
            endTime := some env1.now
            duration := some (elapsedSeconds env1.now session.startTime)
            status := "completed" } := by
      rw [stopSession_active db sid env1 session hs hf hact]
      simp only [f1, f2, f3, or_self, if_false]
      rw [findByPk_createEvent, findByPk_updateSession_same, hf]
      rfl
    generalize (stopSession db (some sid) env1).db = db1 at hrow ⊢
    simp [stopSession, hs, h2, hrow]
  · intro hs hf
    simp [stopSession, hs, h2, hf]

/-- C8, instance: session `s1` stopped twice, and the unknown id `s9`. -/
theorem stopSession_twice_witness :
    stopSession (stopSession aliceDb (some "s1") (calmEnv 61000 "e1")).db (some "s1")
        (calmEnv 99000 "e2")
      = ⟨.error 400 "Session is not active",
          (stopSession aliceDb (some "s1") (calmEnv 61000 "e1")).db, []⟩ ∧
    stopSession aliceDb (some "s9") (calmEnv 99000 "e2")
      = ⟨.error 404 "Session not found", aliceDb, []⟩ :=
  ⟨(stopSession_twice aliceDb "s1" (calmEnv 61000 "e1") (calmEnv 99000 "e2")
      (by decide)).1 (by decide),
    (stopSession_twice aliceDb "s9" (calmEnv 61000 "e1") (calmEnv 99000 "e2")
      (by decide)).2 (by decide) (by decide)⟩

/-! ## C9: starting a session -/

/-- C9: `startSession` with a missing or empty `candidateName` is answered 400 and leaves
the store as it was (no session, no event); with a non-empty `candidateName`, the two
`create` calls returning, it appends exactly one session row (the answered session, with
the store-assigned id) and exactly one event row, of kind `session_start`, whose
`sessionId` is the new session's id. -/
theorem startSession_creates (db : Db) (req : StartReq) (env : Env) :
    ((req.candidateName = none ∨ req.candidateName = some "") →
      startSession db req env = ⟨.error 400 "Candidate name is required", db, []⟩) ∧
    (∀ name, req.candidateName = some name → name ≠ "" →
      env.fault ≠ .createSession → env.fault ≠ .createEvent →
      ∃ session e,
        (startSession db req env).res = .sessionStarted 201 session ∧
        (startSession db req env).db.sessions = db.sessions ++ [session] ∧
        (startSession db req env).db.events = db.events ++ [e] ∧
        e.eventType = "session_start" ∧ e.sessionId = session.id ∧
        session.id = env.newSessionId ∧ session.candidateName = name ∧
        session.startTime = env.now) := by
  constructor
  · rintro (h | h)
    · simp [startSession, h]
    · simp [startSession, h]
  · intro name hname hne h1 h2
    refine ⟨newSession env.newSessionId name req.interviewerName env.now,
      sessionStartEvent env env.newSessionId name, ?_, ?_, ?_, ?_, ?_, rfl, rfl, rfl⟩
    · simp [startSession, hname, hne, h1, h2]
    · simp [startSession, hname, hne, h1, h2, Db.createSession, Db.createEvent]
    · simp [startSession, hname, hne, h1, h2, Db.createSession, Db.createEvent, newSession]
    · rfl
    · rfl

/-- C9, instance: an empty candidate name, and the candidate Bob. -/
theorem startSession_creates_witness :
    startSession aliceDb { candidateName := some "", interviewerName := none }
        (calmEnv 5000 "e1")
      = ⟨.error 400 "Candidate name is required", aliceDb, []⟩ ∧
    ∃ session e,
      (startSession aliceDb { candidateName := some "Bob", interviewerName := none }
        (calmEnv 5000 "e1")).res = .sessionStarted 201 session ∧
      (startSession aliceDb { candidateName := some "Bob", interviewerName := none }
        (calmEnv 5000 "e1")).db.sessions = aliceDb.sessions ++ [session] ∧
      (startSession aliceDb { candidateName := some "Bob", interviewerName := none }
        (calmEnv 5000 "e1")).db.events = aliceDb.events ++ [e] ∧
      e.eventType = "session_start" ∧ e.sessionId = session.id ∧
      session.id = "s2" ∧ session.candidateName = "Bob" ∧ session.startTime = 5000 :=
  ⟨(startSession_creates aliceDb _ (calmEnv 5000 "e1")).1 (Or.inr rfl),
    (startSession_creates aliceDb { candidateName := some "Bob", interviewerName := none }
      (calmEnv 5000 "e1")).2 "Bob" rfl (by decide) (by decide) (by decide)⟩

/-! ## The detection loop: each debounce block in closed form -/

theorem handleObjects_kinds (t : Tick) (sig : Signal) :
    eventsOfKind sig.kind (handleObjects t) = [] := by
  cases sig <;>
    simp only [handleObjects, eventsOfKind, Signal.kind, List.filter_append] <;>
    split_ifs <;> decide

theorem handleDrowsiness_kinds (st : DetectionState) (t : Tick) (sig : Signal) :
    eventsOfKind sig.kind (handleDrowsiness st t).2 = [] ∧
    sig.pending (handleDrowsiness st t).1 = sig.pending st := by
  cases sig <;>
    simp only [handleDrowsiness, eventsOfKind, Signal.kind, Signal.pending] <;>
    split_ifs <;> exact ⟨rfl, rfl⟩

/-- A processed frame runs the signal's block as `debounceStep`; a frame that is not
processed changes nothing and logs nothing. -/
theorem runDetection_debounce (sig : Signal) (st : DetectionState) (t : Tick) :
    sig.pending (runDetection st t).1
      = (if t.ready then
          (debounceStep sig.holdThreshold (sig.pending st) (sig.raw t) (sig.clock t)).1
        else sig.pending st) ∧
    (eventsOfKind sig.kind (runDetection st t).2).length
      = (if t.ready &&
          (debounceStep sig.holdThreshold (sig.pending st) (sig.raw t) (sig.clock t)).2
        then 1 else 0) := by
  by_cases hr : t.ready = true
  · have h1 : t.enabled = true := by
      simp only [Tick.ready, Bool.and_eq_true] at hr; exact hr.1.1
    have h2 : t.hasVideo = true := by
      simp only [Tick.ready, Bool.and_eq_true] at hr; exact hr.1.2
    have h3 : t.readyState = 4 := by
      simp only [Tick.ready, Bool.and_eq_true, beq_iff_eq] at hr; exact hr.2
    have hrun : runDetection st t =
        ((handleDrowsiness (handleFocusLoss (handleFaceAbsence st t).1 t).1 t).1,
          (handleFaceAbsence st t).2 ++ (handleFocusLoss (handleFaceAbsence st t).1 t).2
            ++ (handleDrowsiness (handleFocusLoss (handleFaceAbsence st t).1 t).1 t).2
            ++ handleObjects t) := by
      simp [runDetection, h1, h2, h3]
    rw [hrun, hr]
    simp only [eventsOfKind, List.filter_append, List.length_append]
    have ho := handleObjects_kinds t sig
    have hd := handleDrowsiness_kinds (handleFocusLoss (handleFaceAbsence st t).1 t).1 t sig
    simp only [eventsOfKind] at ho hd
    rw [ho, hd.1, hd.2]
    cases sig
    · simp only [Signal.pending, Signal.kind, Signal.raw, Signal.clock, Signal.holdThreshold,
        handleFaceAbsence, handleFocusLoss, debounceStep]
      split_ifs <;> simp_all
    · simp only [Signal.pending, Signal.kind, Signal.raw, Signal.clock, Signal.holdThreshold,
        handleFaceAbsence, handleFocusLoss, debounceStep]
      split_ifs <;> simp_all
  · have hrun : runDetection st t = (st, []) := by
      simp only [Tick.ready, Bool.and_eq_true, beq_iff_eq, not_and] at hr
      unfold runDetection
      by_cases h1 : t.enabled = true
      · by_cases h2 : t.hasVideo = true
        · have h3 := hr ⟨h1, h2⟩
          simp [h1, h2, h3]
        · simp [h1, h2]
      · simp [h1]
    rw [hrun]
    simp [hr, eventsOfKind]

/-! ## The detection loop: what each block logs -/

theorem runDetection_ready (st : DetectionState) (t : Tick) (hr : t.ready = true) :
    runDetection st t =
      ((handleDrowsiness (handleFocusLoss (handleFaceAbsence st t).1 t).1 t).1,
        (handleFaceAbsence st t).2 ++ (handleFocusLoss (handleFaceAbsence st t).1 t).2
          ++ (handleDrowsiness (handleFocusLoss (handleFaceAbsence st t).1 t).1 t).2
          ++ handleObjects t) := by
  simp only [Tick.ready, Bool.and_eq_true, beq_iff_eq] at hr
  obtain ⟨⟨h1, h2⟩, h3⟩ := hr
  simp [runDetection, h1, h2, h3]

theorem runDetection_not_ready (st : DetectionState) (t : Tick) (hr : t.ready = false) :
    runDetection st t = (st, []) := by
  unfold runDetection
  by_cases h1 : t.enabled = true
  · by_cases h2 : t.hasVideo = true
    · by_cases h3 : t.readyState = 4
      · simp [Tick.ready, h1, h2, h3] at hr
      · simp [h1, h2, h3]
    · simp [h1, h2]
  · simp [h1]

theorem eventsOfKind_eq_nil (kind other : String) (evs : List EventData)
    (h : ∀ e ∈ evs, e.eventType = other) (hne : other ≠ kind) :
    eventsOfKind kind evs = [] := by
  unfold eventsOfKind
  rw [List.filter_eq_nil_iff]
  intro e he
  rw [h e he]
  simpa using hne

theorem handleFaceAbsence_kind (st : DetectionState) (t : Tick) :
    ∀ e ∈ (handleFaceAbsence st t).2, e.eventType = "face_absent" := by
  unfold handleFaceAbsence
  split_ifs <;> simp

theorem handleFocusLoss_kind (st : DetectionState) (t : Tick) :
    ∀ e ∈ (handleFocusLoss st t).2, e.eventType = "focus_lost" := by
  unfold handleFocusLoss
  split_ifs <;> simp

theorem handleDrowsiness_kind (st : DetectionState) (t : Tick) :
    ∀ e ∈ (handleDrowsiness st t).2, e.eventType = "drowsiness_detected" := by
  unfold handleDrowsiness
  split_ifs <;> simp

theorem handleFaceAbsence_isDrowsy (st : DetectionState) (t : Tick) :
    (handleFaceAbsence st t).1.isDrowsy = st.isDrowsy := by
  unfold handleFaceAbsence
  split_ifs <;> rfl

theorem handleFocusLoss_isDrowsy (st : DetectionState) (t : Tick) :
    (handleFocusLoss st t).1.isDrowsy = st.isDrowsy := by
  unfold handleFocusLoss
  split_ifs <;> rfl

theorem handleObjects_class (t : Tick) (c : ObjectClass) :
    (eventsOfKind c.kind (handleObjects t)).length = if c.detected t then 1 else 0 := by
  cases c <;>
    simp only [handleObjects, eventsOfKind, ObjectClass.kind, ObjectClass.detected,
      List.filter_append, List.length_append] <;>
    split_ifs <;> rfl

theorem handleObjects_not_drowsiness (t : Tick) :
    eventsOfKind "drowsiness_detected" (handleObjects t) = [] := by
  simp only [handleObjects, eventsOfKind, List.filter_append]
  split_ifs <;> rfl

/-- On one frame the object block logs one event of a class exactly when the frame is
processed and the class is detected on it. -/
theorem runDetection_object (c : ObjectClass) (st : DetectionState) (t : Tick) :
    (eventsOfKind c.kind (runDetection st t).2).length
      = if t.ready && c.detected t then 1 else 0 := by
  by_cases hr : t.ready = true
  · rw [runDetection_ready st t hr, hr]
    have h1 := eventsOfKind_eq_nil c.kind _ _ (handleFaceAbsence_kind st t)
      (by cases c <;> decide)
    have h2 := eventsOfKind_eq_nil c.kind _ _
      (handleFocusLoss_kind (handleFaceAbsence st t).1 t) (by cases c <;> decide)
    have h3 := eventsOfKind_eq_nil c.kind _ _
      (handleDrowsiness_kind (handleFocusLoss (handleFaceAbsence st t).1 t).1 t)
      (by cases c <;> decide)
    have h4 := handleObjects_class t c
    simp only [eventsOfKind, List.filter_append, List.length_append] at h1 h2 h3 h4 ⊢
    rw [h1, h2, h3, h4]
    simp
  · have hr2 : t.ready = false := by simpa using hr
    rw [runDetection_not_ready st t hr2, hr2]
    rfl

/-- On one frame the drowsiness block logs one event exactly when the frame is processed,
the classifier reports drowsy and the stored flag is false; after a processed frame the
flag is the classifier's value. -/
theorem runDetection_drowsiness (st : DetectionState) (t : Tick) :
    (eventsOfKind "drowsiness_detected" (runDetection st t).2).length
      = (if t.ready && (t.isDrowsy && !st.isDrowsy) then 1 else 0) ∧
    (runDetection st t).1.isDrowsy = (if t.ready then t.isDrowsy else st.isDrowsy) := by
  by_cases hr : t.ready = true
  · rw [runDetection_ready st t hr, hr]
    have h1 := eventsOfKind_eq_nil "drowsiness_detected" _ _ (handleFaceAbsence_kind st t)
      (by decide)
    have h2 := eventsOfKind_eq_nil "drowsiness_detected" _ _
      (handleFocusLoss_kind (handleFaceAbsence st t).1 t) (by decide)
    have h4 := handleObjects_not_drowsiness t
    have hd : (handleFocusLoss (handleFaceAbsence st t).1 t).1.isDrowsy = st.isDrowsy := by
      rw [handleFocusLoss_isDrowsy, handleFaceAbsence_isDrowsy]
    simp only [eventsOfKind, List.filter_append, List.length_append] at h1 h2 h4 ⊢
    rw [h1, h2, h4]
    generalize (handleFocusLoss (handleFaceAbsence st t).1 t).1 = st2 at hd ⊢
    unfold handleDrowsiness
    rw [hd]
    cases hdt : t.isDrowsy <;> cases hds : st.isDrowsy <;> simp [hd, hds]
  · have hr2 : t.ready = false := by simpa using hr
    rw [runDetection_not_ready st t hr2, hr2]
    exact ⟨rfl, rfl⟩

theorem runLoop_count (kind : String) (f : DetectionState → Tick → Nat)
    (hstep : ∀ st t, (eventsOfKind kind (runDetection st t).2).length = f st t)
    (st : DetectionState) (t : Tick) (rest : List Tick) :
    (eventsOfKind kind (runLoop st (t :: rest)).2).length
      = f st t + (eventsOfKind kind (runLoop (runDetection st t).1 rest).2).length := by
  simp only [runLoop, eventsOfKind, List.filter_append, List.length_append]
  rw [← hstep st t]
  rfl

/-! ## C13: object detections -/

/-- C13, counterexample: a phone detected on three consecutive frames gives three
`phone_detected` events, one per frame. -/
theorem phone_three_frames_three_events :
    (eventsOfKind "phone_detected"
      (runLoop idleState [phoneTick true 1000000, phoneTick true 1000016,
        phoneTick true 1000033]).2).length = 3 := by
  decide

/-- C13, amended: the object blocks keep no state; for the classes phone, book and device
the loop logs one event of the class on every processed frame on which the class is
detected, so a run of consecutive detecting frames gives as many events as it has
processed frames. -/
theorem object_events_per_frame (c : ObjectClass) (st : DetectionState) (ticks : List Tick) :
    (eventsOfKind c.kind (runLoop st ticks).2).length
      = (ticks.filter (fun t => t.ready && c.detected t)).length := by
  induction ticks generalizing st with
  | nil => rfl
  | cons t rest ih =>
    rw [runLoop_count c.kind (fun _ t => if t.ready && c.detected t then 1 else 0)
      (fun st t => runDetection_object c st t), ih, List.filter_cons]
    split_ifs <;> simp [Nat.add_comm]

/-! ## C15: a frame that is not ready -/

/-- C15: a call of `runDetection` that finds no video element, or a `readyState` other than
4, logs no event and returns the state unchanged: `faceAbsentStart`, `focusLostStart` and
`isDrowsy` (and the two last-seen times) are exactly as before, whatever the classifier
would report and whatever the clock reads. -/
theorem frame_not_ready_skipped (st : DetectionState) (t : Tick)
    (h : t.hasVideo = false ∨ t.readyState ≠ 4) :
    (runDetection st t).2 = [] ∧
    (runDetection st t).1.faceAbsentStart = st.faceAbsentStart ∧
    (runDetection st t).1.focusLostStart = st.focusLostStart ∧
    (runDetection st t).1.isDrowsy = st.isDrowsy ∧
    (runDetection st t).1 = st := by
  have hr : t.ready = false := by
    rcases h with h | h
    · simp [Tick.ready, h]
    · simp [Tick.ready, h]
  rw [runDetection_not_ready st t hr]
  exact ⟨rfl, rfl, rfl, rfl, rfl⟩

/-- C15, instance: both timers pending and the flag set, a frame with `readyState` 2 long
after both thresholds. -/
theorem frame_not_ready_skipped_witness :
    (runDetection busyState (unreadyTick 2000000)).2 = [] ∧
    (runDetection busyState (unreadyTick 2000000)).1.faceAbsentStart = some 1000000 ∧
    (runDetection busyState (unreadyTick 2000000)).1.focusLostStart = some 1000500 ∧
    (runDetection busyState (unreadyTick 2000000)).1.isDrowsy = true ∧
    (runDetection busyState (unreadyTick 2000000)).1 = busyState :=
  frame_not_ready_skipped busyState (unreadyTick 2000000) (Or.inr (by decide))

/-! ## The detection loop: a pending timer that holds, a pending timer that fires -/

/-- While the signal stays true and no more than the threshold has passed since a pending
start `s`, a frame logs nothing for the signal and leaves the pending start at `s`. -/
theorem runDetection_hold (sig : Signal) (st : DetectionState) (t : Tick) (s : Int)
    (hp : sig.pending st = some s) (hs : s ≠ 0)
    (ht : t.ready = true → sig.raw t = true ∧ sig.clock t - s ≤ sig.holdThreshold) :
    (eventsOfKind sig.kind (runDetection st t).2).length = 0 ∧
    sig.pending (runDetection st t).1 = some s := by
  obtain ⟨h1, h2⟩ := runDetection_debounce sig st t
  by_cases hr : t.ready = true
  · obtain ⟨hraw, hle⟩ := ht hr
    have hstep : debounceStep sig.holdThreshold (sig.pending st) (sig.raw t) (sig.clock t)
        = (some s, false) := by
      have hn : jsNot (some s) = false := by simpa [jsNot] using hs
      have hgt : ¬ sig.clock t - s > sig.holdThreshold := by omega
      simp [debounceStep, hp, hraw, hn, hgt]
    rw [hstep, hr] at h1 h2
    exact ⟨by simpa using h2, by simpa using h1⟩
  · have hr2 : t.ready = false := by simpa using hr
    rw [hr2] at h1 h2
    exact ⟨by simpa using h2, by simpa [hp] using h1⟩

/-- A processed frame on which the signal is true more than the threshold after a pending
start logs one event for the signal and clears the pending start. -/
theorem runDetection_fire (sig : Signal) (st : DetectionState) (t : Tick) (s : Int)
    (hp : sig.pending st = some s) (hs : s ≠ 0) (hr : t.ready = true)
    (hraw : sig.raw t = true) (hgt : sig.holdThreshold < sig.clock t - s) :
    (eventsOfKind sig.kind (runDetection st t).2).length = 1 ∧
    sig.pending (runDetection st t).1 = none := by
  obtain ⟨h1, h2⟩ := runDetection_debounce sig st t
  have hstep : debounceStep sig.holdThreshold (sig.pending st) (sig.raw t) (sig.clock t)
      = (none, true) := by
    have hn : jsNot (some s) = false := by simpa [jsNot] using hs
    simp [debounceStep, hp, hraw, hn, hgt]
  rw [hstep, hr] at h1 h2
  exact ⟨by simpa using h2, by simpa using h1⟩

/-! ## JavaScript numbers: rounding to a double -/

theorem mathRound_intCast (n : Int) : mathRound (n : Rat) = n := by
  unfold mathRound
  rw [Int.floor_eq_iff]
  constructor
  · linarith
  · linarith

theorem roundHalfEven_bounds (z : Rat) :
    ⌊z⌋ ≤ roundHalfEven z ∧ roundHalfEven z ≤ ⌊z⌋ + 1 := by
  unfold roundHalfEven
  split_ifs <;> constructor <;> omega

theorem roundHalfEven_near (z : Rat) : |(roundHalfEven z : Rat) - z| ≤ 1 / 2 := by
  have h1 := Int.floor_le z
  have h2 := Int.lt_floor_add_one z
  unfold roundHalfEven
  rw [abs_le]
  split_ifs with ha hb hc
  · constructor <;> linarith
  · push_cast; constructor <;> linarith
  · constructor <;> linarith
  · push_cast; constructor <;> linarith

theorem roundHalfEven_intCast (n : Int) : roundHalfEven (n : Rat) = n := by
  unfold roundHalfEven
  rw [Int.floor_intCast]
  simp

theorem roundHalfEven_mono {z w : Rat} (h : z ≤ w) : roundHalfEven z ≤ roundHalfEven w := by
  have hf : ⌊z⌋ ≤ ⌊w⌋ := Int.floor_mono h
  rcases lt_or_eq_of_le hf with hlt | heq
  · have := (roundHalfEven_bounds z).2
    have := (roundHalfEven_bounds w).1
    omega
  · unfold roundHalfEven
    rw [heq]
    split_ifs <;> first | omega | (exfalso; linarith)

theorem roundHalfEven_eq_of_near (z : Rat) (m : Int) (h : |z - (m : Rat)| < 1 / 2) :
    roundHalfEven z = m := by
  rw [abs_lt] at h
  have hn := roundHalfEven_near z
  rw [abs_le] at hn
  have h1 : ((roundHalfEven z : Int) : Rat) - (m : Rat) < 1 := by linarith
  have h2 : (m : Rat) - ((roundHalfEven z : Int) : Rat) < 1 := by linarith
  have h3 : roundHalfEven z - m < 1 := by exact_mod_cast h1
  have h4 : m - roundHalfEven z < 1 := by exact_mod_cast h2
  omega

theorem two_zpow_pos (e : Int) : (0 : Rat) < 2 ^ e := zpow_pos (by norm_num) e

theorem log_spec (a : Rat) (ha : 0 < a) :
    (2 : Rat) ^ Int.log 2 a ≤ a ∧ a < 2 ^ (Int.log 2 a + 1) := by
  have h1 := Int.zpow_log_le_self (b := 2) (r := a) (by norm_num) ha
  have h2 := Int.lt_zpow_succ_log_self (b := 2) (by norm_num) a
  simp only [Nat.cast_ofNat] at h1 h2
  exact ⟨h1, h2⟩

theorem log_unique (a : Rat) (e : Int) (h1 : (2 : Rat) ^ e ≤ a) (h2 : a < 2 ^ (e + 1)) :
    Int.log 2 a = e := by
  have ha : 0 < a := lt_of_lt_of_le (two_zpow_pos e) h1
  have hl := log_spec a ha
  have hA : e ≤ Int.log 2 a := by
    have := (Int.zpow_le_iff_le_log (b := 2) (by norm_num) (x := e) ha).mp
      (by simpa using h1)
    exact this
  have hB : Int.log 2 a < e + 1 := by
    have := (Int.lt_zpow_iff_log_lt (b := 2) (by norm_num) (x := e + 1) ha).mp
      (by simpa using h2)
    exact this
  omega

theorem ulp_eq (e : Int) : (2 : Rat) ^ (e - 52) = 2 ^ e / 4503599627370496 := by
  rw [zpow_sub₀ (by norm_num : (2 : Rat) ≠ 0)]
  norm_num

theorem nearestDouble_eq (a : Rat) :
    nearestDouble a
      = (roundHalfEven (a * 4503599627370496 / 2 ^ Int.log 2 a) : Rat)
          * (2 ^ Int.log 2 a / 4503599627370496) := by
  unfold nearestDouble
  rw [ulp_eq]
  congr 2
  have := two_zpow_pos (Int.log 2 a)
  field_simp

theorem scaled_bounds (a : Rat) (ha : 0 < a) :
    (4503599627370496 : Rat) ≤ a * 4503599627370496 / 2 ^ Int.log 2 a ∧
    a * 4503599627370496 / 2 ^ Int.log 2 a < 9007199254740992 := by
  obtain ⟨h1, h2⟩ := log_spec a ha
  have hP := two_zpow_pos (Int.log 2 a)
  rw [zpow_add_one₀ (by norm_num : (2 : Rat) ≠ 0)] at h2
  constructor
  · rw [le_div_iff₀ hP]
    nlinarith
  · rw [div_lt_iff₀ hP]
    nlinarith

theorem significand_bounds (a : Rat) (ha : 0 < a) :
    4503599627370496 ≤ roundHalfEven (a * 4503599627370496 / 2 ^ Int.log 2 a) ∧
    roundHalfEven (a * 4503599627370496 / 2 ^ Int.log 2 a) ≤ 9007199254740992 := by
  obtain ⟨h1, h2⟩ := scaled_bounds a ha
  constructor
  · have := roundHalfEven_mono h1
    rw [show (4503599627370496 : Rat) = ((4503599627370496 : Int) : Rat) by norm_num,
      roundHalfEven_intCast] at this
    exact this
  · have := roundHalfEven_mono (le_of_lt h2)
    rw [show (9007199254740992 : Rat) = ((9007199254740992 : Int) : Rat) by norm_num,
      roundHalfEven_intCast] at this
    exact this

theorem nearestDouble_bounds (a : Rat) (ha : 0 < a) :
    (2 : Rat) ^ Int.log 2 a ≤ nearestDouble a ∧
    nearestDouble a ≤ 2 ^ (Int.log 2 a + 1) := by
  obtain ⟨h1, h2⟩ := significand_bounds a ha
  have hP := two_zpow_pos (Int.log 2 a)
  rw [nearestDouble_eq, zpow_add_one₀ (by norm_num : (2 : Rat) ≠ 0)]
  have h1q : (4503599627370496 : Rat)
      ≤ (roundHalfEven (a * 4503599627370496 / 2 ^ Int.log 2 a) : Rat) := by
    exact_mod_cast h1
  have h2q : (roundHalfEven (a * 4503599627370496 / 2 ^ Int.log 2 a) : Rat)
      ≤ 9007199254740992 := by
    exact_mod_cast h2
  constructor
  · rw [← mul_div_assoc, le_div_iff₀ (by norm_num)]
    nlinarith
  · rw [← mul_div_assoc, div_le_iff₀ (by norm_num)]
    nlinarith

theorem nearestDouble_pos (a : Rat) (ha : 0 < a) : 0 < nearestDouble a :=
  lt_of_lt_of_le (two_zpow_pos _) (nearestDouble_bounds a ha).1

theorem nearestDouble_error (a : Rat) (ha : 0 < a) :
    |nearestDouble a - a| ≤ a / 9007199254740992 := by
  obtain ⟨h1, _⟩ := log_spec a ha
  have hP := two_zpow_pos (Int.log 2 a)
  have hn := roundHalfEven_near (a * 4503599627370496 / 2 ^ Int.log 2 a)
  rw [nearestDouble_eq]
  have hrew : (roundHalfEven (a * 4503599627370496 / 2 ^ Int.log 2 a) : Rat)
      * (2 ^ Int.log 2 a / 4503599627370496) - a
      = ((roundHalfEven (a * 4503599627370496 / 2 ^ Int.log 2 a) : Rat)
          - a * 4503599627370496 / 2 ^ Int.log 2 a) * (2 ^ Int.log 2 a / 4503599627370496) := by
    field_simp
    ring
  rw [hrew, abs_mul, abs_of_pos (div_pos hP (by norm_num))]
  calc |(roundHalfEven (a * 4503599627370496 / 2 ^ Int.log 2 a) : Rat)
          - a * 4503599627370496 / 2 ^ Int.log 2 a| * (2 ^ Int.log 2 a / 4503599627370496)
      ≤ 1 / 2 * (2 ^ Int.log 2 a / 4503599627370496) :=
        mul_le_mul_of_nonneg_right hn (le_of_lt (div_pos hP (by norm_num)))
    _ = 2 ^ Int.log 2 a / 9007199254740992 := by ring
    _ ≤ a / 9007199254740992 := by
        apply div_le_div_of_nonneg_right h1 (by norm_num)

theorem nearestDouble_mono (a b : Rat) (ha : 0 < a) (hab : a ≤ b) :
    nearestDouble a ≤ nearestDouble b := by
  have hb : 0 < b := lt_of_lt_of_le ha hab
  have hlog : Int.log 2 a ≤ Int.log 2 b := Int.log_mono_right ha hab
  rcases lt_or_eq_of_le hlog with hlt | heq
  · calc nearestDouble a ≤ 2 ^ (Int.log 2 a + 1) := (nearestDouble_bounds a ha).2
      _ ≤ 2 ^ Int.log 2 b := zpow_le_zpow_right₀ (by norm_num) (by omega)
      _ ≤ nearestDouble b := (nearestDouble_bounds b hb).1
  · rw [nearestDouble_eq, nearestDouble_eq, heq]
    have hP := two_zpow_pos (Int.log 2 b)
    apply mul_le_mul_of_nonneg_right _ (le_of_lt (div_pos hP (by norm_num)))
    have : a * 4503599627370496 / 2 ^ Int.log 2 b ≤ b * 4503599627370496 / 2 ^ Int.log 2 b := by
      apply div_le_div_of_nonneg_right _ (le_of_lt hP)
      linarith
    exact_mod_cast roundHalfEven_mono this

/-- A value inside a binade and nearer than half a unit to the multiple `m` of the unit
rounds to that multiple. -/
theorem nearestDouble_eq_of_near (a : Rat) (e m : Int) (h1 : (2 : Rat) ^ e ≤ a)
    (h2 : a < 2 ^ (e + 1))
    (h : |a * 4503599627370496 / 2 ^ e - (m : Rat)| < 1 / 2) :
    nearestDouble a = (m : Rat) * (2 ^ e / 4503599627370496) := by
  rw [nearestDouble_eq, log_unique a e h1 h2, roundHalfEven_eq_of_near _ m h]

theorem nearestDouble_natCast (n : Nat) (h0 : 0 < n) (h : n < 9007199254740992) :
    nearestDouble (n : Rat) = n := by
  have ha : (0 : Rat) < (n : Rat) := by exact_mod_cast h0
  obtain ⟨h1, h2⟩ := log_spec (n : Rat) ha
  -- the exponent is between 0 and 52
  have he0 : 0 ≤ Int.log 2 (n : Rat) := by
    rw [Int.log_natCast]
    exact Int.natCast_nonneg _
  have he1 : Int.log 2 (n : Rat) < 53 := by
    have hlt : (2 : Rat) ^ Int.log 2 (n : Rat) < 2 ^ (53 : Int) := by
      calc (2 : Rat) ^ Int.log 2 (n : Rat) ≤ n := h1
        _ < 9007199254740992 := by exact_mod_cast h
        _ = 2 ^ (53 : Int) := by norm_num
    exact (zpow_lt_zpow_iff_right₀ (by norm_num : (1 : Rat) < 2)).mp hlt
  obtain ⟨k, hk⟩ := Int.eq_ofNat_of_zero_le he0
  obtain ⟨j, hj⟩ := Int.eq_ofNat_of_zero_le (by omega : 0 ≤ 52 - Int.log 2 (n : Rat))
  have hkj : k + j = 52 := by omega
  rw [nearestDouble_eq, hk, zpow_natCast]
  have h52 : (4503599627370496 : Rat) = 2 ^ k * 2 ^ j := by
    rw [← pow_add, hkj]; norm_num
  have hz : (n : Rat) * 4503599627370496 / 2 ^ k = ((n * 2 ^ j : Nat) : Int) := by
    rw [h52]
    have : (0 : Rat) < 2 ^ k := by positivity
    field_simp
    ring
  rw [hz, roundHalfEven_intCast, h52]
  have : (0 : Rat) < 2 ^ k := by positivity
  have : (0 : Rat) < 2 ^ j := by positivity
  field_simp
  ring

theorem toDouble_zero : toDouble 0 = 0 := by simp [toDouble]

theorem toDouble_of_pos (x : Rat) (h : 0 < x) : toDouble x = nearestDouble x := by
  simp [toDouble, h, ne_of_gt h]

theorem toDouble_of_neg (x : Rat) (h : x < 0) : toDouble x = -nearestDouble (-x) := by
  simp [toDouble, ne_of_lt h, not_lt.mpr (le_of_lt h)]

theorem toDouble_neg (x : Rat) : toDouble (-x) = -toDouble x := by
  rcases lt_trichotomy x 0 with h | h | h
  · rw [toDouble_of_neg x h, toDouble_of_pos (-x) (by linarith), neg_neg]
  · subst h; simp [toDouble_zero]
  · rw [toDouble_of_pos x h, toDouble_of_neg (-x) (by linarith), neg_neg]

theorem toDouble_nonneg (x : Rat) (h : 0 ≤ x) : 0 ≤ toDouble x := by
  rcases eq_or_lt_of_le h with h0 | hp
  · rw [← h0, toDouble_zero]
  · rw [toDouble_of_pos x hp]
    exact le_of_lt (nearestDouble_pos x hp)

theorem toDouble_nonpos (x : Rat) (h : x ≤ 0) : toDouble x ≤ 0 := by
  have := toDouble_nonneg (-x) (by linarith)
  rw [toDouble_neg] at this
  linarith

/-- Rounding to a double keeps the order. -/
theorem toDouble_mono (x y : Rat) (h : x ≤ y) : toDouble x ≤ toDouble y := by
  rcases lt_trichotomy 0 x with hx | hx | hx
  · rw [toDouble_of_pos x hx, toDouble_of_pos y (by linarith)]
    exact nearestDouble_mono x y hx h
  · subst hx
    rw [toDouble_zero]
    exact toDouble_nonneg y h
  · rcases le_or_lt 0 y with hy | hy
    · exact le_trans (toDouble_nonpos x (le_of_lt hx)) (toDouble_nonneg y hy)
    · rw [toDouble_of_neg x hx, toDouble_of_neg y hy]
      have := nearestDouble_mono (-y) (-x) (by linarith) (by linarith)
      linarith

/-- An integer below `2^53` in size is a double. -/
theorem toDouble_intCast (n : Int) (h : |n| < 9007199254740992) : toDouble (n : Rat) = n := by
  rcases lt_trichotomy n 0 with hn | hn | hn
  · obtain ⟨k, hk⟩ := Int.eq_ofNat_of_zero_le (by omega : 0 ≤ -n)
    have hk0 : 0 < k := by omega
    have hk1 : k < 9007199254740992 := by
      have := abs_of_neg hn
      omega
    have hx : ((n : Int) : Rat) = -((k : Nat) : Rat) := by
      have : n = -(k : Int) := by omega
      rw [this]; push_cast; ring
    rw [hx, toDouble_neg, toDouble_of_pos _ (by exact_mod_cast hk0),
      nearestDouble_natCast k hk0 hk1]
  · subst hn; simp [toDouble_zero]
  · obtain ⟨k, hk⟩ := Int.eq_ofNat_of_zero_le (le_of_lt hn)
    have hk0 : 0 < k := by omega
    have hk1 : k < 9007199254740992 := by
      have := abs_of_pos hn
      omega
    have hx : ((n : Int) : Rat) = ((k : Nat) : Rat) := by
      rw [hk]; push_cast; ring
    rw [hx, toDouble_of_pos _ (by exact_mod_cast hk0), nearestDouble_natCast k hk0 hk1]

/-- Rounding to a double moves a value by at most its `2^-53`-th part. -/
theorem toDouble_error (x : Rat) : |toDouble x - x| ≤ |x| / 9007199254740992 := by
  rcases lt_trichotomy x 0 with h | h | h
  · rw [toDouble_of_neg x h, abs_of_neg h]
    have := nearestDouble_error (-x) (by linarith)
    rw [abs_le] at this ⊢
    constructor <;> linarith
  · subst h; simp [toDouble_zero]
  · rw [toDouble_of_pos x h, abs_of_pos h]
    exact nearestDouble_error x h

theorem toDouble_hundred : toDouble 100 = 100 := by
  have := toDouble_intCast 100 (by norm_num)
  simpa using this

theorem toDouble_tenThousand : toDouble 10000 = 10000 := by
  have := toDouble_intCast 10000 (by norm_num)
  simpa using this

theorem toDouble_one : toDouble 1 = 1 := by
  have := toDouble_intCast 1 (by norm_num)
  simpa using this

/-- Line 181 on the value 100 returns 100. -/
theorem reported_hundred :
    toDouble ((mathRound (toDouble ((100 : Rat) * 100)) : Rat) / 100) = 100 := by
  rw [show (100 : Rat) * 100 = 10000 by norm_num, toDouble_tenThousand,
    show (10000 : Rat) = ((10000 : Int) : Rat) by norm_num, mathRound_intCast]
  rw [show (((10000 : Int) : Rat)) / 100 = 100 by norm_num, toDouble_hundred]

theorem reported_bounds (x : Rat) (h0 : 0 ≤ x) (h1 : x ≤ 100) :
    0 ≤ toDouble ((mathRound (toDouble (x * 100)) : Rat) / 100) ∧
    toDouble ((mathRound (toDouble (x * 100)) : Rat) / 100) ≤ 100 := by
  have hy0 : 0 ≤ toDouble (x * 100) := toDouble_nonneg _ (by linarith)
  have hy1 : toDouble (x * 100) ≤ 10000 := by
    have := toDouble_mono (x * 100) 10000 (by linarith)
    rwa [toDouble_tenThousand] at this
  have hk0 : 0 ≤ mathRound (toDouble (x * 100)) := Int.floor_nonneg.mpr (by linarith)
  have hk1 : mathRound (toDouble (x * 100)) ≤ 10000 := by
    have : mathRound (toDouble (x * 100)) < 10001 := Int.floor_lt.mpr (by push_cast; linarith)
    omega
  have hk0q : (0 : Rat) ≤ (mathRound (toDouble (x * 100)) : Rat) := by exact_mod_cast hk0
  have hk1q : (mathRound (toDouble (x * 100)) : Rat) ≤ 10000 := by exact_mod_cast hk1
  constructor
  · exact toDouble_nonneg _ (div_nonneg hk0q (by norm_num))
  · have := toDouble_mono ((mathRound (toDouble (x * 100)) : Rat) / 100) 100 (by
      rw [div_le_iff₀ (by norm_num)]; linarith)
    rwa [toDouble_hundred] at this

theorem unrounded_bounds (S : Rat) (d : Int) (hS : 0 ≤ S) (hd : 0 < d) :
    0 ≤ max 0 (toDouble (100 - toDouble (toDouble (S / (d : Rat)) * 100))) ∧
    max 0 (toDouble (100 - toDouble (toDouble (S / (d : Rat)) * 100))) ≤ 100 := by
  have hdq : (0 : Rat) < (d : Rat) := by exact_mod_cast hd
  have hq : 0 ≤ toDouble (S / (d : Rat)) := toDouble_nonneg _ (div_nonneg hS hdq.le)
  have ha : 0 ≤ toDouble (toDouble (S / (d : Rat)) * 100) :=
    toDouble_nonneg _ (by linarith)
  have hb : toDouble (100 - toDouble (toDouble (S / (d : Rat)) * 100)) ≤ 100 := by
    have := toDouble_mono (100 - toDouble (toDouble (S / (d : Rat)) * 100)) 100 (by linarith)
    rwa [toDouble_hundred] at this
  exact ⟨le_max_left _ _, max_le (by norm_num) hb⟩

/-- An integer within a half of a value that is close enough to a multiple of `1/d` is
within a half of that multiple. -/
theorem nearest_of_close (k N d : Int) (y : Rat) (hd : 0 < d) (hd1 : d ≤ 100000000000)
    (hk1 : (k : Rat) ≤ y + 1 / 2) (hk2 : y + 1 / 2 < (k : Rat) + 1)
    (hlo : (N : Rat) / (d : Rat) - 40000 / 9007199254740992 ≤ y)
    (hhi : y ≤ (N : Rat) / (d : Rat) + 40000 / 9007199254740992) :
    |(k : Rat) - (N : Rat) / (d : Rat)| ≤ 1 / 2 := by
  have hdq : (0 : Rat) < (d : Rat) := by exact_mod_cast hd
  have hd1q : (d : Rat) ≤ 100000000000 := by exact_mod_cast hd1
  have hr : (N : Rat) / (d : Rat) * (d : Rat) = N := div_mul_cancel₀ _ (ne_of_gt hdq)
  have h1 : ((k * d - N : Int) : Rat) * 2 < (d : Rat) + 1 := by
    push_cast
    have : (k : Rat) - (N : Rat) / (d : Rat) ≤ 1 / 2 + 40000 / 9007199254740992 := by
      linarith
    have h := mul_le_mul_of_nonneg_right this hdq.le
    rw [sub_mul, hr] at h
    nlinarith
  have h2 : ((N - k * d : Int) : Rat) * 2 < (d : Rat) + 1 := by
    push_cast
    have : (N : Rat) / (d : Rat) - (k : Rat) ≤ 1 / 2 + 40000 / 9007199254740992 := by
      linarith
    have h := mul_le_mul_of_nonneg_right this hdq.le
    rw [sub_mul, hr] at h
    nlinarith
  have h1i : (k * d - N) * 2 < d + 1 := by exact_mod_cast h1
  have h2i : (N - k * d) * 2 < d + 1 := by exact_mod_cast h2
  have h1j : ((k * d - N : Int) : Rat) * 2 ≤ (d : Rat) := by
    have : (k * d - N) * 2 ≤ d := by omega
    exact_mod_cast this
  have h2j : ((N - k * d : Int) : Rat) * 2 ≤ (d : Rat) := by
    have : (N - k * d) * 2 ≤ d := by omega
    exact_mod_cast this
  push_cast at h1j h2j
  rw [abs_le]
  constructor
  · by_contra hcon
    push_neg at hcon
    have := mul_lt_mul_of_pos_right hcon hdq
    rw [sub_mul, hr] at this
    linarith
  · by_contra hcon
    push_neg at hcon
    have := mul_lt_mul_of_pos_right hcon hdq
    rw [sub_mul, hr] at this
    linarith

/-- Lines 166 and 181 on whole numbers: the integer that `Math.round` returns is within a
half of the hundredfold of the exact value. -/
theorem reported_accuracy (S d : Int) (hS : 0 ≤ S) (hd : 0 < d) (hd1 : d ≤ 100000000000) :
    ∃ k : Int,
      |(k : Rat) - max 0 (100 - (S : Rat) / (d : Rat) * 100) * 100| ≤ 1 / 2 ∧
      toDouble ((mathRound (toDouble
        (max 0 (toDouble (100 - toDouble (toDouble ((S : Rat) / (d : Rat)) * 100))) * 100))
          : Rat) / 100) = toDouble ((k : Rat) / 100) := by
  refine ⟨mathRound (toDouble
    (max 0 (toDouble (100 - toDouble (toDouble ((S : Rat) / (d : Rat)) * 100))) * 100)),
    ?_, rfl⟩
  have hdq : (0 : Rat) < (d : Rat) := by exact_mod_cast hd
  have hSq : (0 : Rat) ≤ (S : Rat) := by exact_mod_cast hS
  set x : Rat := (S : Rat) / (d : Rat) with hx
  have hx0 : 0 ≤ x := div_nonneg hSq hdq.le
  set q := toDouble x with hq
  set a := toDouble (q * 100) with ha
  set b := toDouble (100 - a) with hb
  set y := toDouble (max 0 b * 100) with hy
  by_cases hx1 : 1 ≤ x
  · -- the whole duration or more was lost: everything is 0
    have hq1 : 1 ≤ q := by
      have := toDouble_mono 1 x hx1
      rwa [toDouble_one] at this
    have ha1 : 100 ≤ a := by
      have := toDouble_mono 100 (q * 100) (by linarith)
      rwa [toDouble_hundred] at this
    have hb0 : b ≤ 0 := toDouble_nonpos _ (by linarith)
    have hc : max 0 b = 0 := max_eq_left hb0
    have hy0 : y = 0 := by rw [hy, hc]; simp [toDouble_zero]
    have hp : max 0 (100 - x * 100) = 0 := max_eq_left (by linarith)
    rw [hy0, hp]
    have : mathRound 0 = 0 := by
      have := mathRound_intCast 0
      simpa using this
    rw [this]
    norm_num
  · push_neg at hx1
    have hp : max 0 (100 - x * 100) = 100 - x * 100 := max_eq_right (by linarith)
    -- the four roundings
    have eq := toDouble_error x
    rw [abs_of_nonneg hx0] at eq
    have hq0 : 0 ≤ q := toDouble_nonneg _ hx0
    have hq1 : q ≤ 1 := by
      have := toDouble_mono x 1 (le_of_lt hx1)
      rwa [toDouble_one] at this
    have ea := toDouble_error (q * 100)
    rw [abs_of_nonneg (by linarith : 0 ≤ q * 100)] at ea
    have ha0 : 0 ≤ a := toDouble_nonneg _ (by linarith)
    have ha1 : a ≤ 100 := by
      have := toDouble_mono (q * 100) 100 (by linarith)
      rwa [toDouble_hundred] at this
    have eb := toDouble_error (100 - a)
    rw [abs_of_nonneg (by linarith : 0 ≤ 100 - a)] at eb
    have hb0 : 0 ≤ b := toDouble_nonneg _ (by linarith)
    have hb1 : b ≤ 100 := by
      have := toDouble_mono (100 - a) 100 (by linarith)
      rwa [toDouble_hundred] at this
    have hc : max 0 b = b := max_eq_right hb0
    have ey := toDouble_error (b * 100)
    rw [abs_of_nonneg (by linarith : 0 ≤ b * 100)] at ey
    rw [hp]
    rw [hy, hc]
    rw [abs_le] at eq ea eb ey
    obtain ⟨eq1, eq2⟩ := eq
    obtain ⟨ea1, ea2⟩ := ea
    obtain ⟨eb1, eb2⟩ := eb
    obtain ⟨ey1, ey2⟩ := ey
    have hy_lo : (100 - x * 100) * 100 - 40000 / 9007199254740992 ≤ toDouble (b * 100) := by
      linarith
    have hy_hi : toDouble (b * 100) ≤ (100 - x * 100) * 100 + 40000 / 9007199254740992 := by
      linarith
    have hk1 := Int.floor_le (toDouble (b * 100) + 1 / 2)
    have hk2 := Int.lt_floor_add_one (toDouble (b * 100) + 1 / 2)
    have hkdef : mathRound (toDouble (b * 100)) = ⌊toDouble (b * 100) + 1 / 2⌋ := rfl
    rw [hkdef]
    generalize ⌊toDouble (b * 100) + 1 / 2⌋ = k at hk1 hk2
    -- the exact value is a multiple of 1/d
    have hN : (100 - x * 100) * 100 = ((10000 * (d - S) : Int) : Rat) / (d : Rat) := by
      rw [hx]
      push_cast
      field_simp
      ring
    rw [hN] at hy_lo hy_hi ⊢
    generalize (10000 * (d - S) : Int) = N at hy_lo hy_hi ⊢
    exact nearest_of_close k N d _ hd hd1 hk1 hk2 hy_lo hy_hi

theorem toDouble_eq_of_near (a : Rat) (e m : Int) (v : Rat) (h1 : (2 : Rat) ^ e ≤ a)
    (h2 : a < 2 ^ (e + 1))
    (h : |a * 4503599627370496 / 2 ^ e - (m : Rat)| < 1 / 2)
    (hv : (m : Rat) * (2 ^ e / 4503599627370496) = v) : toDouble a = v := by
  have ha : 0 < a := lt_of_lt_of_le (two_zpow_pos e) h1
  rw [toDouble_of_pos a ha, nearestDouble_eq_of_near a e m h1 h2 h, hv]

theorem value_83_160 :
    toDouble ((mathRound (toDouble
      (max 0 (toDouble (100 - toDouble (toDouble ((83 : Rat) / 160) * 100))) * 100))
        : Rat) / 100) = toDouble (4812 / 100) := by
  have hq : toDouble ((83 : Rat) / 160) = 2336242306698445 / 4503599627370496 := by
    apply toDouble_eq_of_near _ (-1) 4672484613396890 <;> norm_num [abs_lt]
  have ha : toDouble ((2336242306698445 : Rat) / 4503599627370496 * 100)
      = 7300757208432641 / 140737488355328 := by
    apply toDouble_eq_of_near _ 5 7300757208432641 <;> norm_num [abs_lt]
  have hb : toDouble (100 - (7300757208432641 : Rat) / 140737488355328)
      = 6772991627100159 / 140737488355328 := by
    apply toDouble_eq_of_near _ 5 6772991627100159 <;> norm_num [abs_lt]
  have hy : toDouble ((6772991627100159 : Rat) / 140737488355328 * 100)
      = 5291399708671999 / 1099511627776 := by
    apply toDouble_eq_of_near _ 12 5291399708671999 <;> norm_num [abs_lt]
  have hk : mathRound ((5291399708671999 : Rat) / 1099511627776) = 4812 := by
    unfold mathRound
    rw [Int.floor_eq_iff]
    constructor <;> norm_num
  rw [hq, ha, hb, max_eq_right (by norm_num), hy, hk]
  norm_num

theorem value_60_600 :
    toDouble ((mathRound (toDouble
      (max 0 (toDouble (100 - toDouble (toDouble ((60 : Rat) / 600) * 100))) * 100))
        : Rat) / 100) = 90 := by
  have hq : toDouble ((60 : Rat) / 600) = 3602879701896397 / 36028797018963968 := by
    apply toDouble_eq_of_near _ (-4) 7205759403792794 <;> norm_num [abs_lt]
  have ha : toDouble ((3602879701896397 : Rat) / 36028797018963968 * 100) = 10 := by
    apply toDouble_eq_of_near _ 3 5629499534213120 <;> norm_num [abs_lt]
  have hb : toDouble ((100 : Rat) - 10) = 90 := by
    have := toDouble_intCast 90 (by norm_num)
    norm_num at this ⊢
    exact this
  have hy : toDouble ((90 : Rat) * 100) = 9000 := by
    have := toDouble_intCast 9000 (by norm_num)
    norm_num at this ⊢
    exact this
  have hk : mathRound (9000 : Rat) = 9000 := by
    have := mathRound_intCast 9000
    simpa using this
  have hr : toDouble (((9000 : Int) : Rat) / 100) = 90 := by
    have := toDouble_intCast 90 (by norm_num)
    norm_num at this ⊢
    exact this
  rw [hq, ha, hb, max_eq_right (by norm_num), hy, hk, hr]

/-- The double nearest to 48.12 lies below 48.125, the one nearest to 48.13 above. -/
theorem double_4812_lt :
    toDouble (4812 / 100) < 48125 / 1000 ∧ (48125 : Rat) / 1000 < toDouble (4813 / 100) := by
  have h : toDouble ((4812 : Rat) / 100) = 6772287939658383 / 140737488355328 := by
    apply toDouble_eq_of_near _ 5 6772287939658383 <;> norm_num [abs_lt]
  have h2 : toDouble ((4813 : Rat) / 100) = 6773695314541937 / 140737488355328 := by
    apply toDouble_eq_of_near _ 5 6773695314541937 <;> norm_num [abs_lt]
  rw [h, h2]
  constructor <;> norm_num

/-! ## The report: focus percentage -/

theorem jsOr_duration (d : Option Int) : jsOr d 0 = d.getD 0 := by
  cases d with
  | none => rfl
  | some v =>
    by_cases hv : v = 0
    · simp [jsOr, hv]
    · simp [jsOr, hv]

/-- With no negative duration and a total below `2^53` every sum of the reducer is
exact. -/
theorem foldl_duration_exact (l : List Event) (init : Int) (h0 : 0 ≤ init)
    (hnn : ∀ e ∈ l, 0 ≤ e.duration.getD 0)
    (hb : init + (l.map (fun e => e.duration.getD 0)).sum < 9007199254740992) :
    l.foldl (fun acc e => toDouble (acc + ((jsOr e.duration 0 : Int) : Rat))) (init : Rat)
      = ((init + (l.map (fun e => e.duration.getD 0)).sum : Int) : Rat) := by
  induction l generalizing init with
  | nil => simp
  | cons e rest ih =>
    simp only [List.foldl_cons, List.map_cons, List.sum_cons] at hb ⊢
    have he := hnn e (List.mem_cons_self e rest)
    have hrest : 0 ≤ (rest.map (fun e => e.duration.getD 0)).sum := by
      apply List.sum_nonneg
      intro y hy
      obtain ⟨e2, he2, rfl⟩ := List.mem_map.mp hy
      exact hnn e2 (List.mem_cons_of_mem e he2)
    have hstep : toDouble ((init : Rat) + ((jsOr e.duration 0 : Int) : Rat))
        = ((init + e.duration.getD 0 : Int) : Rat) := by
      rw [jsOr_duration, ← Int.cast_add]
      apply toDouble_intCast
      rw [abs_of_nonneg (by omega)]
      omega
    rw [hstep, ih (init + e.duration.getD 0) (by omega)
      (fun e2 he2 => hnn e2 (List.mem_cons_of_mem e he2)) (by omega)]
    congr 1
    omega

theorem foldl_duration_nonneg (l : List Event) (init : Rat) (h0 : 0 ≤ init)
    (hnn : ∀ e ∈ l, 0 ≤ e.duration.getD 0) :
    0 ≤ l.foldl (fun acc e => toDouble (acc + ((jsOr e.duration 0 : Int) : Rat))) init := by
  induction l generalizing init with
  | nil => simpa using h0
  | cons e rest ih =>
    simp only [List.foldl_cons]
    apply ih _ _ (fun e2 he2 => hnn e2 (List.mem_cons_of_mem e he2))
    apply toDouble_nonneg
    have he : (0 : Rat) ≤ ((jsOr e.duration 0 : Int) : Rat) := by
      rw [jsOr_duration]
      exact_mod_cast hnn e (List.mem_cons_self e rest)
    linarith

theorem foldl_duration_zero (l : List Event) (h : ∀ e ∈ l, jsOr e.duration 0 = 0) :
    l.foldl (fun acc e => toDouble (acc + ((jsOr e.duration 0 : Int) : Rat))) 0 = 0 := by
  induction l with
  | nil => rfl
  | cons e rest ih =>
    simp only [List.foldl_cons]
    rw [h e (List.mem_cons_self e rest)]
    simp only [Int.cast_zero, add_zero, toDouble_zero]
    exact ih (fun e2 he2 => h e2 (List.mem_cons_of_mem e he2))

theorem filter_sum_focusLost (events : List Event) :
    ((events.filter (fun e => e.eventType == "focus_lost")).map
      (fun e => e.duration.getD 0)).sum = focusLostSeconds events := by
  unfold focusLostSeconds
  induction events with
  | nil => rfl
  | cons e rest ih =>
    by_cases he : e.eventType = "focus_lost"
    · simp [List.filter_cons, he, ih]
    · simp [List.filter_cons, he, ih]

/-- The code's filter-and-reduce sum is the specification's sum, when no duration is
negative and the sum is below `2^53`. -/
theorem focusLostDuration_eq (events : List Event)
    (hnn : ∀ e ∈ events, ∀ x, e.duration = some x → 0 ≤ x)
    (hb : focusLostSeconds events < 9007199254740992) :
    focusLostDuration events = ((focusLostSeconds events : Int) : Rat) := by
  unfold focusLostDuration
  have h := foldl_duration_exact (events.filter (fun e => e.eventType == "focus_lost")) 0
    (le_refl 0)
    (by
      intro e he
      cases hx : e.duration with
      | none => simp
      | some x => simpa using hnn e (List.mem_of_mem_filter he) x hx)
    (by rw [filter_sum_focusLost, zero_add]; exact hb)
  rw [filter_sum_focusLost, zero_add] at h
  simpa using h

theorem focusLostDuration_nonneg (events : List Event)
    (hnn : ∀ e ∈ events, ∀ x, e.duration = some x → 0 ≤ x) :
    0 ≤ focusLostDuration events := by
  unfold focusLostDuration
  apply foldl_duration_nonneg _ _ (le_refl 0)
  intro e he
  cases hx : e.duration with
  | none => simp
  | some x => simpa using hnn e (List.mem_of_mem_filter he) x hx

theorem focusLostDuration_zero (events : List Event)
    (h : ∀ e ∈ events, e.eventType = "focus_lost" → jsOr e.duration 0 = 0) :
    focusLostDuration events = 0 := by
  unfold focusLostDuration
  apply foldl_duration_zero
  intro e he
  have hm := List.mem_filter.mp he
  exact h e hm.1 (by simpa using hm.2)

theorem focusLostSeconds_nonneg (events : List Event)
    (h : ∀ e ∈ events, ∀ x, e.duration = some x → 0 ≤ x) :
    0 ≤ focusLostSeconds events := by
  unfold focusLostSeconds
  apply List.sum_nonneg
  intro y hy
  obtain ⟨e, he, rfl⟩ := List.mem_map.mp hy
  split_ifs
  · cases hx : e.duration with
    | none => simp
    | some x => simpa using h e he x hx
  · exact le_refl 0

/-- A report over events without `focus_lost` duration shows a focus percentage of 100. -/
theorem getReport_focus_full (db : Db) (id : String)
    (hs : (findByPk db id).isSome = true)
    (h0 : ∀ e ∈ eventsOf db id, e.eventType = "focus_lost" → jsOr e.duration 0 = 0) :
    (getReport db id).map (fun r => r.focusPercentage) = some 100 := by
  obtain ⟨session, hf⟩ := Option.isSome_iff_exists.mp hs
  simp only [getReport, hf, Option.map_some', generateReport, focusPercentage,
    focusLostDuration_zero _ h0]
  congr 1
  split_ifs
  · have : max (0 : Rat) (toDouble (100 - toDouble (toDouble (0 / ((jsOr session.duration 0
        : Int) : Rat)) * 100))) = 100 := by
      simp [toDouble_zero, toDouble_hundred]
    rw [this, reported_hundred]
  · exact reported_hundred

/-! ## C12: the duration of a logged event -/

/-- C12, the code at the failing input: the gaze is off-center from 2 s to 8 s, the loop
logs one `focus_lost` event at 8 s, and the body the client posts for it has no
`duration`; the stored row has none either, and after the stop at 61 s (a session of 60 s
with one counted `focus_lost`) the report's focus percentage is 100. -/
theorem loop_events_carry_no_duration :
    (runLoop idleState gazeAwayTicks).2.map
        (fun e => ((clientRequest "s1" e).eventType, (clientRequest "s1" e).duration))
      = [(some "focus_lost", none)] ∧
    (eventsOf gazeAwayDb "s1").map (fun e => (e.eventType, e.duration))
      = [("session_start", none), ("focus_lost", none), ("session_end", none)] ∧
    (findByPk gazeAwayDb "s1").map (fun s => (s.focusLostCount, s.duration))
      = some (1, some 60) ∧
    (getReport gazeAwayDb "s1").map (fun r => r.focusPercentage) = some 100 :=
  ⟨by decide, by decide, by decide,
    getReport_focus_full gazeAwayDb "s1" (by decide) (by decide)⟩

/-! ## C16: the focus percentage -/

theorem report_focus_value (session : Session) (events : List Event) (d : Int)
    (hd : session.duration = some d) (hpos : 0 < d) :
    (generateReport session events).focusPercentage
      = toDouble ((mathRound (toDouble
          (max 0 (toDouble (100 - toDouble (toDouble (focusLostDuration events / (d : Rat))
            * 100))) * 100)) : Rat) / 100) := by
  have hj : jsOr session.duration 0 = d := by
    have hne : d ≠ 0 := by omega
    simp [jsOr, hd, hne]
  simp only [generateReport, focusPercentage, hj]
  rw [if_pos (by omega : d > 0)]

/-- C16, counterexample: a session of 160 s with one `focus_lost` event of 83 s.  The
value `max(0, 100 - 83/160 * 100)` is 48.125, which `Math.round` takes to 4813 hundredths
in exact arithmetic; the report's `focusPercentage` is the double nearest to 48.12, below
48.125, where the double nearest to 48.13 is above. -/
theorem tie_rounds_down :
    focusLostSeconds eightyThreeLost = 83 ∧
    max (0 : Rat) (100 - (83 : Rat) / 160 * 100) = 48125 / 1000 ∧
    mathRound ((48125 : Rat) / 1000 * 100) = 4813 ∧
    (generateReport shortSession eightyThreeLost).focusPercentage = toDouble (4812 / 100) ∧
    toDouble (4812 / 100) < 48125 / 1000 ∧ (48125 : Rat) / 1000 < toDouble (4813 / 100) := by
  refine ⟨by decide, by norm_num, ?_, ?_, double_4812_lt⟩
  · unfold mathRound
    rw [Int.floor_eq_iff]
    constructor <;> norm_num
  · rw [report_focus_value shortSession eightyThreeLost 160 rfl (by decide),
      focusLostDuration_eq eightyThreeLost (by decide) (by decide),
      show focusLostSeconds eightyThreeLost = 83 by decide]
    simp only [Int.cast_ofNat]
    exact value_83_160

/-- Past the bound on the duration the rounding error of the doubles can decide the
hundredth: for a duration of `10^12 + 19` with 421050000008 s lost the hundredfold of the
exact value is less than 5789.5, and the report shows the double nearest to 57.9. -/
theorem long_duration_rounds_wrong :
    (generateReport ageLongSession partOfAnAge).focusPercentage = toDouble (5790 / 100) ∧
    max 0 (100 - (421050000008 : Rat) / 1000000000019 * 100) * 100 < 5789 + 1 / 2 := by
  constructor
  · rw [report_focus_value ageLongSession partOfAnAge 1000000000019 rfl (by decide),
      focusLostDuration_eq partOfAnAge (by decide) (by decide),
      show focusLostSeconds partOfAnAge = 421050000008 by decide]
    simp only [Int.cast_ofNat]
    have hq : toDouble ((421050000008 : Rat) / 1000000000019)
        = 3792481246208695 / 9007199254740992 := by
      apply toDouble_eq_of_near _ (-2) 7584962492417390 <;> norm_num [abs_lt]
    have ha : toDouble ((3792481246208695 : Rat) / 9007199254740992 * 100)
        = 2962875973600543 / 70368744177664 := by
      apply toDouble_eq_of_near _ 5 5925751947201086 <;> norm_num [abs_lt]
    have hb : toDouble (100 - (2962875973600543 : Rat) / 70368744177664)
        = 4073998444165857 / 70368744177664 := by
      apply toDouble_eq_of_near _ 5 8147996888331714 <;> norm_num [abs_lt]
    have hy : toDouble ((4073998444165857 : Rat) / 70368744177664 * 100) = 11579 / 2 := by
      apply toDouble_eq_of_near _ 12 6365622569009152 <;> norm_num [abs_lt]
    have hk : mathRound ((11579 : Rat) / 2) = 5790 := by
      unfold mathRound
      rw [Int.floor_eq_iff]
      constructor <;> norm_num
    rw [hq, ha, hb, max_eq_right (by norm_num), hy, hk]
    norm_num
  · rw [max_eq_right (by norm_num)]
    norm_num

/-- C16, amended: for a session with `0 < duration ≤ 10^11` whose events have no negative
duration and `focus_lost` durations summing to less than `2^53`, the report's
`focusPercentage` is the double nearest to `k / 100` for an integer `k` within a half of
`100 * max(0, 100 - (sum of the focus_lost durations / duration) * 100)`: that value
rounded to two decimals, a tie going either way; the sum takes an event without a
duration as 0 and leaves out the events of other kinds.  For a duration of 600 and a sum of
60 it is 90. -/
theorem report_focusPercentage (session : Session) (events : List Event) (d : Int)
    (hd : session.duration = some d) (hpos : 0 < d) (hmax : d ≤ 100000000000)
    (hnn : ∀ e ∈ events, ∀ x, e.duration = some x → 0 ≤ x)
    (hsum : focusLostSeconds events < 9007199254740992) :
    (∃ k : Int,
      |(k : Rat) - max 0 (100 - ((focusLostSeconds events : Int) : Rat) / (d : Rat) * 100)
        * 100| ≤ 1 / 2 ∧
      (generateReport session events).focusPercentage = toDouble ((k : Rat) / 100)) ∧
    (d = 600 → focusLostSeconds events = 60 →
      (generateReport session events).focusPercentage = 90) := by
  rw [report_focus_value session events d hd hpos, focusLostDuration_eq events hnn hsum]
  have hS : 0 ≤ focusLostSeconds events := focusLostSeconds_nonneg events hnn
  refine ⟨reported_accuracy (focusLostSeconds events) d hS hpos hmax, ?_⟩
  intro h600 h60
  rw [h600, h60]
  simp only [Int.cast_ofNat]
  exact value_60_600

/-- C16 amended, instance: a stopped session of 600 s with `focus_lost` durations 25 and
35, one `focus_lost` event without a duration and a `phone_detected` event of duration
100. -/
theorem report_focusPercentage_witness :
    tenMinuteSession.duration = some 600 ∧ focusLostSeconds sixtySecondsLost = 60 ∧
    (generateReport tenMinuteSession sixtySecondsLost).focusPercentage = 90 :=
  ⟨rfl, by decide,
    (report_focusPercentage tenMinuteSession sixtySecondsLost 600 rfl (by decide) (by decide)
      (by decide) (by decide)).2 rfl (by decide)⟩

/-! ## C17: the recommendations -/

/-- C17: `generateRecommendations` never returns the empty list; the positive-conduct
message is in the result iff no rule triggers (`focusLostCount > 5`,
`phoneDetectedCount > 0`, `bookDetectedCount > 0`, `multipleFacesCount > 0`,
`drowsinessCount > 3`), and then the result is that message alone; otherwise the result is
the list of the messages of the triggered rules in rule order. -/
theorem generateRecommendations_rules (s : Session) (stats : List (String × Nat)) :
    generateRecommendations s stats ≠ [] ∧
    (triggeredMessages s = [] ↔
      ¬ s.focusLostCount > 5 ∧ ¬ s.phoneDetectedCount > 0 ∧ ¬ s.bookDetectedCount > 0 ∧
        ¬ s.multipleFacesCount > 0 ∧ ¬ s.drowsinessCount > 3) ∧
    (positiveConduct ∈ generateRecommendations s stats ↔ triggeredMessages s = []) ∧
    (triggeredMessages s = [] → generateRecommendations s stats = [positiveConduct]) ∧
    (triggeredMessages s ≠ [] → generateRecommendations s stats = triggeredMessages s) := by
  by_cases h1 : s.focusLostCount > 5 <;> by_cases h2 : s.phoneDetectedCount > 0 <;>
    by_cases h3 : s.bookDetectedCount > 0 <;> by_cases h4 : s.multipleFacesCount > 0 <;>
    by_cases h5 : s.drowsinessCount > 3 <;>
    simp [generateRecommendations, triggeredMessages, recommendationRules, positiveConduct,
      h1, h2, h3, h4, h5]

/-! ## C18: the scenario -/

/-- C18: a session is started for Alice, `phone_detected` is logged once and `focus_lost`
twice, the session is stopped.  The stored session and the report show
`suspiciousEvents = 3` and `integrityScore = 94`; the report's recommendations are the
phone-usage message alone, so the multiple-faces message is not among them. -/
theorem alice_scenario :
    (findByPk scenarioDb "s1").map (fun s => (s.candidateName, s.status))
      = some ("Alice", "completed") ∧
    (findByPk scenarioDb "s1").map (fun s => (s.suspiciousEvents, s.integrityScore))
      = some (3, 94) ∧
    (getReport scenarioDb "s1").map (fun r => (r.suspiciousEvents, r.integrityScore))
      = some (3, 94) ∧
    (getReport scenarioDb "s1").map (fun r => r.recommendations)
      = some ["Mobile phone usage detected - ensure no unauthorized devices are present"] ∧
    (getReport scenarioDb "s1").map (fun r => decide
        ("Multiple faces detected - ensure only the candidate is present during the interview"
          ∈ r.recommendations)) = some false :=
  ⟨by decide, by decide, by decide, by decide, by decide⟩

/-! ## The score range over the lifecycle -/

theorem counterUpdate_range (session : Session) (kind : String)
    (h : 0 ≤ session.suspiciousEvents) :
    (∃ v, (counterUpdate session kind).integrityScore = some v ∧ 0 ≤ v ∧ v ≤ 100) ∧
    ((counterUpdate session kind).suspiciousEvents = none ∨
      (counterUpdate session kind).suspiciousEvents = some (session.suspiciousEvents + 1)) := by
  have h1 : session.suspiciousEvents + 1 ≠ 0 := by omega
  simp only [counterUpdate]
  split_ifs
  all_goals
    refine ⟨⟨_, rfl, le_max_left _ _, max_le (by norm_num) ?_⟩, ?_⟩
    · simp only [jsOr, h1, ne_eq, not_false_eq_true, if_true]
      omega
    · simp

theorem applyUpdate_counterUpdate_range (r session : Session) (kind : String)
    (hr : ScoreInRange r) (h : 0 ≤ session.suspiciousEvents) :
    ScoreInRange (r.applyUpdate (counterUpdate session kind)) := by
  obtain ⟨⟨v, hv, hv0, hv1⟩, hs⟩ := counterUpdate_range session kind h
  unfold ScoreInRange Session.applyUpdate
  simp only [hv, Option.getD_some]
  refine ⟨?_, hv0, hv1⟩
  rcases hs with hs | hs
  · rw [hs]; exact hr.1
  · rw [hs]; simp only [Option.getD_some]; omega

theorem updateSession_range (db : Db) (id : String) (u : UpdateData)
    (hdb : ∀ r ∈ db.sessions, ScoreInRange r)
    (hu : ∀ r, ScoreInRange r → ScoreInRange (r.applyUpdate u)) :
    ∀ r ∈ (db.updateSession id u).sessions, ScoreInRange r := by
  intro r hr
  simp only [Db.updateSession, List.mem_map] at hr
  obtain ⟨r0, hr0, rfl⟩ := hr
  split_ifs
  · exact hu r0 (hdb r0 hr0)
  · exact hdb r0 hr0

theorem findByPk_mem {db : Db} {id : String} {s : Session} (h : findByPk db id = some s) :
    s ∈ db.sessions :=
  List.mem_of_find?_eq_some h

theorem logEvent_range (db : Db) (req : EventReq) (env : Env)
    (hdb : ∀ r ∈ db.sessions, ScoreInRange r) :
    ∀ r ∈ (logEvent db req env).db.sessions, ScoreInRange r := by
  by_cases hg : ∀ sid kind, req.sessionId = some sid → req.eventType = some kind →
        sid ≠ "" → kind ≠ "" → findByPk db sid = none
  · rw [(logEvent_rejected db req env hg).1]; exact hdb
  · push_neg at hg
    obtain ⟨sid, kind, hsid, hkind, hs, hk, hf⟩ := hg
    obtain ⟨session, hf⟩ := Option.ne_none_iff_exists'.mp hf
    have hses := (hdb session (findByPk_mem hf)).1
    have hupd := updateSession_range (db.createEvent (ingestedEvent req env sid kind)) sid
      (counterUpdate session kind) hdb
      (fun r hr => applyUpdate_counterUpdate_range r session kind hr hses)
    rw [logEvent_found db req env sid kind session hsid hkind hs hk hf]
    split_ifs
    all_goals first
      | exact hdb
      | exact hupd

theorem stopSession_range (db : Db) (sessionId : Option String) (env : Env)
    (hdb : ∀ r ∈ db.sessions, ScoreInRange r) :
    ∀ r ∈ (stopSession db sessionId env).db.sessions, ScoreInRange r := by
  rcases sessionId with _ | sid
  · exact hdb
  by_cases hs : sid = ""
  · simpa [stopSession, hs] using hdb
  by_cases h1 : env.fault = .find
  · simpa [stopSession, hs, h1] using hdb
  cases hf : findByPk db sid with
  | none => simpa [stopSession, hs, h1, hf] using hdb
  | some session =>
    by_cases hact : session.status = "active"
    · have hupd := updateSession_range db sid
        { endTime := some env.now
          duration := some (elapsedSeconds env.now session.startTime)
          status := some "completed" } hdb (fun r hr => hr)
      rw [stopSession_active db sid env session hs hf hact]
      split_ifs
      all_goals first
        | exact hdb
        | exact hupd
    · simpa [stopSession, hs, h1, hf, hact] using hdb

theorem startSession_range (db : Db) (req : StartReq) (env : Env)
    (hdb : ∀ r ∈ db.sessions, ScoreInRange r) :
    ∀ r ∈ (startSession db req env).db.sessions, ScoreInRange r := by
  have hnew : ∀ name, ∀ r ∈ db.sessions ++
      [newSession env.newSessionId name req.interviewerName env.now], ScoreInRange r := by
    intro name r hr
    rcases List.mem_append.mp hr with h | h
    · exact hdb r h
    · rw [List.mem_singleton.mp h]
      exact ⟨by simp [newSession], by simp [newSession], by simp [newSession]⟩
  rcases hname : req.candidateName with _ | name
  · simpa [startSession, hname] using hdb
  by_cases hne : name = ""
  · simpa [startSession, hname, hne] using hdb
  by_cases h1 : env.fault = .createSession
  · simpa [startSession, hname, hne, h1] using hdb
  by_cases h2 : env.fault = .createEvent
  · simpa [startSession, hname, hne, h1, h2, Db.createSession] using hnew name
  · simpa [startSession, hname, hne, h1, h2, Db.createSession, Db.createEvent]
      using hnew name

theorem step_range (sys : System) (op : Op) (hop : op.isOverride = false)
    (hdb : ∀ r ∈ sys.db.sessions, ScoreInRange r) :
    ∀ r ∈ (step sys op).db.sessions, ScoreInRange r := by
  cases op with
  | start req env => exact startSession_range sys.db req env hdb
  | log req env => exact logEvent_range sys.db req env hdb
  | stop sessionId env => exact stopSession_range sys.db sessionId env hdb
  | override id f i env => cases hop
  | join socket room => exact hdb
  | relay socket room data => exact hdb
  | disconnect socket => exact hdb

theorem run_range (ops : List Op) (sys : System)
    (hops : ∀ op ∈ ops, op.isOverride = false)
    (hdb : ∀ r ∈ sys.db.sessions, ScoreInRange r) :
    ∀ r ∈ (run sys ops).db.sessions, ScoreInRange r := by
  induction ops generalizing sys with
  | nil => exact hdb
  | cons op rest ih =>
    exact ih (step sys op) (fun o ho => hops o (List.mem_cons_of_mem op ho))
      (step_range sys op (hops op (List.mem_cons_self op rest)) hdb)

/-! ## C20: the range of the integrity score -/

/-- C20, counterexample: a session is started and its score overridden with 150, or with
-5; the stored `integrityScore` is 150, or -5. -/
theorem override_leaves_range :
    (findByPk (run emptySystem [.start aliceStart (aliceEnv 1000 "e0"),
        .override "s1" none (some 150) (aliceEnv 2000 "e1")]).db "s1").map
          (fun s => s.integrityScore) = some 150 ∧
    (findByPk (run emptySystem [.start aliceStart (aliceEnv 1000 "e0"),
        .override "s1" none (some (-5)) (aliceEnv 2000 "e1")]).db "s1").map
          (fun s => s.integrityScore) = some (-5) := by
  decide

/-- C20, amended: in every state reached from the empty store through `startSession`,
`logEvent` and `stopSession` (and socket events), every stored `integrityScore` lies
between 0 and 100; the score override stores the supplied `integrityScore` as it is,
whenever it is not 0, without looking at its range. -/
theorem score_range_without_override (ops : List Op)
    (hops : ∀ op ∈ ops, op.isOverride = false) :
    (∀ s ∈ (run emptySystem ops).db.sessions, 0 ≤ s.integrityScore ∧ s.integrityScore ≤ 100) ∧
    (∀ (db : Db) (id : String) (session : Session) (focusScore : Option Int) (v : Int)
        (env : Env),
      findByPk db id = some session → v ≠ 0 → env.fault ≠ .find → env.fault ≠ .update →
      (findByPk (putFocusScore db id focusScore (some v) env).db id).map
        (fun s => s.integrityScore) = some v) := by
  constructor
  · intro s hs
    have h := run_range ops emptySystem hops (by
      intro r hr
      simp [emptySystem] at hr) s hs
    exact h.2
  · intro db id session focusScore v env hf hv h1 h2
    have hid := findByPk_id hf
    simp only [putFocusScore, h1, h2, hf, if_false, hid]
    rw [findByPk_updateSession_same, hf]
    simp [Session.applyUpdate, jsOr, hv]

/-- C20 amended, instance: a session started, a `phone_detected` logged, the session
stopped. -/
theorem score_range_without_override_witness :
    (∀ op ∈ lifecycleOps, op.isOverride = false) ∧
    (findByPk (run emptySystem lifecycleOps).db "s1").map (fun s => s.integrityScore)
      = some 98 ∧
    ∀ s ∈ (run emptySystem lifecycleOps).db.sessions,
      0 ≤ s.integrityScore ∧ s.integrityScore ≤ 100 :=
  ⟨by decide, by decide, (score_range_without_override lifecycleOps (by decide)).1⟩

/-! ## The store only grows -/

theorem logEvent_preserves (P : Db → Prop)
    (hE : ∀ db e, P db → P (db.createEvent e))
    (hU : ∀ db id u, P db → P (db.updateSession id u))
    (db : Db) (req : EventReq) (env : Env) (h : P db) : P (logEvent db req env).db := by
  by_cases hg : ∀ sid kind, req.sessionId = some sid → req.eventType = some kind →
        sid ≠ "" → kind ≠ "" → findByPk db sid = none
  · rw [(logEvent_rejected db req env hg).1]; exact h
  · push_neg at hg
    obtain ⟨sid, kind, hsid, hkind, hs, hk, hf⟩ := hg
    obtain ⟨session, hf⟩ := Option.ne_none_iff_exists'.mp hf
    rw [logEvent_found db req env sid kind session hsid hkind hs hk hf]
    split_ifs
    all_goals first
      | exact h
      | exact hE _ _ h
      | exact hU _ _ _ (hE _ _ h)

theorem stopSession_preserves (P : Db → Prop)
    (hE : ∀ db e, P db → P (db.createEvent e))
    (hU : ∀ db id u, P db → P (db.updateSession id u))
    (db : Db) (sessionId : Option String) (env : Env) (h : P db) :
    P (stopSession db sessionId env).db := by
  rcases sessionId with _ | sid
  · exact h
  by_cases hs : sid = ""
  · simpa [stopSession, hs] using h
  by_cases h1 : env.fault = .find
  · simpa [stopSession, hs, h1] using h
  cases hf : findByPk db sid with
  | none => simpa [stopSession, hs, h1, hf] using h
  | some session =>
    by_cases hact : session.status = "active"
    · rw [stopSession_active db sid env session hs hf hact]
      split_ifs
      all_goals first
        | exact h
        | exact hU _ _ _ h
        | exact hE _ _ (hU _ _ _ h)
    · simpa [stopSession, hs, h1, hf, hact] using h

theorem startSession_preserves (P : Db → Prop)
    (hE : ∀ db e, P db → P (db.createEvent e))
    (hS : ∀ db s, P db → P (db.createSession s))
    (db : Db) (req : StartReq) (env : Env) (h : P db) :
    P (startSession db req env).db := by
  rcases hname : req.candidateName with _ | name
  · simpa [startSession, hname] using h
  by_cases hne : name = ""
  · simpa [startSession, hname, hne] using h
  by_cases h1 : env.fault = .createSession
  · simpa [startSession, hname, hne, h1] using h
  by_cases h2 : env.fault = .createEvent
  · simpa [startSession, hname, hne, h1, h2] using hS _ _ h
  · simpa [startSession, hname, hne, h1, h2] using hE _ _ (hS _ _ h)

theorem putFocusScore_preserves (P : Db → Prop)
    (hU : ∀ db id u, P db → P (db.updateSession id u))
    (db : Db) (id : String) (focusScore integrityScore : Option Int) (env : Env)
    (h : P db) : P (putFocusScore db id focusScore integrityScore env).db := by
  by_cases h1 : env.fault = .find
  · simpa [putFocusScore, h1] using h
  cases hf : findByPk db id with
  | none => simpa [putFocusScore, h1, hf] using h
  | some session =>
    by_cases h2 : env.fault = .update
    · simpa [putFocusScore, h1, hf, h2] using h
    · simpa [putFocusScore, h1, hf, h2] using hU _ _ _ h

theorem step_preserves (P : Db → Prop)
    (hE : ∀ db e, P db → P (db.createEvent e))
    (hS : ∀ db s, P db → P (db.createSession s))
    (hU : ∀ db id u, P db → P (db.updateSession id u))
    (sys : System) (op : Op) (h : P sys.db) : P (step sys op).db := by
  cases op with
  | start req env => exact startSession_preserves P hE hS sys.db req env h
  | log req env => exact logEvent_preserves P hE hU sys.db req env h
  | stop sessionId env => exact stopSession_preserves P hE hU sys.db sessionId env h
  | override id f i env => exact putFocusScore_preserves P hU sys.db id f i env h
  | join socket room => exact h
  | relay socket room data => exact h
  | disconnect socket => exact h

theorem run_preserves (P : Db → Prop)
    (hE : ∀ db e, P db → P (db.createEvent e))
    (hS : ∀ db s, P db → P (db.createSession s))
    (hU : ∀ db id u, P db → P (db.updateSession id u))
    (ops : List Op) (sys : System) (h : P sys.db) : P (run sys ops).db := by
  induction ops generalizing sys with
  | nil => exact h
  | cons op rest ih => exact ih (step sys op) (step_preserves P hE hS hU sys op h)

/-- No request and no socket event removes an event row. -/
theorem run_keeps_event (e : Event) (ops : List Op) (sys : System)
    (h : e ∈ sys.db.events) : e ∈ (run sys ops).db.events := by
  refine run_preserves (fun db => e ∈ db.events) ?_ ?_ ?_ ops sys h
  · intro db x hx
    exact List.mem_append_left _ hx
  · intro db x hx
    exact hx
  · intro db id u hx
    exact hx

/-- No request and no socket event removes a session row. -/
theorem run_keeps_session (id : String) (ops : List Op) (sys : System)
    (h : (findByPk sys.db id).isSome = true) :
    (findByPk (run sys ops).db id).isSome = true := by
  refine run_preserves (fun db => (findByPk db id).isSome = true) ?_ ?_ ?_ ops sys h
  · intro db x hx
    exact hx
  · intro db x hx
    obtain ⟨y, hy⟩ := Option.isSome_iff_exists.mp hx
    simp only [findByPk] at hy ⊢
    simp [Db.createSession, List.find?_append, hy]
  · intro db sid u hx
    by_cases hi : id = sid
    · subst hi
      rw [findByPk_updateSession_same]
      simpa using hx
    · rw [findByPk_updateSession_ne db sid id u hi]
      exact hx

/-! ## The socket server: who is sent an alert -/

theorem logEvent_emitted (db : Db) (req : EventReq) (env : Env) :
    ∀ a ∈ (logEvent db req env).emitted,
      a.eventId = env.newEventId ∧ req.sessionId = some a.room := by
  by_cases hg : ∀ sid kind, req.sessionId = some sid → req.eventType = some kind →
        sid ≠ "" → kind ≠ "" → findByPk db sid = none
  · rw [(logEvent_rejected db req env hg).2]
    intro a ha
    cases ha
  · push_neg at hg
    obtain ⟨sid, kind, hsid, hkind, hs, hk, hf⟩ := hg
    obtain ⟨session, hf⟩ := Option.ne_none_iff_exists'.mp hf
    rw [logEvent_found db req env sid kind session hsid hkind hs hk hf]
    intro a ha
    split_ifs at ha
    all_goals first
      | cases ha; done
      | (rw [List.mem_singleton.mp ha]; exact ⟨rfl, hsid⟩)

theorem emitTo_rooms (hub : Hub) (room : String) (payload : Payload) :
    (hub.emitTo room payload).rooms = hub.rooms := rfl

theorem emitTo_alertsTo (hub : Hub) (room socket eventId : String) (a : Alert)
    (h : a.eventId ≠ eventId ∨ socket ∉ hub.members room) :
    (hub.emitTo room (.alert a)).alertsTo socket eventId = hub.alertsTo socket eventId := by
  unfold Hub.alertsTo Hub.emitTo
  rw [List.filter_append]
  have hnil : ((hub.members room).map (fun m => (m, Payload.alert a))).filter
      (fun m => m.1 == socket && m.2.isAlertOf eventId) = [] := by
    rw [List.filter_eq_nil_iff]
    intro m hm
    obtain ⟨x, hx, rfl⟩ := List.mem_map.mp hm
    rcases h with h | h
    · simp [Payload.isAlertOf, h]
    · have hne : x ≠ socket := fun e => h (e ▸ hx)
      simp [hne]
  rw [hnil, List.append_nil]

theorem emitAll_alertsTo (alerts : List Alert) (hub : Hub) (socket eventId : String)
    (h : ∀ a ∈ alerts, a.eventId ≠ eventId ∨ socket ∉ hub.members a.room) :
    (alerts.foldl (fun hub a => hub.emitTo a.room (.alert a)) hub).alertsTo socket eventId
      = hub.alertsTo socket eventId := by
  induction alerts generalizing hub with
  | nil => rfl
  | cons a rest ih =>
    rw [List.foldl_cons, ih, emitTo_alertsTo hub a.room socket eventId a
      (h a (List.mem_cons_self a rest))]
    intro b hb
    exact h b (List.mem_cons_of_mem a hb)

/-- A request or socket event other than the ingestion that created the event sends no
socket an alert of that event. -/
theorem step_alertsTo (sys : System) (op : Op) (socket eventId : String)
    (h : op.loggedEventId ≠ some eventId) :
    (step sys op).hub.alertsTo socket eventId = sys.hub.alertsTo socket eventId := by
  cases op with
  | start req env => rfl
  | log req env =>
    have hne : env.newEventId ≠ eventId := fun e => h (by rw [← e]; rfl)
    exact emitAll_alertsTo _ sys.hub socket eventId (fun a ha =>
      Or.inl (by rw [(logEvent_emitted sys.db req env a ha).1]; exact hne))
  | stop sessionId env => rfl
  | override id f i env => rfl
  | join s room =>
    simp only [step, Hub.join, Hub.alertsTo]
    split_ifs <;> rfl
  | relay s room data =>
    simp only [step, Hub.emitFrom, Hub.alertsTo, List.filter_append]
    have hnil : (((sys.hub.members room).filter (fun m => m != s)).map
        (fun m => (m, Payload.relayed room data))).filter
          (fun m => m.1 == socket && m.2.isAlertOf eventId) = [] := by
      rw [List.filter_eq_nil_iff]
      intro m hm
      obtain ⟨x, _, rfl⟩ := List.mem_map.mp hm
      simp [Payload.isAlertOf]
    rw [hnil, List.append_nil]
  | disconnect s => rfl

theorem run_alertsTo (ops : List Op) (sys : System) (socket eventId : String)
    (h : ∀ op ∈ ops, op.loggedEventId ≠ some eventId) :
    (run sys ops).hub.alertsTo socket eventId = sys.hub.alertsTo socket eventId := by
  induction ops generalizing sys with
  | nil => rfl
  | cons op rest ih =>
    have h1 := ih (step sys op) (fun o ho => h o (List.mem_cons_of_mem op ho))
    have h2 := step_alertsTo sys op socket eventId (h op (List.mem_cons_self op rest))
    simp only [run, List.foldl_cons] at h1 ⊢
    rw [h1, h2]

/-- A `logEvent` answered 201 passed the guards, found its session, stored its event row
and wrote the counters. -/
theorem logEvent_ok (db : Db) (req : EventReq) (env : Env) (sid kind : String)
    (hsid : req.sessionId = some sid) (hkind : req.eventType = some kind)
    (hok : (logEvent db req env).res.status = 201) :
    ∃ session, findByPk db sid = some session ∧
      (logEvent db req env).db
        = (db.createEvent (ingestedEvent req env sid kind)).updateSession sid
            (counterUpdate session kind) := by
  by_cases hs : sid = ""
  · simp [logEvent, hsid, hkind, hs, Response.status] at hok
  by_cases hk : kind = ""
  · simp [logEvent, hsid, hkind, hs, hk, Response.status] at hok
  cases hf : findByPk db sid with
  | none =>
    by_cases h1 : env.fault = .find
    · simp [logEvent, hsid, hkind, hs, hk, h1, Response.status] at hok
    · simp [logEvent, hsid, hkind, hs, hk, h1, hf, Response.status] at hok
  | some session =>
    refine ⟨session, rfl, ?_⟩
    rw [logEvent_found db req env sid kind session hsid hkind hs hk hf] at hok ⊢
    split_ifs at hok ⊢
    all_goals first
      | (exfalso; simp [Response.status] at hok; done)
      | rfl

/-! ## C19: no backfill -/

/-- C19: let a `logEvent` for session `sid` be answered 201 while `socket` is not in the
session's channel.  Whatever requests and socket events follow (the socket joining the
channel among them; later ingestions get other event identities from the store), the
socket is sent no alert of that event: the alerts of the event it has been sent are those
from before the ingestion.  The event row stays in the session's stored events, is
returned with the session by `GET /sessions/:id` and is an entry of the report's events.
And when the channel has no socket at the ingestion, the socket server is left as it was
(nothing is sent), while the event row is stored and the session's row is the one
`updateSessionCounters` gives. -/
theorem no_backfill (sys : System) (req : EventReq) (env : Env) (sid kind socket : String)
    (ops : List Op)
    (hsid : req.sessionId = some sid) (hkind : req.eventType = some kind)
    (hok : (logEvent sys.db req env).res.status = 201)
    (hout : socket ∉ sys.hub.members sid)
    (hids : ∀ op ∈ ops, op.loggedEventId ≠ some env.newEventId) :
    (run (step sys (.log req env)) ops).hub.alertsTo socket env.newEventId
      = sys.hub.alertsTo socket env.newEventId ∧
    ingestedEvent req env sid kind ∈ eventsOf (run (step sys (.log req env)) ops).db sid ∧
    (∃ s, getSession (run (step sys (.log req env)) ops).db sid
      = some (s, eventsOf (run (step sys (.log req env)) ops).db sid)) ∧
    (∃ r, getReport (run (step sys (.log req env)) ops).db sid = some r ∧
      reportEntry (ingestedEvent req env sid kind) ∈ r.events) ∧
    (sys.hub.members sid = [] →
      (step sys (.log req env)).hub = sys.hub ∧
      ingestedEvent req env sid kind ∈ eventsOf (step sys (.log req env)).db sid ∧
      ∃ session, findByPk sys.db sid = some session ∧
        findByPk (step sys (.log req env)).db sid
          = some (updateSessionCounters session kind)) := by
  obtain ⟨session, hf, hdb⟩ := logEvent_ok sys.db req env sid kind hsid hkind hok
  have hroom : ∀ a ∈ (logEvent sys.db req env).emitted, a.room = sid := by
    intro a ha
    have h := (logEvent_emitted sys.db req env a ha).2
    rw [hsid] at h
    exact (Option.some.inj h).symm
  -- the event row right after the ingestion
  have hstored : ingestedEvent req env sid kind ∈ (step sys (.log req env)).db.events := by
    simp only [step, hdb, Db.updateSession, Db.createEvent]
    exact List.mem_append_right _ (List.mem_singleton.mpr rfl)
  have hrow : findByPk (step sys (.log req env)).db sid
      = some (updateSessionCounters session kind) := by
    simp only [step, hdb]
    rw [findByPk_updateSession_same, findByPk_createEvent, hf]
    rfl
  -- the rows at the end
  have hlater := run_keeps_event _ ops (step sys (.log req env)) hstored
  have hsess := run_keeps_session sid ops (step sys (.log req env)) (by rw [hrow]; rfl)
  obtain ⟨s, hs⟩ := Option.isSome_iff_exists.mp hsess
  have hmem : ∀ db : Db, ingestedEvent req env sid kind ∈ db.events →
      ingestedEvent req env sid kind ∈ eventsOf db sid := by
    intro db h
    unfold eventsOf
    rw [List.mem_filter]
    exact ⟨h, by simp [ingestedEvent]⟩
  refine ⟨?_, hmem _ hlater, ⟨s, by simp [getSession, hs]⟩, ?_, ?_⟩
  · rw [run_alertsTo ops _ socket env.newEventId hids]
    exact emitAll_alertsTo _ sys.hub socket env.newEventId (fun a ha =>
      Or.inr (by rw [hroom a ha]; exact hout))
  · refine ⟨generateReport s (eventsOf (run (step sys (.log req env)) ops).db sid),
      by simp [getReport, hs], ?_⟩
    exact List.mem_map.mpr ⟨_, hmem _ hlater, rfl⟩
  · intro hnone
    refine ⟨?_, hmem _ hstored, session, hf, hrow⟩
    have hfold : ∀ (alerts : List Alert) (hub : Hub), hub.members sid = [] →
        (∀ a ∈ alerts, a.room = sid) →
        alerts.foldl (fun hub a => hub.emitTo a.room (.alert a)) hub = hub := by
      intro alerts
      induction alerts with
      | nil => intro hub _ _; rfl
      | cons a rest ih =>
        intro hub hm hr
        have hstep : hub.emitTo a.room (.alert a) = hub := by
          rw [hr a (List.mem_cons_self a rest)]
          simp [Hub.emitTo, hm]
        rw [List.foldl_cons, hstep]
        exact ih hub hm (fun b hb => hr b (List.mem_cons_of_mem a hb))
    exact hfold _ sys.hub hnone hroom

/-- C19, instance: observer `o1` watches session `s1` while a `phone_detected` is logged;
observer `o2` joins afterwards, then a `focus_lost` is logged.  `o2` has been sent no
alert of the first event (and one of the second); the first event is in the stored
history. -/
theorem no_backfill_witness :
    (run (step watchedSystem (.log (aliceEvent "phone_detected") (calmEnv 2000 "e1")))
        [.join "o2" "s1", .log (aliceEvent "focus_lost") (calmEnv 3000 "e2")]).hub.alertsTo
          "o2" "e1" = [] ∧
    ((run (step watchedSystem (.log (aliceEvent "phone_detected") (calmEnv 2000 "e1")))
        [.join "o2" "s1", .log (aliceEvent "focus_lost") (calmEnv 3000 "e2")]).hub.alertsTo
          "o2" "e2").length = 1 ∧
    ((run (step watchedSystem (.log (aliceEvent "phone_detected") (calmEnv 2000 "e1")))
        [.join "o2" "s1", .log (aliceEvent "focus_lost") (calmEnv 3000 "e2")]).hub.alertsTo
          "o1" "e1").length = 1 ∧
    ingestedEvent (aliceEvent "phone_detected") (calmEnv 2000 "e1") "s1" "phone_detected"
      ∈ eventsOf (run (step watchedSystem
          (.log (aliceEvent "phone_detected") (calmEnv 2000 "e1")))
        [.join "o2" "s1", .log (aliceEvent "focus_lost") (calmEnv 3000 "e2")]).db "s1" :=
  ⟨(no_backfill watchedSystem (aliceEvent "phone_detected") (calmEnv 2000 "e1") "s1"
      "phone_detected" "o2" [.join "o2" "s1", .log (aliceEvent "focus_lost")
        (calmEnv 3000 "e2")] rfl rfl (by decide) (by decide) (by decide)).1,
    by decide, by decide,
    (no_backfill watchedSystem (aliceEvent "phone_detected") (calmEnv 2000 "e1") "s1"
      "phone_detected" "o2" [.join "o2" "s1", .log (aliceEvent "focus_lost")
        (calmEnv 3000 "e2")] rfl rfl (by decide) (by decide) (by decide)).2.1⟩

/-! ## C24: the firing boundary -/

/-- C24, counterexample: the face has been absent for exactly 10000 ms and the gaze
off-center for exactly 5000 ms since the pending starts; the frame logs neither a
`face_absent` nor a `focus_lost` event and both timers stay pending. -/
theorem exact_threshold_does_not_fire :
    eventsOfKind "face_absent" (runDetection busyState boundaryTick).2 = [] ∧
    eventsOfKind "focus_lost" (runDetection busyState boundaryTick).2 = [] ∧
    (runDetection busyState boundaryTick).1.faceAbsentStart = some 1000000 ∧
    (runDetection busyState boundaryTick).1.focusLostStart = some 1000500 := by
  decide

/-- C24, amended: the test is `Date.now() - start > threshold`.  On a processed frame on
which the raw signal is still true and a timer is pending since `s`, the event is logged
and the timer cleared iff strictly more than the hold threshold (10 s for face-absence,
5 s for focus-lost) has passed since `s`; when exactly the threshold or less has passed,
nothing is logged for the signal and the timer stays pending at `s`. -/
theorem debounce_fires_past_threshold (sig : Signal) (st : DetectionState) (t : Tick)
    (s : Int) (hp : sig.pending st = some s) (hs : s ≠ 0) (hr : t.ready = true)
    (hraw : sig.raw t = true) :
    (sig.holdThreshold < sig.clock t - s →
      (eventsOfKind sig.kind (runDetection st t).2).length = 1 ∧
      sig.pending (runDetection st t).1 = none) ∧
    (sig.clock t - s ≤ sig.holdThreshold →
      (eventsOfKind sig.kind (runDetection st t).2).length = 0 ∧
      sig.pending (runDetection st t).1 = some s) ∧
    ((eventsOfKind sig.kind (runDetection st t).2).length = 1 ↔
      sig.holdThreshold < sig.clock t - s) := by
  have hfire := fun h => runDetection_fire sig st t s hp hs hr hraw h
  have hhold := fun h : sig.clock t - s ≤ sig.holdThreshold =>
    runDetection_hold sig st t s hp hs (fun _ => ⟨hraw, h⟩)
  refine ⟨hfire, hhold, ?_⟩
  constructor
  · intro h1
    by_contra hle
    have h0 := (hhold (not_lt.mp hle)).1
    omega
  · intro h
    exact (hfire h).1

/-- C24 amended, instance: the timers of `busyState` one millisecond past the thresholds,
and exactly at them. -/
theorem debounce_fires_past_threshold_witness :
    (eventsOfKind "face_absent" (runDetection busyState pastBoundaryTick).2).length = 1 ∧
    (eventsOfKind "focus_lost" (runDetection busyState boundaryTick).2).length = 0 :=
  ⟨((debounce_fires_past_threshold .faceAbsent busyState pastBoundaryTick 1000000 rfl
      (by decide) (by decide) (by decide)).1 (by decide)).1,
    ((debounce_fires_past_threshold .focusLost busyState boundaryTick 1000500 rfl
      (by decide) (by decide) (by decide)).2.1 (by decide)).1⟩

/-! ## C30: the bounds of the focus percentage -/

/-- C30: for a session whose `duration` is not set or is 0, the report's `focusPercentage`
is 100 whatever the events are; for a session with `duration > 0` whose events have no
negative duration, it lies between 0 and 100. -/
theorem focusPercentage_bounds (session : Session) (events : List Event) :
    ((session.duration = none ∨ session.duration = some 0) →
      (generateReport session events).focusPercentage = 100) ∧
    (∀ d : Int, session.duration = some d → 0 < d →
      (∀ e ∈ events, ∀ x, e.duration = some x → 0 ≤ x) →
      0 ≤ (generateReport session events).focusPercentage ∧
      (generateReport session events).focusPercentage ≤ 100) := by
  constructor
  · intro h
    have hj : jsOr session.duration 0 = 0 := by
      rcases h with h | h <;> simp [jsOr, h]
    simp only [generateReport, focusPercentage, hj]
    rw [if_neg (by decide)]
    exact reported_hundred
  · intro d hd hpos hnn
    rw [report_focus_value session events d hd hpos]
    obtain ⟨h0, h1⟩ := unrounded_bounds (focusLostDuration events) d
      (focusLostDuration_nonneg events hnn) hpos
    exact reported_bounds _ h0 h1

/-- C30, instance: the session in progress with 60 s of `focus_lost` durations, and the
stopped session of 600 s with the same events. -/
theorem focusPercentage_bounds_witness :
    (generateReport aliceSession sixtySecondsLost).focusPercentage = 100 ∧
    0 ≤ (generateReport tenMinuteSession sixtySecondsLost).focusPercentage ∧
    (generateReport tenMinuteSession sixtySecondsLost).focusPercentage ≤ 100 :=
  ⟨(focusPercentage_bounds aliceSession sixtySecondsLost).1 (Or.inl rfl),
    (focusPercentage_bounds tenMinuteSession sixtySecondsLost).2 600 rfl (by decide)
      (by decide)⟩

/-! ## The report: counting by key -/

theorem countKey_keys {α : Type} [DecidableEq α] (acc : List (α × Nat)) (key : α) :
    (countKey acc key).map Prod.fst
      = if key ∈ acc.map Prod.fst then acc.map Prod.fst else acc.map Prod.fst ++ [key] := by
  induction acc with
  | nil => simp [countKey]
  | cons p rest ih =>
    obtain ⟨k, n⟩ := p
    by_cases hk : k = key
    · simp [countKey, hk]
    · have hk2 : ¬ key = k := fun e => hk e.symm
      simp only [countKey, hk, if_false, List.map_cons, ih, List.mem_cons, hk2, false_or]
      split_ifs <;> simp

theorem countKey_sum {α : Type} [DecidableEq α] (acc : List (α × Nat)) (key : α) :
    ((countKey acc key).map Prod.snd).sum = (acc.map Prod.snd).sum + 1 := by
  induction acc with
  | nil => simp [countKey]
  | cons p rest ih =>
    obtain ⟨k, n⟩ := p
    by_cases hk : k = key
    · simp [countKey, hk]; omega
    · simp [countKey, hk, ih]; omega

/-- After the step, the entries are those of before, but for the key's entry: it holds one
more than before, or 1 when the key had none. -/
theorem mem_countKey {α : Type} [DecidableEq α] (acc : List (α × Nat)) (key : α)
    (hnd : (acc.map Prod.fst).Nodup) (k : α) (n : Nat) :
    (k, n) ∈ countKey acc key ↔
      (k ≠ key ∧ (k, n) ∈ acc) ∨
      (k = key ∧ ((∃ m, (key, m) ∈ acc ∧ n = m + 1) ∨
        (key ∉ acc.map Prod.fst ∧ n = 1))) := by
  induction acc with
  | nil => simp [countKey]
  | cons p rest ih =>
    obtain ⟨k0, n0⟩ := p
    have hnd2 : (rest.map Prod.fst).Nodup := (List.nodup_cons.mp hnd).2
    have hk0 : k0 ∉ rest.map Prod.fst := (List.nodup_cons.mp hnd).1
    have hno : ∀ m, (k0, m) ∉ rest := fun m hm =>
      hk0 (List.mem_map.mpr ⟨(k0, m), hm, rfl⟩)
    by_cases hk : k0 = key
    · subst hk
      by_cases hkk : k = k0
      · subst hkk
        simp [countKey, hno]
      · simp [countKey, hkk]
    · have hk2 : ¬ key = k0 := fun e => hk e.symm
      by_cases hkk : k = key
      · subst hkk
        have hk3 : ¬ k = k0 := hk2
        simp [countKey, hk, hk3, ih hnd2]
      · simp [countKey, hk, hkk, ih hnd2]

/-- The breakdown counted over a list of keys: the keys are distinct, the
entry of a key is the number of its occurrences, and only keys that occur have one. -/
theorem tally_spec {α : Type} [DecidableEq α] (keys : List α) :
    ((keys.foldl countKey []).map Prod.fst).Nodup ∧
    (∀ k n, (k, n) ∈ keys.foldl countKey [] ↔ (n = keys.count k ∧ 0 < n)) ∧
    ((keys.foldl countKey []).map Prod.snd).sum = keys.length := by
  induction keys using List.reverseRecOn with
  | nil => simp
  | append_singleton keys key ih =>
    obtain ⟨hnd, hmem, hsum⟩ := ih
    rw [List.foldl_append, List.foldl_cons, List.foldl_nil]
    have hkey : key ∈ (keys.foldl countKey []).map Prod.fst ↔ 0 < keys.count key := by
      constructor
      · intro h
        obtain ⟨⟨k, m⟩, hm, hk⟩ := List.mem_map.mp h
        simp only at hk
        subst hk
        have := (hmem k m).mp hm
        omega
      · intro h
        exact List.mem_map.mpr ⟨(key, keys.count key), (hmem _ _).mpr ⟨rfl, h⟩, rfl⟩
    refine ⟨?_, ?_, ?_⟩
    · rw [countKey_keys]
      split_ifs with h
      · exact hnd
      · exact List.nodup_append.mpr ⟨hnd, List.nodup_singleton key, by
          intro a ha hb
          rw [List.mem_singleton] at hb
          exact h (hb ▸ ha)⟩
    · intro k n
      rw [mem_countKey _ _ hnd, List.count_append]
      by_cases hk : k = key
      · subst hk
        simp only [ne_eq, not_true_eq_false, false_and, true_and, false_or, List.count_cons_self,
          List.count_nil, hkey]
        constructor
        · rintro (⟨m, hm, rfl⟩ | ⟨h0, rfl⟩)
          · have := (hmem k m).mp hm
            omega
          · omega
        · rintro ⟨rfl, _⟩
          by_cases h0 : 0 < keys.count k
          · exact Or.inl ⟨keys.count k, (hmem _ _).mpr ⟨rfl, h0⟩, rfl⟩
          · exact Or.inr ⟨h0, by omega⟩
      · have hc : List.count k [key] = 0 := by
          rw [List.count_eq_zero]
          intro h
          exact hk (List.mem_singleton.mp h)
        simp only [ne_eq, hk, not_false_eq_true, true_and, false_and, or_false, hmem, hc,
          Nat.add_zero]
    · rw [countKey_sum, hsum, List.length_append]
      rfl

theorem count_map_eq_filter {α β : Type} [DecidableEq β] (f : α → β) (l : List α) (k : β) :
    (l.map f).count k = (l.filter (fun e => decide (f e = k))).length := by
  induction l with
  | nil => rfl
  | cons a rest ih =>
    rw [List.map_cons, List.count_cons, List.filter_cons, ih]
    by_cases h : f a = k
    · simp [h]
    · simp [h]

/-- On a key that names no member of `Object.prototype` the reducer step counts. -/
theorem bump_plain {α : Type} [DecidableEq α] (name : α → Option String)
    (acc : List (α × Nat)) (key : α)
    (h : ∀ n, name key = some n → n ∉ objectPrototypeNames) :
    bump name (asTallies acc) key = asTallies (countKey acc key) := by
  induction acc with
  | nil =>
    cases hn : name key with
    | none => simp [asTallies, bump, countKey, hn]
    | some n => simp [asTallies, bump, countKey, hn, h n hn]
  | cons p rest ih =>
    obtain ⟨k, m⟩ := p
    by_cases hk : k = key
    · simp [asTallies, bump, countKey, hk, Tally.succ]
    · simp only [asTallies, List.map_cons, bump, countKey, hk, if_false] at ih ⊢
      rw [ih]

theorem foldl_bump_plain {α : Type} [DecidableEq α] (name : α → Option String)
    (keys : List α) (acc : List (α × Nat))
    (h : ∀ key ∈ keys, ∀ n, name key = some n → n ∉ objectPrototypeNames) :
    keys.foldl (bump name) (asTallies acc) = asTallies (keys.foldl countKey acc) := by
  induction keys generalizing acc with
  | nil => rfl
  | cons key rest ih =>
    simp only [List.foldl_cons]
    rw [bump_plain name acc key (h key (List.mem_cons_self key rest)),
      ih (countKey acc key) (fun k hk => h k (List.mem_cons_of_mem key hk))]

/-- For events whose kinds and severities name no member of `Object.prototype`, the two
breakdowns of the report hold counts: `(kind, n)` is an entry iff `n` is the number of
events of that kind and is not 0, likewise for the severities; each breakdown has one entry
per key, and its counts add up to the number of events. -/
theorem breakdowns_of_plain_keys (session : Session) (events : List Event)
    (hk : ∀ e ∈ events, e.eventType ∉ objectPrototypeNames)
    (hs : ∀ e ∈ events, ∀ n, e.severity = some n → n ∉ objectPrototypeNames) :
    ∃ (kinds : List (String × Nat)) (severities : List (Option String × Nat)),
      (generateReport session events).eventBreakdown = asTallies kinds ∧
      (generateReport session events).severityBreakdown = asTallies severities ∧
      (∀ kind n, (kind, n) ∈ kinds ↔
        (n = (events.filter (fun e => decide (e.eventType = kind))).length ∧ 0 < n)) ∧
      (∀ severity n, (severity, n) ∈ severities ↔
        (n = (events.filter (fun e => decide (e.severity = severity))).length ∧ 0 < n)) ∧
      (kinds.map Prod.fst).Nodup ∧ (severities.map Prod.fst).Nodup ∧
      (kinds.map Prod.snd).sum = events.length ∧
      (severities.map Prod.snd).sum = events.length := by
  refine ⟨(events.map (fun e => e.eventType)).foldl countKey [],
    (events.map (fun e => e.severity)).foldl countKey [], ?_, ?_, ?_⟩
  · have := foldl_bump_plain some (events.map (fun e => e.eventType)) [] (by
      intro key hkey n hn
      obtain ⟨e, he, rfl⟩ := List.mem_map.mp hkey
      simp only [Option.some.injEq] at hn
      subst hn
      exact hk e he)
    simp only [generateReport]
    rw [← this, List.foldl_map]
    rfl
  · have := foldl_bump_plain id (events.map (fun e => e.severity)) [] (by
      intro key hkey n hn
      obtain ⟨e, he, rfl⟩ := List.mem_map.mp hkey
      exact hs e he n hn)
    simp only [generateReport]
    rw [← this, List.foldl_map]
    rfl
  · obtain ⟨k1, k2, k3⟩ := tally_spec (events.map (fun e => e.eventType))
    obtain ⟨s1, s2, s3⟩ := tally_spec (events.map (fun e => e.severity))
    refine ⟨?_, ?_, k1, s1, by simpa using k3, by simpa using s3⟩
    · intro kind n
      rw [k2, count_map_eq_filter]
    · intro severity n
      rw [s2, count_map_eq_filter]

/-! ## C21: the breakdowns of the report -/

/-- C21, the code at the failing input: two events of the kind `constructor` with a
`focus_lost` event between them.  The entry of `constructor` in the report's
`eventBreakdown` is not the count 2 but a string, the text of the inherited
`Object.prototype.constructor` with `1` appended twice; the entry of `focus_lost` is the
count 1, and the `severityBreakdown` counts the three events. -/
theorem constructor_kind_not_counted :
    (constructorEvents.filter (fun e => decide (e.eventType = "constructor"))).length = 2 ∧
    (generateReport tenMinuteSession constructorEvents).eventBreakdown
      = [("constructor", Tally.text (inheritedText "constructor" ++ "11")),
          ("focus_lost", Tally.count 1)] ∧
    ("constructor", Tally.count 2)
      ∉ (generateReport tenMinuteSession constructorEvents).eventBreakdown ∧
    (generateReport tenMinuteSession constructorEvents).severityBreakdown
      = [(some "medium", Tally.count 3)] := by
  decide

/-! ## C23: the report is a read-only derivation -/

/-- C23: the report of a session is determined by the session's row and its event rows:
two stores that agree on them give equal reports, whatever else they hold; serving a
report returns the store it received, so no field of a session and no event changes, and
a second request gives the report of the first. -/
theorem report_read_only (db : Db) (sessionId : String) :
    (∀ db2 : Db, findByPk db2 sessionId = findByPk db sessionId →
      eventsOf db2 sessionId = eventsOf db sessionId →
      (serveReport db2 sessionId).report = (serveReport db sessionId).report) ∧
    (serveReport db sessionId).db = db ∧
    (serveReport (serveReport db sessionId).db sessionId).report
      = (serveReport db sessionId).report ∧
    (∀ session, findByPk db sessionId = some session →
      (serveReport db sessionId).report
        = some (generateReport session (eventsOf db sessionId))) := by
  refine ⟨?_, rfl, rfl, ?_⟩
  · intro db2 hf he
    simp only [serveReport, getReport, hf, he]
  · intro session hf
    simp only [serveReport, getReport, hf]

/-- C23, instance: the scenario's store, and a store that holds a second session and
events of it besides. -/
theorem report_read_only_witness :
    (serveReport twoSessionDb "s7").db = twoSessionDb ∧
    (serveReport
        { sessions := twoSessionDb.sessions ++ [aliceSession]
          events := twoSessionDb.events ++ [timedEvent "x3" "book_detected" none] }
        "s7").report = (serveReport twoSessionDb "s7").report :=
  ⟨(report_read_only twoSessionDb "s7").2.1,
    (report_read_only twoSessionDb "s7").1 _ (by decide) (by decide)⟩

/-! ## C25: the alerts the panel shows -/

/-- C25, the code at the failing input: eleven alerts are received in turn; the panel's
`alerts.slice(0, 10)` is the first ten received, the alert received last is not among
them, the ten most recently received are another list, and the caption 'Showing last 10'
is shown. -/
theorem panel_shows_first_ten :
    elevenAlerts.map (fun a => a.id)
      = [1000, 1001, 1002, 1003, 1004, 1005, 1006, 1007, 1008, 1009, 1010] ∧
    (recentAlerts elevenAlerts).map (fun a => a.id)
      = [1000, 1001, 1002, 1003, 1004, 1005, 1006, 1007, 1008, 1009] ∧
    (lastTen elevenAlerts).map (fun a => a.id)
      = [1001, 1002, 1003, 1004, 1005, 1006, 1007, 1008, 1009, 1010] ∧
    (1010 : Int) ∉ (recentAlerts elevenAlerts).map (fun a => a.id) ∧
    showsLastTenCaption elevenAlerts = true := by
  decide

/-! ## C26: overriding the scores -/

/-- C26, the code at the failing input: the session's scores are 70 and 50; an override
that supplies 0 for both is answered 200 and leaves them at 70 and 50. -/
theorem override_with_zero_ignored :
    (findByPk scoredDb "s1").map (fun s => (s.focusScore, s.integrityScore))
      = some (some 70, 50) ∧
    (putFocusScore scoredDb "s1" (some 0) (some 0) (calmEnv 71000 "e9")).res
      = .scoresUpdated 200 "s1" (some 70) 50 ∧
    (findByPk (putFocusScore scoredDb "s1" (some 0) (some 0) (calmEnv 71000 "e9")).db
        "s1").map (fun s => (s.focusScore, s.integrityScore)) = some (some 70, 50) ∧
    (findByPk (putFocusScore scoredDb "s1" (some 1) (some 1) (calmEnv 71000 "e9")).db
        "s1").map (fun s => (s.focusScore, s.integrityScore)) = some (some 1, 1) := by
  decide

/-! ## The socket server: what is sent, and to whom -/

theorem logEvent_emitted_stored (db : Db) (req : EventReq) (env : Env) :
    ∀ a ∈ (logEvent db req env).emitted,
      ∃ e ∈ (logEvent db req env).db.events, e.sessionId = a.room ∧ alertFor a.room e = a := by
  by_cases hg : ∀ sid kind, req.sessionId = some sid → req.eventType = some kind →
        sid ≠ "" → kind ≠ "" → findByPk db sid = none
  · rw [(logEvent_rejected db req env hg).2]
    intro a ha
    cases ha
  · push_neg at hg
    obtain ⟨sid, kind, hsid, hkind, hs, hk, hf⟩ := hg
    obtain ⟨session, hf⟩ := Option.ne_none_iff_exists'.mp hf
    rw [logEvent_found db req env sid kind session hsid hkind hs hk hf]
    intro a ha
    split_ifs at ha ⊢
    all_goals first
      | cases ha; done
      | (rw [List.mem_singleton.mp ha]
         exact ⟨ingestedEvent req env sid kind,
           List.mem_append_right _ (List.mem_singleton.mpr rfl), rfl, rfl⟩)

theorem members_mem (hub : Hub) (room socket : String) (h : socket ∈ hub.members room) :
    (socket, room) ∈ hub.rooms := by
  unfold Hub.members at h
  obtain ⟨m, hm, rfl⟩ := List.mem_map.mp h
  obtain ⟨hm1, hm2⟩ := List.mem_filter.mp hm
  have : m.2 = room := by simpa using hm2
  rw [← this]
  exact hm1

/-- What stays true of the socket server from one state to the next: every socket in a
channel and every socket that was sent a message for a channel is one that `J` admits to
the channel, and every alert of the ingestion route that was sent is the copy of a stored
event of that session. -/
theorem step_sent (J : String → String → Prop) (sys : System) (op : Op)
    (hjoin : ∀ socket room, op = .join socket room → J socket room)
    (hrooms : ∀ m ∈ sys.hub.rooms, J m.1 m.2)
    (hsent : ∀ m ∈ sys.hub.sent, J m.1 m.2.room ∧
      ∀ a, m.2 = .alert a →
        ∃ e ∈ sys.db.events, e.sessionId = a.room ∧ alertFor a.room e = a) :
    (∀ m ∈ (step sys op).hub.rooms, J m.1 m.2) ∧
    (∀ m ∈ (step sys op).hub.sent, J m.1 m.2.room ∧
      ∀ a, m.2 = .alert a →
        ∃ e ∈ (step sys op).db.events, e.sessionId = a.room ∧ alertFor a.room e = a) := by
  -- the rows of the store stay
  have hkeep : ∀ m ∈ sys.hub.sent, J m.1 m.2.room ∧
      ∀ a, m.2 = .alert a →
        ∃ e ∈ (step sys op).db.events, e.sessionId = a.room ∧ alertFor a.room e = a := by
    intro m hm
    refine ⟨(hsent m hm).1, fun a ha => ?_⟩
    obtain ⟨e, he, h1, h2⟩ := (hsent m hm).2 a ha
    exact ⟨e, run_keeps_event e [op] sys he, h1, h2⟩
  cases op with
  | start req env => exact ⟨hrooms, hkeep⟩
  | stop sessionId env => exact ⟨hrooms, hkeep⟩
  | override id f i env => exact ⟨hrooms, hkeep⟩
  | join socket room =>
    refine ⟨?_, ?_⟩
    · intro m hm
      simp only [step, Hub.join] at hm
      split_ifs at hm
      · exact hrooms m hm
      · rcases List.mem_append.mp hm with h | h
        · exact hrooms m h
        · rw [List.mem_singleton.mp h]
          exact hjoin socket room rfl
    · intro m hm
      have hm2 : m ∈ sys.hub.sent := by
        simp only [step, Hub.join] at hm
        split_ifs at hm <;> exact hm
      exact hkeep m hm2
  | disconnect socket =>
    refine ⟨?_, hkeep⟩
    intro m hm
    simp only [step, Hub.disconnect] at hm
    exact hrooms m (List.mem_filter.mp hm).1
  | relay socket room data =>
    refine ⟨hrooms, ?_⟩
    intro m hm
    simp only [step, Hub.emitFrom] at hm
    rcases List.mem_append.mp hm with h | h
    · exact hkeep m h
    · obtain ⟨x, hx, rfl⟩ := List.mem_map.mp h
      have hx2 := members_mem sys.hub room x (List.mem_filter.mp hx).1
      exact ⟨hrooms _ hx2, fun a ha => by cases ha⟩
  | log req env =>
    have hfold : ∀ (alerts : List Alert) (hub : Hub), hub.rooms = sys.hub.rooms →
        (∀ a ∈ alerts, a ∈ (logEvent sys.db req env).emitted) →
        (∀ m ∈ hub.sent, J m.1 m.2.room ∧ ∀ a, m.2 = .alert a →
          ∃ e ∈ (logEvent sys.db req env).db.events,
            e.sessionId = a.room ∧ alertFor a.room e = a) →
        (alerts.foldl (fun hub a => hub.emitTo a.room (.alert a)) hub).rooms = sys.hub.rooms ∧
        ∀ m ∈ (alerts.foldl (fun hub a => hub.emitTo a.room (.alert a)) hub).sent,
          J m.1 m.2.room ∧ ∀ a, m.2 = .alert a →
            ∃ e ∈ (logEvent sys.db req env).db.events,
              e.sessionId = a.room ∧ alertFor a.room e = a := by
      intro alerts
      induction alerts with
      | nil => intro hub hr _ hs; exact ⟨hr, hs⟩
      | cons a rest ih =>
        intro hub hr ha hs
        rw [List.foldl_cons]
        apply ih (hub.emitTo a.room (.alert a)) hr
          (fun b hb => ha b (List.mem_cons_of_mem a hb))
        intro m hm
        simp only [Hub.emitTo] at hm
        rcases List.mem_append.mp hm with h | h
        · exact hs m h
        · obtain ⟨x, hx, rfl⟩ := List.mem_map.mp h
          have hx2 := members_mem hub a.room x hx
          rw [hr] at hx2
          refine ⟨hrooms _ hx2, fun b hb => ?_⟩
          cases hb
          exact logEvent_emitted_stored sys.db req env a (ha a (List.mem_cons_self a rest))
    obtain ⟨h1, h2⟩ := hfold (logEvent sys.db req env).emitted sys.hub rfl
      (fun a ha => ha) hkeep
    refine ⟨?_, h2⟩
    intro m hm
    simp only [step] at hm
    rw [h1] at hm
    exact hrooms m hm

theorem run_sent (J : String → String → Prop) (ops : List Op) (sys : System)
    (hjoin : ∀ socket room, Op.join socket room ∈ ops → J socket room)
    (hrooms : ∀ m ∈ sys.hub.rooms, J m.1 m.2)
    (hsent : ∀ m ∈ sys.hub.sent, J m.1 m.2.room ∧
      ∀ a, m.2 = .alert a →
        ∃ e ∈ sys.db.events, e.sessionId = a.room ∧ alertFor a.room e = a) :
    ∀ m ∈ (run sys ops).hub.sent, J m.1 m.2.room ∧
      ∀ a, m.2 = .alert a →
        ∃ e ∈ (run sys ops).db.events, e.sessionId = a.room ∧ alertFor a.room e = a := by
  induction ops generalizing sys with
  | nil => exact hsent
  | cons op rest ih =>
    obtain ⟨h1, h2⟩ := step_sent J sys op
      (fun socket room e => hjoin socket room (e ▸ List.mem_cons_self op rest)) hrooms hsent
    exact ih (step sys op)
      (fun socket room h => hjoin socket room (List.mem_cons_of_mem op h)) h1 h2

/-! ## C27: where a delivered alert comes from -/

/-- C27, counterexample: two observers are in the channel of `s1`, nothing is stored, and
one of them sends a `'proctoring-event'`; the server sends its data to the other as a
`'proctoring-alert'`, with no event in the store. -/
theorem relayed_alert_without_event :
    (run emptySystem relayOps).hub.sent = [("o1", .relayed "s1" "phone_detected")] ∧
    (run emptySystem relayOps).db.events = [] := by
  decide

/-- C27, amended: over any sequence of requests and socket events from the empty server,
every `'proctoring-alert'` is sent only to a socket that has joined the channel it is for,
and every alert sent by the ingestion route is the copy of an event stored for that
session (the sequence being any, this holds at every moment for the messages sent so
far); the `'proctoring-event'` handler, though, passes the data a socket sends on to the
other sockets of the channel as a `'proctoring-alert'` and stores nothing. -/
theorem alerts_to_members_from_store (ops : List Op) :
    (∀ m ∈ (run emptySystem ops).hub.sent,
      Op.join m.1 m.2.room ∈ ops ∧
      ∀ a, m.2 = .alert a →
        ∃ e ∈ (run emptySystem ops).db.events,
          e.sessionId = a.room ∧ alertFor a.room e = a) ∧
    (∀ (sys : System) (socket room data : String),
      (step sys (.relay socket room data)).db = sys.db ∧
      (step sys (.relay socket room data)).hub.sent
        = sys.hub.sent ++ ((sys.hub.members room).filter (fun m => m != socket)).map
            (fun m => (m, .relayed room data))) := by
  refine ⟨?_, fun sys socket room data => ⟨rfl, rfl⟩⟩
  exact run_sent (fun socket room => Op.join socket room ∈ ops) ops emptySystem
    (fun _ _ h => h) (fun m hm => by cases hm) (fun m hm => by cases hm)

/-! ## The classifier: what the pixel loop counts -/

theorem tallyPixel_counts (width : Nat) (acc : PixelTally) (pixelIndex r g b : Nat) :
    (tallyPixel width acc pixelIndex r g b).facePixels
      = acc.facePixels + (if isSkinTone r g b then 1 else 0) ∧
    (tallyPixel width acc pixelIndex r g b).totalPixels = acc.totalPixels + 1 := by
  unfold tallyPixel
  split_ifs <;> exact ⟨rfl, rfl⟩

/-- The loop counts the skin-toned pixels in `facePixels` and every visited pixel in
`totalPixels`. -/
theorem scanPixels_counts (width : Nat) :
    ∀ (data : List Nat) (pixelIndex : Nat) (acc : PixelTally),
      (scanPixels width data pixelIndex acc).facePixels = acc.facePixels + skinCount data ∧
      (scanPixels width data pixelIndex acc).totalPixels
        = acc.totalPixels + pixelCount data
  | [], _, _ => ⟨rfl, rfl⟩
  | [_], _, _ => by
    simp [scanPixels, skinCount, pixelsOf, pixelCount]
  | [_, _], _, _ => by
    simp [scanPixels, skinCount, pixelsOf, pixelCount]
  | [r, g, b], pixelIndex, acc => by
    obtain ⟨h1, h2⟩ := tallyPixel_counts width acc pixelIndex r g b
    simp only [scanPixels, skinCount, pixelsOf, pixelCount, List.filter_cons,
      List.filter_nil, h1, h2]
    constructor
    · split_ifs <;> rfl
    · simp
  | r :: g :: b :: a :: rest, pixelIndex, acc => by
    obtain ⟨h1, h2⟩ := tallyPixel_counts width acc pixelIndex r g b
    obtain ⟨ih1, ih2⟩ := scanPixels_counts width rest (pixelIndex + 1)
      (tallyPixel width acc pixelIndex r g b)
    have hs : skinCount (r :: g :: b :: a :: rest)
        = (if isSkinTone r g b then 1 else 0) + skinCount rest := by
      simp only [skinCount, pixelsOf, List.filter_cons]
      split_ifs <;> simp [Nat.add_comm]
    have hc : pixelCount (r :: g :: b :: a :: rest) = pixelCount rest + 1 := by
      simp only [pixelCount, List.length_cons]
      omega
    simp only [scanPixels]
    rw [ih1, ih2, h1, h2, hs, hc]
    constructor <;> omega

/-! ## C22: the classifier is total -/

theorem double_of_five_percent : (1 : Rat) / 20 ≤ toDouble (5 / 100) := by
  have h : toDouble ((5 : Rat) / 100) = 3602879701896397 / 72057594037927936 := by
    apply toDouble_eq_of_near _ (-5) 7205759403792794 <;> norm_num [abs_lt]
  rw [h]
  norm_num

/-- C22, counterexample: for a frame of width and height 0, and for a frame of width 0
and height 480, `getImageData` throws and `detectFace` returns no result. -/
theorem empty_frame_throws :
    detectFace true true emptyFrame = none ∧ detectFace true true flatFrame = none := by
  constructor <;> rfl

/-- C22, amended: with the canvas and its 2D context in place, `detectFace` returns a
result exactly for the frames of a width and a height other than 0 (the buffer having
fewer than `2^53` bytes).  When at most 5 % of the pixels are skin-toned the result has
`hasFace = false`; when none is, the centre is the middle of the frame (the division by
`facePixels` is not reached) and the result has neither `isLookingAway` nor `isDrowsy`.
Without a 2D context the result is the one of line 59, whatever the frame. -/
theorem detectFace_total (frame : Frame) (hlen : frame.data.length < 9007199254740992) :
    ((detectFace true true frame).isSome = true ↔ (0 < frame.width ∧ 0 < frame.height)) ∧
    (∀ r, detectFace true true frame = some r →
      (20 * skinCount frame.data ≤ pixelCount frame.data → r.hasFace = false) ∧
      (skinCount frame.data = 0 →
        r.hasFace = false ∧ r.isLookingAway = false ∧ r.isDrowsy = false ∧
        r.faceCenterX = some (toDouble ((frame.width : Rat) / 2)) ∧
        r.faceCenterY = some (toDouble ((frame.height : Rat) / 2)))) ∧
    detectFace true false frame
      = some { hasFace := false, isLookingAway := false, isDrowsy := false,
               faceCenterX := none, faceCenterY := none } := by
  refine ⟨?_, ?_, rfl⟩
  · by_cases hz : frame.width = 0 ∨ frame.height = 0
    · have hn : detectFace true true frame = none := by simp [detectFace, hz]
      rw [hn]
      constructor
      · intro h; cases h
      · intro h; omega
    · have hs : (detectFace true true frame).isSome = true := by simp [detectFace, hz]
      rw [hs]
      constructor
      · intro _; omega
      · intro _; rfl
  · intro r hr
    have hz : ¬ (frame.width = 0 ∨ frame.height = 0) := by
      intro hz
      simp [detectFace, hz] at hr
    obtain ⟨h1, h2⟩ := scanPixels_counts frame.width frame.data 0
      { facePixels := 0, totalPixels := 0, facePixelsX := 0, facePixelsY := 0 }
    simp only [Nat.zero_add] at h1 h2
    simp only [detectFace, Bool.not_true, Bool.false_eq_true, if_false, hz, h1, h2,
      Option.some.injEq] at hr
    subst hr
    have hc0 : (0 : Rat) ≤ toDouble (5 / 100) := toDouble_nonneg _ (by norm_num)
    have hp0 : (0 : Rat) ≤ ((pixelCount frame.data : Nat) : Rat) := by
      exact_mod_cast Nat.zero_le _
    have hface : 20 * skinCount frame.data ≤ pixelCount frame.data →
        decide (((skinCount frame.data : Nat) : Rat)
          > toDouble (((pixelCount frame.data : Nat) : Rat) * toDouble (5 / 100))) = false := by
      intro h
      rw [decide_eq_false_iff_not, not_lt]
      have hq : ((20 * skinCount frame.data : Nat) : Rat) ≤ (pixelCount frame.data : Rat) := by
        exact_mod_cast h
      push_cast at hq
      have hle : ((skinCount frame.data : Nat) : Rat)
          ≤ ((pixelCount frame.data : Nat) : Rat) * toDouble (5 / 100) := by
        have := mul_le_mul_of_nonneg_left double_of_five_percent hp0
        linarith
      have hmono := toDouble_mono _ _ hle
      have hbound : skinCount frame.data < 9007199254740992 := by
        have : pixelCount frame.data ≤ frame.data.length := by
          unfold pixelCount
          omega
        omega
      have hexact : toDouble ((skinCount frame.data : Nat) : Rat) = (skinCount frame.data : Nat) := by
        have := toDouble_intCast (skinCount frame.data : Int) (by
          rw [abs_of_nonneg (Int.natCast_nonneg _)]
          exact_mod_cast hbound)
        exact_mod_cast this
      rw [hexact] at hmono
      exact hmono
    refine ⟨hface, ?_⟩
    intro h0
    have hnoface : decide (((skinCount frame.data : Nat) : Rat)
        > toDouble (((pixelCount frame.data : Nat) : Rat) * toDouble (5 / 100))) = false := by
      rw [decide_eq_false_iff_not, not_lt, h0]
      simpa using toDouble_nonneg _ (mul_nonneg hp0 hc0)
    have hw0 : (0 : Rat) ≤ (frame.width : Rat) := by exact_mod_cast Nat.zero_le _
    have hh0 : (0 : Rat) ≤ (frame.height : Rat) := by exact_mod_cast Nat.zero_le _
    refine ⟨hnoface, ?_, ?_, ?_, ?_⟩
    · simp only [h0, lt_self_iff_false, if_false, sub_self, toDouble_zero, abs_zero,
        decide_eq_false_iff_not, not_lt]
      exact toDouble_nonneg _ (mul_nonneg hw0 (toDouble_nonneg _ (by norm_num)))
    · simp only [h0, lt_self_iff_false, if_false, sub_self, toDouble_zero, abs_zero,
        decide_eq_false_iff_not, not_lt]
      exact toDouble_nonneg _ (mul_nonneg hh0 (toDouble_nonneg _ (by norm_num)))
    · simp [h0]
    · simp [h0]

/-- C22 amended, instance: the frame of two grey pixels, and the frame with exactly 5 % of
skin-toned pixels. -/
theorem detectFace_total_witness :
    (detectFace true true greyFrame).isSome = true ∧
    (∀ r, detectFace true true greyFrame = some r →
      r.hasFace = false ∧ r.isLookingAway = false ∧ r.isDrowsy = false ∧
      r.faceCenterX = some (toDouble (((2 : Nat) : Rat) / 2)) ∧
      r.faceCenterY = some (toDouble (((1 : Nat) : Rat) / 2))) ∧
    (∀ r, detectFace true true fivePercentFrame = some r → r.hasFace = false) :=
  ⟨(detectFace_total greyFrame (by decide)).1.mpr (by decide),
    fun r hr => ((detectFace_total greyFrame (by decide)).2.1 r hr).2 (by decide),
    fun r hr => ((detectFace_total fivePercentFrame (by decide)).2.1 r hr).1 (by decide)⟩

/-! ## The counters and the stored events -/

theorem updateSessionCounters_fields (s : Session) (kind : String) :
    (updateSessionCounters s kind).totalEvents = s.totalEvents + 1 ∧
    (updateSessionCounters s kind).focusLostCount
      = s.focusLostCount + (if kind = "focus_lost" then 1 else 0) ∧
    (updateSessionCounters s kind).faceAbsentCount
      = s.faceAbsentCount + (if kind = "face_absent" then 1 else 0) ∧
    (updateSessionCounters s kind).multipleFacesCount
      = s.multipleFacesCount + (if kind = "multiple_faces" then 1 else 0) ∧
    (updateSessionCounters s kind).phoneDetectedCount
      = s.phoneDetectedCount + (if kind = "phone_detected" then 1 else 0) ∧
    (updateSessionCounters s kind).bookDetectedCount
      = s.bookDetectedCount + (if kind = "book_detected" then 1 else 0) ∧
    (updateSessionCounters s kind).deviceDetectedCount
      = s.deviceDetectedCount + (if kind = "device_detected" then 1 else 0) ∧
    (updateSessionCounters s kind).drowsinessCount
      = s.drowsinessCount + (if kind = "drowsiness_detected" then 1 else 0) := by
  refine ⟨?_, ?_, ?_, ?_, ?_, ?_, ?_, ?_⟩
  all_goals
    simp only [updateSessionCounters, counterUpdate, Session.applyUpdate]
    by_cases h1 : kind = "focus_lost"
    · subst h1; simp
    by_cases h2 : kind = "face_absent"
    · subst h2; simp
    by_cases h3 : kind = "multiple_faces"
    · subst h3; simp
    by_cases h4 : kind = "phone_detected"
    · subst h4; simp
    by_cases h5 : kind = "book_detected"
    · subst h5; simp
    by_cases h6 : kind = "device_detected"
    · subst h6; simp
    by_cases h7 : kind = "drowsiness_detected"
    · subst h7; simp
    simp [h1, h2, h3, h4, h5, h6, h7]

theorem suspicious_indicator (kind : String) :
    (if kind ∈ suspiciousKinds then (1 : Int) else 0)
      = (if kind = "focus_lost" then 1 else 0) + (if kind = "face_absent" then 1 else 0)
        + (if kind = "multiple_faces" then 1 else 0)
        + (if kind = "phone_detected" then 1 else 0)
        + (if kind = "book_detected" then 1 else 0)
        + (if kind = "device_detected" then 1 else 0)
        + (if kind = "drowsiness_detected" then 1 else 0) := by
  by_cases h1 : kind = "focus_lost"
  · subst h1; decide
  by_cases h2 : kind = "face_absent"
  · subst h2; decide
  by_cases h3 : kind = "multiple_faces"
  · subst h3; decide
  by_cases h4 : kind = "phone_detected"
  · subst h4; decide
  by_cases h5 : kind = "book_detected"
  · subst h5; decide
  by_cases h6 : kind = "device_detected"
  · subst h6; decide
  by_cases h7 : kind = "drowsiness_detected"
  · subst h7; decide
  simp [suspiciousKinds, h1, h2, h3, h4, h5, h6, h7]

theorem eventsOf_ingest (db : Db) (e : Event) (sid2 : String) (u : UpdateData)
    (sessionId : String) :
    eventsOf ((db.createEvent e).updateSession sid2 u) sessionId
      = eventsOf db sessionId ++ (if e.sessionId = sessionId then [e] else []) := by
  simp only [eventsOf, Db.updateSession, Db.createEvent, List.filter_append, List.filter_cons,
    List.filter_nil, beq_iff_eq]

theorem kindCount_ingest (db : Db) (e : Event) (sid2 : String) (u : UpdateData)
    (sessionId kind : String) :
    kindCount ((db.createEvent e).updateSession sid2 u) sessionId kind
      = kindCount db sessionId kind
        + (if e.sessionId = sessionId ∧ e.eventType = kind then 1 else 0) := by
  unfold kindCount
  rw [eventsOf_ingest, List.filter_append, List.length_append]
  by_cases h1 : e.sessionId = sessionId
  · by_cases h2 : e.eventType = kind
    · simp [h1, h2]
    · simp [h1, h2]
  · simp [h1]

/-- A `logEvent` answered 201 passed the guards with some session id and kind. -/
theorem logEvent_ok_fields (db : Db) (req : EventReq) (env : Env)
    (hok : (logEvent db req env).res.status = 201) :
    ∃ sid kind session, req.sessionId = some sid ∧ req.eventType = some kind ∧
      findByPk db sid = some session ∧
      (logEvent db req env).db
        = (db.createEvent (ingestedEvent req env sid kind)).updateSession sid
            (counterUpdate session kind) := by
  rcases hsid : req.sessionId with _ | sid
  · simp [logEvent, hsid, Response.status] at hok
  rcases hkind : req.eventType with _ | kind
  · simp [logEvent, hsid, hkind, Response.status] at hok
  obtain ⟨session, hf, hdb⟩ := logEvent_ok db req env sid kind hsid hkind hok
  exact ⟨sid, kind, session, rfl, rfl, hf, hdb⟩

/-- A `logEvent` answered 201 keeps the counters of every session in step with its
stored events. -/
theorem logEvent_countersMatch (db : Db) (req : EventReq) (env : Env) (sessionId : String)
    (s : Session) (hf : findByPk db sessionId = some s)
    (hm : CountersMatch db sessionId s)
    (hok : (logEvent db req env).res.status = 201) :
    ∃ s2, findByPk (logEvent db req env).db sessionId = some s2 ∧
      CountersMatch (logEvent db req env).db sessionId s2 := by
  obtain ⟨sid, kind, session, hsid, hkind, hfs, hdb⟩ := logEvent_ok_fields db req env hok
  rw [hdb]
  by_cases hsame : sessionId = sid
  · subst hsame
    rw [hf] at hfs
    have hss : session = s := (Option.some.inj hfs).symm
    subst hss
    refine ⟨updateSessionCounters session kind, ?_, ?_⟩
    · rw [findByPk_updateSession_same, findByPk_createEvent, hf]
      rfl
    · obtain ⟨f0, f1, f2, f3, f4, f5, f6, f7⟩ := updateSessionCounters_fields session kind
      have fs := updateSessionCounters_suspicious session kind
      have hi := suspicious_indicator kind
      obtain ⟨m1, m2, m3, m4, m5, m6, m7, m8, m9⟩ := hm
      have hk : ∀ k : String,
          kindCount ((db.createEvent (ingestedEvent req env sessionId kind)).updateSession
            sessionId (counterUpdate session kind)) sessionId k
            = kindCount db sessionId k + (if kind = k then 1 else 0) := by
        intro k
        rw [kindCount_ingest]
        simp [ingestedEvent]
      unfold CountersMatch
      rw [hk, hk, hk, hk, hk, hk, hk, f0, f1, f2, f3, f4, f5, f6, f7, fs, hi]
      refine ⟨by omega, by omega, by omega, by omega, by omega, by omega, by omega, ?_, ?_⟩
      · omega
      · have hle : (if kind = "focus_lost" then (1 : Int) else 0)
            + (if kind = "face_absent" then 1 else 0)
            + (if kind = "multiple_faces" then 1 else 0)
            + (if kind = "phone_detected" then 1 else 0)
            + (if kind = "book_detected" then 1 else 0)
            + (if kind = "device_detected" then 1 else 0)
            + (if kind = "drowsiness_detected" then 1 else 0) ≤ 1 := by
          rw [← hi]
          split_ifs <;> decide
        omega
  · refine ⟨s, ?_, ?_⟩
    · rw [findByPk_updateSession_ne _ _ _ _ hsame, findByPk_createEvent, hf]
    · have hk : ∀ k : String,
          kindCount ((db.createEvent (ingestedEvent req env sid kind)).updateSession
            sid (counterUpdate session kind)) sessionId k = kindCount db sessionId k := by
        intro k
        rw [kindCount_ingest]
        have hne : ¬ sid = sessionId := fun e => hsame e.symm
        simp [ingestedEvent, hne]
      unfold CountersMatch at hm ⊢
      rw [hk, hk, hk, hk, hk, hk, hk]
      exact hm

theorem logAll_countersMatch (calls : List (EventReq × Env)) (db : Db) (sessionId : String)
    (s : Session) (hf : findByPk db sessionId = some s)
    (hm : CountersMatch db sessionId s) (hok : allAnswered201 db calls = true) :
    ∃ s2, findByPk (logAll db calls) sessionId = some s2 ∧
      CountersMatch (logAll db calls) sessionId s2 := by
  induction calls generalizing db s with
  | nil => exact ⟨s, hf, hm⟩
  | cons call rest ih =>
    simp only [allAnswered201, Bool.and_eq_true, decide_eq_true_eq] at hok
    obtain ⟨s1, h1, h2⟩ := logEvent_countersMatch db call.1 call.2 sessionId s hf hm hok.1
    exact ih (logEvent db call.1 call.2).db s1 h1 h2 hok.2

/-! ## C28: the counters against the stored events -/

/-- C28: take a store in which a session has been freshly started (all its counters 0,
none of its stored events of a suspicious kind) and any sequence of `logEvent` calls, for
this or other sessions, that are all answered 201.  Afterwards each of the session's seven
dedicated counters is the number of the session's stored events of its kind,
`suspiciousEvents` is the sum of the seven counters, and
`suspiciousEvents <= totalEvents`. -/
theorem counters_match_events (db : Db) (sessionId : String) (s0 : Session)
    (calls : List (EventReq × Env))
    (hf : findByPk db sessionId = some s0)
    (hzero : s0.totalEvents = 0 ∧ s0.suspiciousEvents = 0 ∧ s0.focusLostCount = 0 ∧
      s0.faceAbsentCount = 0 ∧ s0.multipleFacesCount = 0 ∧ s0.phoneDetectedCount = 0 ∧
      s0.bookDetectedCount = 0 ∧ s0.deviceDetectedCount = 0 ∧ s0.drowsinessCount = 0)
    (hev : ∀ kind ∈ suspiciousKinds, kindCount db sessionId kind = 0)
    (hok : allAnswered201 db calls = true) :
    ∃ s, findByPk (logAll db calls) sessionId = some s ∧
      s.focusLostCount = kindCount (logAll db calls) sessionId "focus_lost" ∧
      s.faceAbsentCount = kindCount (logAll db calls) sessionId "face_absent" ∧
      s.multipleFacesCount = kindCount (logAll db calls) sessionId "multiple_faces" ∧
      s.phoneDetectedCount = kindCount (logAll db calls) sessionId "phone_detected" ∧
      s.bookDetectedCount = kindCount (logAll db calls) sessionId "book_detected" ∧
      s.deviceDetectedCount = kindCount (logAll db calls) sessionId "device_detected" ∧
      s.drowsinessCount = kindCount (logAll db calls) sessionId "drowsiness_detected" ∧
      s.suspiciousEvents = s.focusLostCount + s.faceAbsentCount + s.multipleFacesCount
        + s.phoneDetectedCount + s.bookDetectedCount + s.deviceDetectedCount
        + s.drowsinessCount ∧
      s.suspiciousEvents ≤ s.totalEvents := by
  obtain ⟨z0, z1, z2, z3, z4, z5, z6, z7, z8⟩ := hzero
  have hm : CountersMatch db sessionId s0 := by
    unfold CountersMatch
    rw [hev "focus_lost" (by decide), hev "face_absent" (by decide),
      hev "multiple_faces" (by decide), hev "phone_detected" (by decide),
      hev "book_detected" (by decide), hev "device_detected" (by decide),
      hev "drowsiness_detected" (by decide), z0, z1, z2, z3, z4, z5, z6, z7, z8]
    decide
  obtain ⟨s, h1, h2⟩ := logAll_countersMatch calls db sessionId s0 hf hm hok
  exact ⟨s, h1, h2⟩

/-- C28, instance: the freshly started session `s1`, then a `phone_detected`, a
`focus_lost`, a `session_end` and a `focus_lost` logged for it. -/
theorem counters_match_events_witness :
    allAnswered201 aliceDb aliceCalls = true ∧
    ∃ s, findByPk (logAll aliceDb aliceCalls) "s1" = some s ∧
      s.focusLostCount = kindCount (logAll aliceDb aliceCalls) "s1" "focus_lost" ∧
      s.faceAbsentCount = kindCount (logAll aliceDb aliceCalls) "s1" "face_absent" ∧
      s.multipleFacesCount = kindCount (logAll aliceDb aliceCalls) "s1" "multiple_faces" ∧
      s.phoneDetectedCount = kindCount (logAll aliceDb aliceCalls) "s1" "phone_detected" ∧
      s.bookDetectedCount = kindCount (logAll aliceDb aliceCalls) "s1" "book_detected" ∧
      s.deviceDetectedCount = kindCount (logAll aliceDb aliceCalls) "s1" "device_detected" ∧
      s.drowsinessCount = kindCount (logAll aliceDb aliceCalls) "s1" "drowsiness_detected" ∧
      s.suspiciousEvents = s.focusLostCount + s.faceAbsentCount + s.multipleFacesCount
        + s.phoneDetectedCount + s.bookDetectedCount + s.deviceDetectedCount
        + s.drowsinessCount ∧
      s.suspiciousEvents ≤ s.totalEvents :=
  ⟨by decide,
    counters_match_events aliceDb "s1" aliceSession aliceCalls (by decide) (by decide)
      (by decide) (by decide)⟩

/-! ## `totalEvents` and the stored rows -/

theorem totalOf_updateSession (db : Db) (sid2 : String) (u : UpdateData) (sessionId : String)
    (hu : u.totalEvents = none) :
    totalOf (db.updateSession sid2 u) sessionId = totalOf db sessionId := by
  unfold totalOf
  by_cases h : sessionId = sid2
  · subst h
    rw [findByPk_updateSession_same]
    cases findByPk db sessionId with
    | none => rfl
    | some s => simp [Session.applyUpdate, hu]
  · rw [findByPk_updateSession_ne db sid2 sessionId u h]

theorem totalOf_createSession (db : Db) (s : Session) (sessionId : String)
    (hs : s.totalEvents = 0) :
    totalOf (db.createSession s) sessionId = totalOf db sessionId := by
  unfold totalOf findByPk Db.createSession
  simp only [List.find?_append]
  cases hf : db.sessions.find? (fun r => r.id == sessionId) with
  | some r => rfl
  | none =>
    by_cases hid : s.id = sessionId
    · simp [List.find?_cons, hid, hs]
    · simp [List.find?_cons, hid]

theorem eventsOf_createEvent (db : Db) (e : Event) (sessionId : String) :
    (eventsOf (db.createEvent e) sessionId).length
      = (eventsOf db sessionId).length + (if e.sessionId = sessionId then 1 else 0) := by
  simp only [eventsOf, Db.createEvent, List.filter_append, List.filter_cons, List.filter_nil,
    beq_iff_eq, List.length_append]
  split_ifs <;> rfl

/-- A `logEvent` none of whose calls throws and that is not answered 201 leaves the store
as it was. -/
theorem logEvent_calm_rejected (db : Db) (req : EventReq) (env : Env)
    (hc : env.fault = .none) (hno : (logEvent db req env).res.status ≠ 201) :
    (logEvent db req env).db = db := by
  by_cases hg : ∀ sid kind, req.sessionId = some sid → req.eventType = some kind →
        sid ≠ "" → kind ≠ "" → findByPk db sid = none
  · exact (logEvent_rejected db req env hg).1
  · push_neg at hg
    obtain ⟨sid, kind, hsid, hkind, hs, hk, hf⟩ := hg
    obtain ⟨session, hf⟩ := Option.ne_none_iff_exists'.mp hf
    rw [logEvent_found db req env sid kind session hsid hkind hs hk hf] at hno
    simp [hc, Response.status] at hno

/-- A `stop` none of whose calls throws and that is not answered 200 leaves the store as
it was. -/
theorem stopSession_calm_rejected (db : Db) (sessionId : Option String) (env : Env)
    (hc : env.fault = .none) (hno : (stopSession db sessionId env).res.status ≠ 200) :
    (stopSession db sessionId env).db = db := by
  rcases sessionId with _ | sid
  · rfl
  by_cases hs : sid = ""
  · simp [stopSession, hs]
  cases hf : findByPk db sid with
  | none => simp [stopSession, hs, hc, hf]
  | some session =>
    by_cases hact : session.status = "active"
    · rw [stopSession_active db sid env session hs hf hact] at hno
      simp [hc, Response.status] at hno
    · simp [stopSession, hs, hc, hf, hact]

/-- One request or socket event none of whose calls throws: the session's `totalEvents`
grows by 1 exactly for a `logEvent` of the session answered 201, and the number of the
session's stored events grows by 1 for such a call and for a `start` or `stop` that stores
its lifecycle row. -/
theorem step_totals (sessionId : String) (sys : System) (op : Op) (hc : op.calm = true) :
    totalOf (step sys op).db sessionId
      = totalOf sys.db sessionId + (successfulLogs sessionId sys [op] : Nat) ∧
    (eventsOf (step sys op).db sessionId).length
      = (eventsOf sys.db sessionId).length + successfulLogs sessionId sys [op]
        + lifecycleRows sessionId sys [op] := by
  cases op with
  | join socket room => simp [step, successfulLogs, lifecycleRows]
  | relay socket room data => simp [step, successfulLogs, lifecycleRows]
  | disconnect socket => simp [step, successfulLogs, lifecycleRows]
  | override id f i env =>
    have hc2 : env.fault = .none := by simpa [Op.calm] using hc
    simp only [step, successfulLogs, lifecycleRows, Nat.add_zero, Nat.cast_zero, add_zero]
    cases hf : findByPk sys.db id with
    | none => simp [putFocusScore, hc2, hf]
    | some session =>
      simp only [putFocusScore, hc2, hf, reduceCtorEq, if_false]
      exact ⟨totalOf_updateSession _ _ _ _ rfl, rfl⟩
  | start req env =>
    have hc2 : env.fault = .none := by simpa [Op.calm] using hc
    simp only [step, successfulLogs, lifecycleRows, Nat.add_zero, Nat.cast_zero, add_zero,
      Nat.zero_add]
    rcases hname : req.candidateName with _ | name
    · simp [startSession, hname, Response.status]
    by_cases hne : name = ""
    · simp [startSession, hname, hne, Response.status]
    · simp only [startSession, hname, hne, hc2, reduceCtorEq, if_false, Response.status,
        and_true]
      constructor
      · show totalOf ((sys.db.createSession _).createEvent _) sessionId = _
        unfold totalOf
        rw [findByPk_createEvent]
        exact totalOf_createSession sys.db _ sessionId rfl
      · rw [eventsOf_createEvent]
        rfl
  | log req env =>
    have hc2 : env.fault = .none := by simpa [Op.calm] using hc
    simp only [step, successfulLogs, lifecycleRows, Nat.add_zero]
    by_cases hok : (logEvent sys.db req env).res.status = 201
    · obtain ⟨sid, kind, session, hsid, hkind, hf, hdb⟩ :=
        logEvent_ok_fields sys.db req env hok
      rw [hdb]
      have hlen := eventsOf_ingest sys.db (ingestedEvent req env sid kind) sid
        (counterUpdate session kind) sessionId
      by_cases hsame : sid = sessionId
      · subst hsame
        have hrow : findByPk ((sys.db.createEvent (ingestedEvent req env sid kind)).updateSession
            sid (counterUpdate session kind)) sid = some (updateSessionCounters session kind) := by
          rw [findByPk_updateSession_same, findByPk_createEvent, hf]
          rfl
        constructor
        · simp only [totalOf, hrow, hf, Option.map_some', Option.getD_some, hsid, hok,
            and_self, if_true, (updateSessionCounters_fields session kind).1]
          rfl
        · rw [hlen]
          simp [hsid, hok, ingestedEvent]
      · have hne : ¬ sessionId = sid := fun e => hsame e.symm
        have hne2 : ¬ req.sessionId = some sessionId := by
          rw [hsid]
          exact fun e => hsame (Option.some.inj e)
        constructor
        · simp only [totalOf, findByPk_updateSession_ne _ _ _ _ hne, findByPk_createEvent,
            hne2, false_and, if_false, Nat.cast_zero, add_zero]
        · rw [hlen]
          simp [hne2, ingestedEvent, hsame]
    · rw [logEvent_calm_rejected sys.db req env hc2 hok]
      simp [hok]
  | stop sid env =>
    have hc2 : env.fault = .none := by simpa [Op.calm] using hc
    simp only [step, successfulLogs, lifecycleRows, Nat.add_zero, Nat.cast_zero, add_zero,
      Nat.zero_add]
    by_cases hok : (stopSession sys.db sid env).res.status = 200
    · rcases sid with _ | sid
      · simp [stopSession, Response.status] at hok
      obtain ⟨hs, session, hf, hact, _, _, _⟩ := stopSession_ok sys.db sid env hok
      have hdb : (stopSession sys.db (some sid) env).db
          = (sys.db.updateSession sid
              { endTime := some env.now
                duration := some (elapsedSeconds env.now session.startTime)
                status := some "completed" }).createEvent
              (sessionEndEvent env sid session.candidateName env.now) := by
        rw [stopSession_active sys.db sid env session hs hf hact]
        simp [hc2]
      rw [hdb]
      constructor
      · unfold totalOf
        rw [findByPk_createEvent]
        exact totalOf_updateSession _ _ _ _ rfl
      · rw [eventsOf_createEvent]
        simp only [hok, and_true, Option.some.injEq, sessionEndEvent]
        rfl
    · rw [stopSession_calm_rejected sys.db sid env hc2 hok]
      simp [hok]

theorem successfulLogs_cons (sessionId : String) (sys : System) (op : Op) (rest : List Op) :
    successfulLogs sessionId sys (op :: rest)
      = successfulLogs sessionId sys [op] + successfulLogs sessionId (step sys op) rest := by
  simp [successfulLogs]

theorem lifecycleRows_cons (sessionId : String) (sys : System) (op : Op) (rest : List Op) :
    lifecycleRows sessionId sys (op :: rest)
      = lifecycleRows sessionId sys [op] + lifecycleRows sessionId (step sys op) rest := by
  simp [lifecycleRows]

theorem run_totals (sessionId : String) (ops : List Op) (sys : System)
    (hc : ∀ op ∈ ops, op.calm = true) :
    totalOf (run sys ops).db sessionId
      = totalOf sys.db sessionId + (successfulLogs sessionId sys ops : Nat) ∧
    (eventsOf (run sys ops).db sessionId).length
      = (eventsOf sys.db sessionId).length + successfulLogs sessionId sys ops
        + lifecycleRows sessionId sys ops := by
  induction ops generalizing sys with
  | nil => simp [run, successfulLogs, lifecycleRows]
  | cons op rest ih =>
    obtain ⟨h1, h2⟩ := step_totals sessionId sys op (hc op (List.mem_cons_self op rest))
    obtain ⟨h3, h4⟩ := ih (step sys op) (fun o ho => hc o (List.mem_cons_of_mem op ho))
    have hrun : run sys (op :: rest) = run (step sys op) rest := rfl
    rw [hrun, successfulLogs_cons, lifecycleRows_cons]
    constructor
    · rw [h3, h1]
      push_cast
      ring
    · rw [h4, h2]
      omega

/-! ## C29: `totalEvents` against the stored events -/

/-- C29, counterexample: a session is started and a `logEvent` for it fails in
`session.update` after the event row was created: no `logEvent` was answered 201 and
`totalEvents` is 0, but the session has two stored events, one of them its
`session_start` row.  When the `emit` fails instead, no `logEvent` was answered 201 and
`totalEvents` is 1. -/
theorem failed_ingestion_breaks_total :
    successfulLogs "s1" emptySystem updateFaultOps = 0 ∧
    totalOf (run emptySystem updateFaultOps).db "s1" = 0 ∧
    lifecycleRows "s1" emptySystem updateFaultOps = 1 ∧
    (eventsOf (run emptySystem updateFaultOps).db "s1").length = 2 ∧
    successfulLogs "s1" emptySystem emitFaultOps = 0 ∧
    totalOf (run emptySystem emitFaultOps).db "s1" = 1 := by
  decide

/-- C29, amended: `start` and `stop` store their `session_start` and `session_end` rows
without touching the counters.  In every state reached from the empty server by requests
and socket events none of whose storage or socket calls throws, a session's `totalEvents`
is the number of `logEvent` calls for it that were answered 201, and the number of its
stored events is that number plus the number of lifecycle rows that `start` and `stop`
stored for it. -/
theorem totalEvents_counts_logged (ops : List Op) (sessionId : String)
    (hc : ∀ op ∈ ops, op.calm = true) :
    totalOf (run emptySystem ops).db sessionId
      = (successfulLogs sessionId emptySystem ops : Nat) ∧
    (eventsOf (run emptySystem ops).db sessionId).length
      = successfulLogs sessionId emptySystem ops + lifecycleRows sessionId emptySystem ops := by
  obtain ⟨h1, h2⟩ := run_totals sessionId ops emptySystem hc
  constructor
  · rw [h1]
    simp [totalOf, emptySystem, findByPk]
  · rw [h2]
    simp [eventsOf, emptySystem]

/-- C29 amended, instance: the scenario, started and stopped with three events logged:
five stored events and `totalEvents = 3`. -/
theorem totalEvents_counts_logged_witness :
    successfulLogs "s1" emptySystem scenarioOps = 3 ∧
    lifecycleRows "s1" emptySystem scenarioOps = 2 ∧
    totalOf (run emptySystem scenarioOps).db "s1"
      = (successfulLogs "s1" emptySystem scenarioOps : Nat) ∧
    (eventsOf (run emptySystem scenarioOps).db "s1").length
      = successfulLogs "s1" emptySystem scenarioOps
        + lifecycleRows "s1" emptySystem scenarioOps :=
  ⟨by decide, by decide, (totalEvents_counts_logged scenarioOps "s1" (by decide)).1,
    (totalEvents_counts_logged scenarioOps "s1" (by decide)).2⟩

/-- C27 amended, instance: a session with an observer, an event logged, a second observer
joining, a relayed message, the first observer leaving: two messages were sent, each to a
socket that had joined the channel. -/
theorem alerts_to_members_from_store_witness :
    (run emptySystem observedOps).hub.sent.length = 2 ∧
    ∀ m ∈ (run emptySystem observedOps).hub.sent,
      Op.join m.1 m.2.room ∈ observedOps ∧
      ∀ a, m.2 = .alert a →
        ∃ e ∈ (run emptySystem observedOps).db.events,
          e.sessionId = a.room ∧ alertFor a.room e = a :=
  ⟨by decide, (alerts_to_members_from_store observedOps).1⟩


/-! ## The component: a callback that holds the current state -/

theorem writeFaceAbsence_eq (c s : DetectionState) (t : Tick)
    (h : c.faceAbsentStart = s.faceAbsentStart) :
    writeFaceAbsence c t s = (handleFaceAbsence s t).1 := by
  unfold writeFaceAbsence handleFaceAbsence
  rw [h]
  split_ifs <;> rfl

theorem writeFocusLoss_eq (c s : DetectionState) (t : Tick)
    (h : c.focusLostStart = s.focusLostStart) :
    writeFocusLoss c t s = (handleFocusLoss s t).1 := by
  unfold writeFocusLoss handleFocusLoss
  rw [h]
  split_ifs <;> rfl

theorem writeDrowsiness_eq (c s : DetectionState) (t : Tick) (h : c.isDrowsy = s.isDrowsy) :
    writeDrowsiness c t s = (handleDrowsiness s t).1 := by
  unfold writeDrowsiness handleDrowsiness
  rw [h]
  split_ifs <;> rfl

theorem handleFaceAbsence_focusLostStart (st : DetectionState) (t : Tick) :
    (handleFaceAbsence st t).1.focusLostStart = st.focusLostStart := by
  unfold handleFaceAbsence
  split_ifs <;> rfl

/-- A callback that captured the state it writes to does what `runDetection` does. -/
theorem callWrites_self (s : DetectionState) (t : Tick) :
    callWrites s t s = (runDetection s t).1 := by
  unfold callWrites runDetection
  by_cases h1 : t.enabled = true
  · by_cases h2 : (!t.hasVideo || t.readyState != 4) = true
    · simp [h1, h2]
    · simp only [h1, h2, Bool.not_true, Bool.false_eq_true, if_false]
      rw [writeFaceAbsence_eq s s t rfl,
        writeFocusLoss_eq s _ t (handleFaceAbsence_focusLostStart s t).symm,
        writeDrowsiness_eq s _ t
          ((handleFocusLoss_isDrowsy _ t).trans (handleFaceAbsence_isDrowsy s t)).symm]
  · simp [h1]

theorem debounceStep_pending_now (threshold : Int) (h0 : 0 ≤ threshold) (now : Int) :
    (debounceStep threshold (some now) true now).1 = some now := by
  unfold debounceStep
  by_cases hn : jsNot (some now) = true
  · simp [hn]
  · have h : ¬ threshold < 0 := by omega
    simp [hn, h]

theorem debounceStep_settles (threshold : Int) (h0 : 0 ≤ threshold) (p : Option Int)
    (raw : Bool) (now : Int) :
    (debounceStep threshold (debounceStep threshold
        (debounceStep threshold p raw now).1 raw now).1 raw now).1
      = (debounceStep threshold (debounceStep threshold p raw now).1 raw now).1 := by
  cases raw
  · simp [debounceStep]
  · have hnone : (debounceStep threshold none true now).1 = some now := by
      simp [debounceStep, jsNot]
    by_cases hn : jsNot p = true
    · have h1 : (debounceStep threshold p true now).1 = some now := by
        simp [debounceStep, hn]
      rw [h1, debounceStep_pending_now threshold h0, debounceStep_pending_now threshold h0]
    · by_cases hf : now - p.getD 0 > threshold
      · have h1 : (debounceStep threshold p true now).1 = none := by
          simp [debounceStep, hn, hf]
        rw [h1, hnone, debounceStep_pending_now threshold h0]
      · have h1 : (debounceStep threshold p true now).1 = p := by
          simp [debounceStep, hn, hf]
        rw [h1, h1, h1]

theorem runDetection_deps_settle (s : DetectionState) (t : Tick) :
    (runDetection (runDetection (runDetection s t).1 t).1 t).1.deps
      = (runDetection (runDetection s t).1 t).1.deps := by
  have hf := fun st => (runDetection_debounce .faceAbsent st t).1
  have hg := fun st => (runDetection_debounce .focusLost st t).1
  have hd := fun st => (runDetection_drowsiness st t).2
  simp only [Signal.pending, Signal.holdThreshold, Signal.raw, Signal.clock] at hf hg
  unfold DetectionState.deps
  rw [hf, hg, hd, hf (runDetection s t).1, hg (runDetection s t).1, hd (runDetection s t).1,
    hf s, hg s, hd s]
  by_cases hr : t.ready = true
  · simp only [hr, if_true]
    rw [debounceStep_settles 10000 (by decide), debounceStep_settles 5000 (by decide)]
  · simp [hr]

/-- Three renders after a frame are enough: the state the last callback leaves is the
state it captured. -/
theorem settle_stable (comp : Component) (t : Tick) :
    (settle 3 comp t).1.state.deps = (settle 3 comp t).1.rendered.deps := by
  by_cases h1 : comp.state.deps = comp.rendered.deps
  · simp only [settle, h1, if_true]
  · by_cases h2 : (callWrites comp.state t comp.state).deps = comp.state.deps
    · simp only [settle, h1, h2, if_true, if_false]
    · by_cases h3 : (callWrites (callWrites comp.state t comp.state) t
          (callWrites comp.state t comp.state)).deps
          = (callWrites comp.state t comp.state).deps
      · simp only [settle, h1, h2, h3, if_true, if_false]
      · simp only [settle, h1, h2, h3, if_false]
        rw [callWrites_self, callWrites_self, callWrites_self]
        exact runDetection_deps_settle comp.state t

/-! ## The component: what the queued callbacks log -/

theorem runQueued_events_ge (kind : String) (t : Tick) (c : DetectionState)
    (l : List DetectionState) (s : DetectionState) (hc : c ∈ l) :
    (eventsOfKind kind (runDetection c t).2).length
      ≤ (eventsOfKind kind (runQueued t l s).2).length := by
  induction l generalizing s with
  | nil => cases hc
  | cons d rest ih =>
    simp only [runQueued, eventsOfKind, List.filter_append, List.length_append]
    rcases List.mem_cons.mp hc with h | h
    · subst h
      exact Nat.le_add_right _ _
    · have := ih (callWrites d t s) h
      simp only [eventsOfKind] at this
      omega

theorem frame_events_ge (kind : String) (comp : Component) (t : Tick) (c : DetectionState)
    (hc : c ∈ comp.loops) :
    (eventsOfKind kind (runDetection c t).2).length
      ≤ (eventsOfKind kind (frame comp t).2).length := by
  have h := runQueued_events_ge kind t c comp.loops comp.state hc
  simp only [frame, eventsOfKind, List.filter_append, List.length_append] at h ⊢
  omega

theorem settle_loops (n : Nat) (comp : Component) (t : Tick) (ht : t.enabled = true)
    (c : DetectionState) (hc : c ∈ comp.loops) : c ∈ (settle n comp t).1.loops := by
  induction n generalizing comp with
  | zero => exact hc
  | succ n ih =>
    unfold settle
    split_ifs with h
    · exact hc
    · apply ih
      simp only [ht, if_true]
      exact List.mem_append_left _ hc

theorem frame_loops (comp : Component) (t : Tick) (ht : t.enabled = true)
    (c : DetectionState) (hc : c ∈ comp.loops) : c ∈ (frame comp t).1.loops := by
  unfold frame
  apply settle_loops 3 _ t ht
  simp only [ht, if_true]
  exact hc

theorem runFrames_loops (ticks : List Tick) (comp : Component)
    (ht : ∀ t ∈ ticks, t.enabled = true) (c : DetectionState) (hc : c ∈ comp.loops) :
    c ∈ (runFrames comp ticks).1.loops := by
  induction ticks generalizing comp with
  | nil => exact hc
  | cons t rest ih =>
    simp only [runFrames]
    exact ih (frame comp t).1 (fun u hu => ht u (List.mem_cons_of_mem t hu))
      (frame_loops comp t (ht t (List.mem_cons_self t rest)) c hc)

theorem runFrames_events_ge (kind : String) (ticks : List Tick) (comp : Component)
    (ht : ∀ t ∈ ticks, t.enabled = true) (c : DetectionState) (hc : c ∈ comp.loops)
    (t : Tick) (hmem : t ∈ ticks) :
    (eventsOfKind kind (runDetection c t).2).length
      ≤ (eventsOfKind kind (runFrames comp ticks).2).length := by
  induction ticks generalizing comp with
  | nil => cases hmem
  | cons u rest ih =>
    simp only [runFrames, eventsOfKind, List.filter_append, List.length_append]
    rcases List.mem_cons.mp hmem with h | h
    · subst h
      have := frame_events_ge kind comp t c hc
      simp only [eventsOfKind] at this
      omega
    · have := ih (frame comp u).1 (fun v hv => ht v (List.mem_cons_of_mem u hv))
        (frame_loops comp u (ht u (List.mem_cons_self u rest)) c hc) h
      simp only [eventsOfKind] at this
      omega

theorem settle_renderedQueued (n : Nat) (comp : Component) (t : Tick)
    (ht : t.enabled = true) (h : comp.RenderedQueued) :
    (settle n comp t).1.RenderedQueued := by
  induction n generalizing comp with
  | zero => exact h
  | succ n ih =>
    unfold settle
    split_ifs with hd
    · exact h
    · apply ih
      refine ⟨comp.state, ?_, rfl⟩
      simp only [ht, if_true]
      exact List.mem_append_right _ (List.mem_singleton_self _)

theorem frame_renderedQueued (comp : Component) (t : Tick) (ht : t.enabled = true)
    (h : comp.RenderedQueued) : (frame comp t).1.RenderedQueued := by
  unfold frame
  apply settle_renderedQueued 3 _ t ht
  obtain ⟨c, hc, hd⟩ := h
  refine ⟨c, ?_, hd⟩
  simp only [ht, if_true]
  exact hc

theorem runFrames_renderedQueued (ticks : List Tick) (comp : Component)
    (ht : ∀ t ∈ ticks, t.enabled = true) (h : comp.RenderedQueued) :
    (runFrames comp ticks).1.RenderedQueued := by
  induction ticks generalizing comp with
  | nil => exact h
  | cons t rest ih =>
    simp only [runFrames]
    exact ih (frame comp t).1 (fun u hu => ht u (List.mem_cons_of_mem t hu))
      (frame_renderedQueued comp t (ht t (List.mem_cons_self t rest)) h)

theorem ready_enabled (t : Tick) (h : t.ready = true) : t.enabled = true := by
  simp only [Tick.ready, Bool.and_eq_true] at h
  exact h.1.1

theorem writeDrowsiness_pending (sig : Signal) (c s : DetectionState) (t : Tick) :
    sig.pending (writeDrowsiness c t s) = sig.pending s := by
  cases sig <;> simp only [writeDrowsiness, Signal.pending] <;> split_ifs <;> rfl

theorem writeFaceAbsence_pending (c s : DetectionState) (t : Tick) :
    (writeFaceAbsence c t s).faceAbsentStart
      = (if !t.hasFace then
          if jsNot c.faceAbsentStart then some t.nowFace
          else if t.nowFace - c.faceAbsentStart.getD 0 > 10000 then none
          else s.faceAbsentStart
        else none) ∧
    (writeFaceAbsence c t s).focusLostStart = s.focusLostStart := by
  unfold writeFaceAbsence
  split_ifs <;> exact ⟨rfl, rfl⟩

theorem writeFocusLoss_pending (c s : DetectionState) (t : Tick) :
    (writeFocusLoss c t s).focusLostStart
      = (if t.isLookingAway then
          if jsNot c.focusLostStart then some t.nowFocus
          else if t.nowFocus - c.focusLostStart.getD 0 > 5000 then none
          else s.focusLostStart
        else none) ∧
    (writeFocusLoss c t s).faceAbsentStart = s.faceAbsentStart := by
  unfold writeFocusLoss
  split_ifs <;> exact ⟨rfl, rfl⟩

theorem callWrites_ready (c s : DetectionState) (t : Tick) (hr : t.ready = true) :
    callWrites c t s = writeDrowsiness c t (writeFocusLoss c t (writeFaceAbsence c t s)) := by
  simp only [Tick.ready, Bool.and_eq_true, beq_iff_eq] at hr
  obtain ⟨⟨h1, h2⟩, h3⟩ := hr
  simp [callWrites, h1, h2, h3]

/-- On a processed frame with the signal true, a callback writes the signal's pending
start from the value it captured: the clock when that is null, null when it fires. -/
theorem callWrites_pending (sig : Signal) (c s : DetectionState) (t : Tick)
    (hr : t.ready = true) (hraw : sig.raw t = true) :
    sig.pending (callWrites c t s)
      = if jsNot (sig.pending c) then some (sig.clock t)
        else if sig.clock t - (sig.pending c).getD 0 > sig.holdThreshold then none
        else sig.pending s := by
  rw [callWrites_ready c s t hr, writeDrowsiness_pending]
  cases sig
  · simp only [Signal.raw] at hraw
    simp only [Signal.pending, Signal.clock, Signal.holdThreshold]
    rw [(writeFocusLoss_pending c _ t).2, (writeFaceAbsence_pending c s t).1, hraw]
    rfl
  · simp only [Signal.raw] at hraw
    simp only [Signal.pending, Signal.clock, Signal.holdThreshold]
    rw [(writeFocusLoss_pending c _ t).1, hraw, (writeFaceAbsence_pending c s t).2]
    rfl

theorem runQueued_pending (sig : Signal) (t : Tick) (hr : t.ready = true)
    (hraw : sig.raw t = true) (l : List DetectionState) (s : DetectionState)
    (hq : ∀ c ∈ l, (eventsOfKind sig.kind (runDetection c t).2).length = 0) :
    sig.pending (runQueued t l s).1
      = if l.any (fun c => jsNot (sig.pending c)) then some (sig.clock t)
        else sig.pending s := by
  induction l generalizing s with
  | nil => simp [runQueued]
  | cons c rest ih =>
    simp only [runQueued, List.any_cons]
    rw [ih (callWrites c t s) (fun d hd => hq d (List.mem_cons_of_mem c hd)),
      callWrites_pending sig c s t hr hraw]
    by_cases hn : jsNot (sig.pending c) = true
    · simp [hn]
    · have hev := hq c (List.mem_cons_self c rest)
      rw [(runDetection_debounce sig c t).2, hr] at hev
      have hnf : ¬ (sig.clock t - (sig.pending c).getD 0 > sig.holdThreshold) := by
        intro hgt
        simp [debounceStep, hraw, hn, hgt] at hev
      simp [hn, hnf]

theorem deps_pending (sig : Signal) (a b : DetectionState) (h : a.deps = b.deps) :
    sig.pending a = sig.pending b := by
  simp only [DetectionState.deps, Prod.mk.injEq] at h
  cases sig
  · exact h.1
  · exact h.2.1

/-- The first frame of an episode: a callback fires on it, or a callback that captured the
frame's clock as the pending start is queued after it. -/
theorem frame_starts_timer (sig : Signal) (comp : Component) (t : Tick)
    (hidle : ∃ c ∈ comp.loops, sig.pending c = none) (hq : comp.RenderedQueued)
    (hr : t.ready = true) (hraw : sig.raw t = true) :
    1 ≤ (eventsOfKind sig.kind (frame comp t).2).length ∨
    ∃ c ∈ (frame comp t).1.loops, sig.pending c = some (sig.clock t) := by
  have hen := ready_enabled t hr
  by_cases hev : ∀ c ∈ comp.loops, (eventsOfKind sig.kind (runDetection c t).2).length = 0
  · right
    obtain ⟨c0, hc0, hp0⟩ := hidle
    have hany : comp.loops.any (fun c => jsNot (sig.pending c)) = true := by
      rw [List.any_eq_true]
      exact ⟨c0, hc0, by rw [hp0]; rfl⟩
    have hp := runQueued_pending sig t hr hraw comp.loops comp.state hev
    rw [hany, if_pos rfl] at hp
    unfold frame
    simp only [hen, if_true]
    by_cases hd : (runQueued t comp.loops comp.state).1.deps = comp.rendered.deps
    · obtain ⟨c, hc, hcd⟩ := hq
      refine ⟨c, settle_loops 3 _ t hen c hc, ?_⟩
      rw [deps_pending sig c comp.rendered hcd, ← deps_pending sig _ _ hd, hp]
    · refine ⟨(runQueued t comp.loops comp.state).1, ?_, hp⟩
      rw [settle]
      simp only [hd, if_false, hen, if_true]
      apply settle_loops 2 _ t hen
      exact List.mem_append_right _ (List.mem_singleton_self _)
  · left
    push_neg at hev
    obtain ⟨c, hc, hne⟩ := hev
    have := frame_events_ge sig.kind comp t c hc
    omega

theorem mounted_renderedQueued (now : Int) : (mounted now).RenderedQueued :=
  ⟨_, List.mem_singleton_self _, rfl⟩

theorem runQueued_object (c : ObjectClass) (t : Tick) (l : List DetectionState)
    (s : DetectionState) :
    (eventsOfKind c.kind (runQueued t l s).2).length
      = l.length * (if t.ready && c.detected t then 1 else 0) := by
  induction l generalizing s with
  | nil => simp [runQueued, eventsOfKind]
  | cons d rest ih =>
    have h := runDetection_object c d t
    have h2 := ih (callWrites d t s)
    simp only [runQueued, eventsOfKind, List.filter_append, List.length_append,
      List.length_cons] at h h2 ⊢
    rw [h, h2, Nat.add_mul, Nat.one_mul, Nat.add_comm]

theorem settle_object (c : ObjectClass) (n : Nat) (comp : Component) (t : Tick)
    (ht : t.enabled = true) :
    comp.loops.length * (if t.ready && c.detected t then 1 else 0)
        + (eventsOfKind c.kind (settle n comp t).2).length
      = (settle n comp t).1.loops.length * (if t.ready && c.detected t then 1 else 0) := by
  have hobj := fun st => runDetection_object c st t
  generalize (if t.ready && c.detected t then 1 else 0) = k at hobj ⊢
  induction n generalizing comp with
  | zero => simp [settle, eventsOfKind]
  | succ n ih =>
    by_cases hd : comp.state.deps = comp.rendered.deps
    · simp [settle, hd, eventsOfKind]
    · have h := hobj comp.state
      have h2 := ih ⟨callWrites comp.state t comp.state, comp.state,
        comp.loops ++ [comp.state]⟩
      simp only [settle, hd, if_false, ht, if_true, List.length_append,
        List.length_singleton, eventsOfKind, List.filter_append] at h h2 ⊢
      rw [← h2, h, Nat.add_mul, Nat.one_mul]
      omega

/-- On a processed frame every callback that is called logs one event of each detected
object class: the frame gives as many events of the class as there are queued callbacks
after it. -/
theorem frame_object (c : ObjectClass) (comp : Component) (t : Tick) (hr : t.ready = true) :
    (eventsOfKind c.kind (frame comp t).2).length
      = if c.detected t then (frame comp t).1.loops.length else 0 := by
  have hen := ready_enabled t hr
  have h1 := runQueued_object c t comp.loops comp.state
  have h2 := settle_object c 3 ⟨(runQueued t comp.loops comp.state).1, comp.rendered,
    comp.loops⟩ t hen
  simp only [frame, eventsOfKind, List.filter_append, List.length_append, hen, if_true, hr,
    Bool.true_and] at h1 h2 ⊢
  rw [h1]
  by_cases hdet : c.detected t = true
  · simp only [hdet, if_true, Nat.mul_one] at h2 ⊢
    exact h2
  · simp only [hdet, Bool.false_eq_true, if_false, Nat.mul_zero, Nat.zero_add] at h2 ⊢
    exact h2

/-- The callback built at mount stays queued and holds `isDrowsy = false`: after any
frames since detection started, every processed frame on which the classifier reports
drowsy gives at least one `drowsiness_detected` event, whatever the stored flag is. -/
theorem drowsy_frame_logged (now : Int) (pre : List Tick) (t : Tick)
    (hpre : ∀ u ∈ pre, u.enabled = true) (hr : t.ready = true) (hd : t.isDrowsy = true) :
    1 ≤ (eventsOfKind "drowsiness_detected"
      (frame (runFrames (mounted now) pre).1 t).2).length := by
  have hc := runFrames_loops pre (mounted now) hpre _ (List.mem_singleton_self _)
  have h := frame_events_ge "drowsiness_detected" (runFrames (mounted now) pre).1 t _ hc
  rw [(runDetection_drowsiness _ t).1, hr, hd] at h
  exact h

/-- On the frames of `gazeAwayTicks` and on three frames with a phone in view the component
hands `logEvent` the events of the chain of calls: the state changes at most once before
the event, and the callback built then is the one that logs it. -/
theorem component_logs_chain_events :
    (runFrames (mounted 0) gazeAwayTicks).2 = (runLoop idleState gazeAwayTicks).2 ∧
    (runFrames (mounted 0) [phoneTick true 1000000, phoneTick true 1000016,
        phoneTick true 1000033]).2
      = (runLoop idleState [phoneTick true 1000000, phoneTick true 1000016,
          phoneTick true 1000033]).2 :=
  ⟨rfl, rfl⟩

/-! ## C10: a signal that ends before the hold threshold -/

/-- C10, the code at the failing input: the gaze is off-center for 1 s (frames at 0 s and
1 s), on-center from 2 s to 7 s, off-center for 1 s again (frames at 8 s and 9 s) and
on-center at 10 s.  The first episode logs nothing and leaves the pending start null.  The
first frame of the second episode logs two `focus_lost` events and its second frame two
more, logged by the callbacks that were built during the first episode and still hold its
start times; the pending start is the frame's clock after the first frame of the second
episode and null at the end. -/
theorem short_second_episode_logs :
    (eventsOfKind "focus_lost" (runFrames (mounted 999000) (gazeTwice.take 8)).2).length = 0 ∧
    (runFrames (mounted 999000) (gazeTwice.take 8)).1.state.focusLostStart = none ∧
    (eventsOfKind "focus_lost" (runFrames (mounted 999000) (gazeTwice.take 9)).2).length = 2 ∧
    (runFrames (mounted 999000) (gazeTwice.take 9)).1.state.focusLostStart = some 1008000 ∧
    (eventsOfKind "focus_lost" (runFrames (mounted 999000) gazeTwice).2).length = 4 ∧
    (runFrames (mounted 999000) gazeTwice).1.state.focusLostStart = none := by
  decide

/-! ## C11: how many events a long episode gives -/

/-- C11, counterexample: a face absent from 0 s to 10 s, observed at 0 s, 5 s and 10 s and
back at 11 s, has been absent for the hold threshold and gives no `face_absent` event; a
face absent for 12 s, observed every second, gives three. -/
theorem exact_episode_none_long_episode_three :
    (eventsOfKind "face_absent"
      (runFrames (mounted 999000)
        (absentFrames 1000000 5000 3 ++ [faceTick true 1011000])).2).length = 0 ∧
    (eventsOfKind "face_absent"
      (runFrames (mounted 999000) (absentFrames 1000000 1000 13)).2).length = 3 := by
  decide

/-- C11, amended: for the face-absence and the focus-lost signal alike, let the component
have gone through any frames since detection started (the webcam element in place), let a
processed frame then see the signal true (at a clock value other than 0), and let the
following frames of the episode be processed and see it true.  If one of them reads the clock more than the hold threshold
(10 s, 5 s) after the first, at least one event of the signal's kind is handed to
`logEvent` during the episode. -/
theorem long_episode_logs_an_event (sig : Signal) (now : Int) (pre : List Tick)
    (first : Tick) (rest : List Tick)
    (hpre : ∀ t ∈ pre, t.enabled = true)
    (hfirst : first.ready = true ∧ sig.raw first = true ∧ sig.clock first ≠ 0)
    (hrest : ∀ t ∈ rest, t.ready = true ∧ sig.raw t = true)
    (hlong : ∃ t ∈ rest, sig.holdThreshold < sig.clock t - sig.clock first) :
    1 ≤ (eventsOfKind sig.kind
      (runFrames (runFrames (mounted now) pre).1 (first :: rest)).2).length := by
  have hidle : ∃ c ∈ (runFrames (mounted now) pre).1.loops, sig.pending c = none := by
    refine ⟨_, runFrames_loops pre (mounted now) hpre _ (List.mem_singleton_self _), ?_⟩
    cases sig <;> rfl
  have hq := runFrames_renderedQueued pre (mounted now) hpre (mounted_renderedQueued now)
  simp only [runFrames, eventsOfKind, List.filter_append, List.length_append]
  rcases frame_starts_timer sig _ first hidle hq hfirst.1 hfirst.2.1 with h | ⟨c, hc, hp⟩
  · simp only [eventsOfKind] at h
    omega
  · obtain ⟨t, ht, hgt⟩ := hlong
    have hfire := (runDetection_fire sig c t (sig.clock first) hp hfirst.2.2 (hrest t ht).1
      (hrest t ht).2 hgt).1
    have hge := runFrames_events_ge sig.kind rest
      (frame (runFrames (mounted now) pre).1 first).1
      (fun u hu => ready_enabled u (hrest u hu).1) c hc t ht
    simp only [eventsOfKind] at hfire hge
    omega

/-- C11 amended, instance: a face absent for 12 s from the first frame on, observed every
second. -/
theorem long_episode_logs_an_event_witness :
    1 ≤ (eventsOfKind "face_absent"
      (runFrames (mounted 999000)
        (faceTick false 1000000 :: absentFrames 1001000 1000 12)).2).length :=
  long_episode_logs_an_event .faceAbsent 999000 [] (faceTick false 1000000)
    (absentFrames 1001000 1000 12) (by simp) (by decide) (by decide) (by decide)

/-! ## C14: drowsiness -/

/-- C14, the code at the failing input: six frames, drowsy on the second to fourth and on
the sixth, so two false-to-true transitions.  The component logs five
`drowsiness_detected` events: after the second frame the stored flag is true, and the third
frame is logged all the same, by the callback built before the flag was set. -/
theorem stale_callbacks_log_drowsy_frames :
    (eventsOfKind "drowsiness_detected"
      (runFrames (mounted 999000) drowsyFrames).2).length = 5 ∧
    risingEdges false (drowsyFrames.map (fun t => t.isDrowsy)) = 2 ∧
    (runFrames (mounted 999000) (drowsyFrames.take 2)).1.state.isDrowsy = true ∧
    (eventsOfKind "drowsiness_detected"
      (runFrames (mounted 999000) (drowsyFrames.take 2)).2).length = 1 ∧
    (eventsOfKind "drowsiness_detected"
      (runFrames (mounted 999000) (drowsyFrames.take 3)).2).length = 2 := by
  decide

end Proctoring
